import Mathlib

/-!
# EMMAS service access point (`NAS/EMM/SAP/emm_as.c`)

A shallow embedding of the EMMAS-SAP of the NAS stack: the primitive
dispatcher `emm_as_send`, the receive pipeline (`_emm_as_recv`,
`_emm_as_data_ind`, `_emm_as_establish_req`), the security header selector
`_emm_as_set_header`, the codec adapter and the send pipeline (`_emm_as_send`
and the functions it routes to), followed by the properties proved about the
receive pipeline, the dispatcher and the selector.

Conventions of the embedding.

* C integers are `Int` (signed results, cause codes) or `Nat` (unsigned
  fields); a C truth test on an integer `x` is `x ≠ 0`.
* A pointer that may be `NULL` is an `Option`; a function that would
  dereference a `NULL` pointer yields `none`.
* An output parameter of the C function is part of the returned value.
* The calls to external collaborators (codec, EMM procedure handlers, lower
  layer, status report) and the stores through the `emm_cause` pointer are
  recorded, in program order, in a trace of `Event`s.
* Numeric constants that `emm_as.c` takes from headers (`TLVDecoder.h`,
  `emm_cause.h`, `commonDef.h`, ...) are fields of `Codes`; enumerations that
  are only switched on are inductive types.
* The record types are declared in headers outside these sources; each one
  has the fields that `emm_as.c` accesses, under the names used there.
* The build modelled is the one with `NAS_BUILT_IN_EPC` defined.
-/

namespace EmmAs

/-! ## Constants -/

/-- The numeric constants that `emm_as.c` takes from headers outside the
verified sources.  Each one is a parameter of the embedding; a property that
depends on how two of them compare states so as a hypothesis. -/
structure Codes where
  RETURNok : Int
  RETURNerror : Int
  EMM_CAUSE_SUCCESS : Int
  EMM_CAUSE_PROTOCOL_ERROR : Int
  EMM_CAUSE_MESSAGE_TYPE_NOT_IMPLEMENTED : Int
  EMM_CAUSE_MESSAGE_TYPE_NOT_COMPATIBLE : Int
  EMM_CAUSE_IE_NOT_IMPLEMENTED : Int
  TLV_DECODE_UNEXPECTED_IEI : Int
  TLV_DECODE_FATAL_ERROR : Int
  TLV_DECODE_WRONG_MESSAGE_TYPE : Int
  TLV_DECODE_PROTOCOL_NOT_SUPPORTED : Int
  TLV_DECODE_BUFFER_TOO_SHORT : Int
  TLV_DECODE_MAC_MISMATCH : Int
  EPS_MOBILITY_MANAGEMENT_MESSAGE : Nat
  EPS_SESSION_MANAGEMENT_MESSAGE : Nat
  SECURITY_HEADER_TYPE_NOT_PROTECTED : Nat
  SECURITY_HEADER_TYPE_INTEGRITY_PROTECTED : Nat
  SECURITY_HEADER_TYPE_INTEGRITY_PROTECTED_CYPHERED : Nat
  SECURITY_HEADER_TYPE_INTEGRITY_PROTECTED_NEW : Nat
  SECURITY_HEADER_TYPE_INTEGRITY_PROTECTED_CYPHERED_NEW : Nat
  EMM_AS_NO_KEY_AVAILABLE : Nat
  NAS_MESSAGE_SECURITY_HEADER_SIZE : Int
  AS_DL_INFO_TRANSFER_REQ : Int
  AS_NAS_ESTABLISH_RSP : Int
  AS_NAS_ESTABLISH_CNF : Int
  AS_NAS_RELEASE_REQ : Int
  AS_PAGING_IND : Int
  AS_CELL_INFO_REQ : Int
  AS_SUCCESS : Nat
  AS_TERMINATED_NAS : Nat
  AS_AUTHENTICATION_FAILURE : Nat
  AS_DETACH : Nat
  EMM_AS_CAUSE_AUTHENTICATION : Nat
  EMM_AS_CAUSE_DETACH : Nat

/-- One assignment of the constants, used to evaluate the model on concrete
inputs: the values of 3GPP TS 24.301 for causes, protocol discriminators and
security header types, and small distinct numbers elsewhere. -/
def sampleCodes : Codes where
  RETURNok := 0
  RETURNerror := -1
  EMM_CAUSE_SUCCESS := -1
  EMM_CAUSE_PROTOCOL_ERROR := 111
  EMM_CAUSE_MESSAGE_TYPE_NOT_IMPLEMENTED := 97
  EMM_CAUSE_MESSAGE_TYPE_NOT_COMPATIBLE := 98
  EMM_CAUSE_IE_NOT_IMPLEMENTED := 99
  TLV_DECODE_UNEXPECTED_IEI := -1
  TLV_DECODE_FATAL_ERROR := -3
  TLV_DECODE_WRONG_MESSAGE_TYPE := -10
  TLV_DECODE_PROTOCOL_NOT_SUPPORTED := -11
  TLV_DECODE_BUFFER_TOO_SHORT := -12
  TLV_DECODE_MAC_MISMATCH := -14
  EPS_MOBILITY_MANAGEMENT_MESSAGE := 7
  EPS_SESSION_MANAGEMENT_MESSAGE := 2
  SECURITY_HEADER_TYPE_NOT_PROTECTED := 0
  SECURITY_HEADER_TYPE_INTEGRITY_PROTECTED := 1
  SECURITY_HEADER_TYPE_INTEGRITY_PROTECTED_CYPHERED := 2
  SECURITY_HEADER_TYPE_INTEGRITY_PROTECTED_NEW := 3
  SECURITY_HEADER_TYPE_INTEGRITY_PROTECTED_CYPHERED_NEW := 4
  EMM_AS_NO_KEY_AVAILABLE := 255
  NAS_MESSAGE_SECURITY_HEADER_SIZE := 6
  AS_DL_INFO_TRANSFER_REQ := 1
  AS_NAS_ESTABLISH_RSP := 2
  AS_NAS_ESTABLISH_CNF := 3
  AS_NAS_RELEASE_REQ := 4
  AS_PAGING_IND := 5
  AS_CELL_INFO_REQ := 6
  AS_SUCCESS := 1
  AS_TERMINATED_NAS := 2
  AS_AUTHENTICATION_FAILURE := 3
  AS_DETACH := 4
  EMM_AS_CAUSE_AUTHENTICATION := 1
  EMM_AS_CAUSE_DETACH := 2

/-! ## Data model -/

/-- A byte buffer. -/
abbrev Bytes := List Nat

/-- The `OctetString` of the NAS stack: a length and the bytes it points to. -/
structure OctetString where
  length : Nat
  value : Bytes
deriving DecidableEq, Repr

/-- Message types that the two receive switches of `emm_as.c` name as case
labels.  The numeric codes are not needed: a C `switch` requires its labels
to be pairwise distinct, and `unlisted` stands for every code that is none
of them. -/
inductive emm_message_type where
  | EMM_STATUS
  | ATTACH_REQUEST
  | IDENTITY_RESPONSE
  | AUTHENTICATION_RESPONSE
  | AUTHENTICATION_FAILURE
  | SECURITY_MODE_COMPLETE
  | SECURITY_MODE_REJECT
  | ATTACH_COMPLETE
  | TRACKING_AREA_UPDATE_COMPLETE
  | GUTI_REALLOCATION_COMPLETE
  | UPLINK_NAS_TRANSPORT
  | DETACH_REQUEST
  | TRACKING_AREA_UPDATE_REQUEST
  | SERVICE_REQUEST
  | EXTENDED_SERVICE_REQUEST
  | unlisted (code : Nat)
deriving DecidableEq, Repr

/-- Header of a plain EMM message (`emm_msg_header_t`). -/
structure emm_msg_header_t where
  protocol_discriminator : Nat
  security_header_type : Nat
  message_type : emm_message_type
deriving DecidableEq, Repr

/-- A plain EMM message (`EMM_msg`): its header and the information elements
of the message, which the SAP never inspects. -/
structure EMM_msg where
  header : emm_msg_header_t
  body : Bytes
deriving DecidableEq, Repr

/-- Security header of a NAS message (`nas_message_security_header_t`). -/
structure nas_message_security_header_t where
  protocol_discriminator : Nat
  security_header_type : Nat
  message_authentication_code : Nat
  sequence_number : Nat
deriving DecidableEq, Repr

/-- Plain NAS message (`nas_message_plain_t`); only the EMM member is used. -/
structure nas_message_plain_t where
  emm : EMM_msg
deriving DecidableEq, Repr

/-- Security protected NAS message (`nas_message_security_protected_t`). -/
structure nas_message_security_protected_t where
  header : nas_message_security_header_t
  plain : nas_message_plain_t
deriving DecidableEq, Repr

/-- Modelled from the spec: the NAS message envelope `nas_message_t`, whose
declaration is outside the verified sources: a header plus a plaintext
payload and a security-protected payload, the three members `emm_as.c`
accesses. -/
structure nas_message_t where
  header : nas_message_security_header_t
  security_protected : nas_message_security_protected_t
  plain : nas_message_plain_t
deriving DecidableEq, Repr

/-- The all-zero security header. -/
def nas_message_security_header_t.zero : nas_message_security_header_t :=
  { protocol_discriminator := 0, security_header_type := 0,
    message_authentication_code := 0, sequence_number := 0 }

/-- The all-zero EMM message. -/
def EMM_msg.zero : EMM_msg :=
  { header := { protocol_discriminator := 0, security_header_type := 0,
                message_type := emm_message_type.unlisted 0 },
    body := [] }

/-- The value of a `nas_message_t` after `memset (&nas_msg, 0, ...)`. -/
def nas_message_t.zero : nas_message_t :=
  { header := nas_message_security_header_t.zero,
    security_protected :=
      { header := nas_message_security_header_t.zero, plain := { emm := EMM_msg.zero } },
    plain := { emm := EMM_msg.zero } }

/-- Security data carried by a primitive (`emm_as_security_data_t`): the
security context snapshot the selector reads.  The keys are pointers. -/
structure emm_as_security_data_t where
  is_new : Nat
  ksi : Nat
  sqn : Nat
  count : Nat
  k_enc : Option OctetString
  k_int : Option OctetString
deriving DecidableEq, Repr

/-- The `EMM_msg *` returned by `_emm_as_set_header`: which plain EMM message
inside the `nas_message_t` it points to. -/
inductive EMM_msg_ptr where
  | plain_emm
  | security_protected_plain_emm
deriving DecidableEq, Repr

/-! ## Security header selector -/

/-- The statement `msg->header.security_header_type = t`. -/
def nas_message_t.set_security_header_type (msg : nas_message_t) (t : Nat) : nas_message_t :=
  { msg with header := { msg.header with security_header_type := t } }

/-- Embedding of `_emm_as_set_header`: the message after the call and the
returned pointer (`none` for `NULL`). -/
def _emm_as_set_header (K : Codes) (msg : nas_message_t)
    (security : Option emm_as_security_data_t) : nas_message_t × Option EMM_msg_ptr :=
  let msg : nas_message_t :=
    { msg with header :=
        { msg.header with protocol_discriminator := K.EPS_MOBILITY_MANAGEMENT_MESSAGE } }
  match security with
  | some security =>
    if security.ksi ≠ K.EMM_AS_NO_KEY_AVAILABLE then
      if security.is_new ≠ 0 then
        if security.k_int.isSome then
          if security.k_enc.isSome then
            (msg.set_security_header_type K.SECURITY_HEADER_TYPE_INTEGRITY_PROTECTED_CYPHERED_NEW,
              some EMM_msg_ptr.security_protected_plain_emm)
          else
            (msg.set_security_header_type K.SECURITY_HEADER_TYPE_INTEGRITY_PROTECTED_NEW,
              some EMM_msg_ptr.security_protected_plain_emm)
        else
          (msg, none)
      else if security.k_int.isSome then
        if security.k_enc.isSome then
          (msg.set_security_header_type K.SECURITY_HEADER_TYPE_INTEGRITY_PROTECTED_CYPHERED,
            some EMM_msg_ptr.security_protected_plain_emm)
        else
          (msg.set_security_header_type K.SECURITY_HEADER_TYPE_INTEGRITY_PROTECTED,
            some EMM_msg_ptr.security_protected_plain_emm)
      else
        (msg.set_security_header_type K.SECURITY_HEADER_TYPE_NOT_PROTECTED,
          some EMM_msg_ptr.plain_emm)
    else
      (msg.set_security_header_type K.SECURITY_HEADER_TYPE_NOT_PROTECTED,
        some EMM_msg_ptr.plain_emm)
  | none =>
    (msg.set_security_header_type K.SECURITY_HEADER_TYPE_NOT_PROTECTED,
      some EMM_msg_ptr.plain_emm)

/-! ## Security contexts and decode status -/

/-- A NAS count (`count_s`): overflow counter and sequence number. -/
structure count_t where
  overflow : Nat
  seq_num : Nat
deriving DecidableEq, Repr

/-- The algorithms selected by the MME. -/
structure selected_algorithms_t where
  encryption : Nat
  integrity : Nat
deriving DecidableEq, Repr

/-- Modelled from the spec: the per-subscriber security context
`emm_security_context_t`, declared outside the verified sources, with the
fields `emm_as.c` reads: the two counts, the selected algorithms and the
activation counter. -/
structure emm_security_context_t where
  dl_count : count_t
  ul_count : count_t
  selected_algorithms : selected_algorithms_t
  activated : Int
deriving DecidableEq, Repr

/-- The EMM context of a subscriber (`emm_data_context_t`); the SAP reads
only its `security` pointer. -/
structure emm_data_context_t where
  security : Option emm_security_context_t
deriving DecidableEq, Repr

/-- Modelled from the spec: the decode status `nas_message_decode_status_t`
filled in by the codec, declared outside the verified sources: three
independent flags.  They are kept as integers because the code compares them
with `0` and `1`. -/
structure nas_message_decode_status_t where
  security_context_available : Nat
  integrity_protected_message : Nat
  mac_matched : Nat
deriving DecidableEq, Repr

/-- The value of a decode status after `memset (&decode_status, 0, ...)`. -/
def nas_message_decode_status_t.zero : nas_message_decode_status_t :=
  { security_context_available := 0, integrity_protected_message := 0, mac_matched := 0 }

/-! ## SAP primitives -/

/-- The 16 EMMAS-SAP primitives (`emm_as_primitive_t`). -/
inductive emm_as_primitive_t where
  | _EMMAS_SECURITY_REQ
  | _EMMAS_SECURITY_IND
  | _EMMAS_SECURITY_RES
  | _EMMAS_SECURITY_REJ
  | _EMMAS_ESTABLISH_REQ
  | _EMMAS_ESTABLISH_CNF
  | _EMMAS_ESTABLISH_REJ
  | _EMMAS_RELEASE_REQ
  | _EMMAS_RELEASE_IND
  | _EMMAS_DATA_REQ
  | _EMMAS_DATA_IND
  | _EMMAS_PAGE_IND
  | _EMMAS_STATUS_IND
  | _EMMAS_CELL_INFO_REQ
  | _EMMAS_CELL_INFO_RES
  | _EMMAS_CELL_INFO_IND
deriving DecidableEq, Repr

/-- The part of a GUTI the SAP reads: MME code and M-TMSI. -/
structure GUTI_t where
  MMEcode : Nat
  m_tmsi : Nat
deriving DecidableEq, Repr

/-- Kinds of NAS information of a data request (`EMM_AS_NAS_DATA_*`); the
send switch names `EMM_AS_NAS_DATA_DETACH` only. -/
inductive emm_as_nas_data where
  | EMM_AS_NAS_DATA_DETACH
  | unlisted (code : Nat)
deriving DecidableEq, Repr

/-- Kinds of initial NAS information (`EMM_AS_NAS_INFO_*`); the send
switches name `EMM_AS_NAS_INFO_ATTACH` and `EMM_AS_NAS_INFO_TAU`. -/
inductive emm_as_nas_info where
  | EMM_AS_NAS_INFO_ATTACH
  | EMM_AS_NAS_INFO_TAU
  | unlisted (code : Nat)
deriving DecidableEq, Repr

/-- Kinds of NAS security message (`EMM_AS_MSG_TYPE_*`). -/
inductive emm_as_msg_type where
  | EMM_AS_MSG_TYPE_IDENT
  | EMM_AS_MSG_TYPE_AUTH
  | EMM_AS_MSG_TYPE_SMC
  | unlisted (code : Nat)
deriving DecidableEq, Repr

/-- Data transfer primitive (`emm_as_data_t`). -/
structure emm_as_data_t where
  ueid : Nat
  guti : Option GUTI_t
  sctx : emm_as_security_data_t
  delivered : Int
  NASinfo : emm_as_nas_data
  NASmsg : OctetString
deriving DecidableEq, Repr

/-- Connection establishment primitive (`emm_as_establish_t`); `UEid_guti`
is the member `UEid.guti`. -/
structure emm_as_establish_t where
  ueid : Nat
  UEid_guti : Option GUTI_t
  sctx : emm_as_security_data_t
  NASinfo : emm_as_nas_info
  NASmsg : OctetString
deriving DecidableEq, Repr

/-- Security primitive (`emm_as_security_t`). -/
structure emm_as_security_t where
  ueid : Nat
  guti : Option GUTI_t
  sctx : emm_as_security_data_t
  msgType : emm_as_msg_type
deriving DecidableEq, Repr

/-- Release primitive (`emm_as_release_t`). -/
structure emm_as_release_t where
  ueid : Nat
  guti : Option GUTI_t
  cause : Nat
deriving DecidableEq, Repr

/-- Status primitive (`emm_as_status_t`). -/
structure emm_as_status_t where
  ueid : Nat
  guti : Option GUTI_t
  sctx : emm_as_security_data_t
  emm_cause : Int
deriving DecidableEq, Repr

/-- Cell information primitive (`emm_as_cell_info_t`); `plmn0` is
`plmnIDs.plmn[0]`. -/
structure emm_as_cell_info_t where
  plmn0 : Nat
  rat : Nat
deriving DecidableEq, Repr

/-- The members of the union `u` of a primitive.  The code reads only the
member that belongs to the primitive at hand. -/
structure emm_as_u where
  security : emm_as_security_t
  establish : emm_as_establish_t
  release : emm_as_release_t
  data : emm_as_data_t
  status : emm_as_status_t
  cell_info : emm_as_cell_info_t
deriving DecidableEq, Repr

/-- An EMMAS-SAP primitive (`emm_as_t`). -/
structure emm_as_t where
  primitive : emm_as_primitive_t
  u : emm_as_u
deriving DecidableEq, Repr

/-- Conversion of a `uint32_t` to `int` (two's complement). -/
def int_of_uint32 (n : Nat) : Int :=
  if n % 4294967296 < 2147483648 then ((n % 4294967296 : Nat) : Int)
  else ((n % 4294967296 : Nat) : Int) - 4294967296

/-! ## Access stratum messages -/

/-- NAS information container (`as_nas_info_t`): `data` is the allocated
buffer, `none` for `NULL`. -/
structure as_nas_info_t where
  length : Nat
  data : Option Bytes
deriving DecidableEq, Repr

/-- S-TMSI (`as_stmsi_t`). -/
structure as_stmsi_t where
  MMEcode : Nat
  m_tmsi : Nat
deriving DecidableEq, Repr

/-- NAS information transfer request.  `ul_info_transfer_req_t` and
`dl_info_transfer_req_t` are this one type, and the two union members of that
name in `as_message_t` are one storage. -/
structure info_transfer_req_t where
  UEid : Nat
  s_tmsi : as_stmsi_t
  nasMsg : as_nas_info_t
deriving DecidableEq, Repr

/-- NAS connection establish response (`nas_establish_rsp_t`). -/
structure nas_establish_rsp_t where
  UEid : Nat
  s_tmsi : as_stmsi_t
  errCode : Nat
  nasMsg : as_nas_info_t
  nas_ul_count : Nat
  selected_encryption_algorithm : Nat
  selected_integrity_algorithm : Nat
deriving DecidableEq, Repr

/-- NAS release request (`nas_release_req_t`). -/
structure nas_release_req_t where
  UEid : Nat
  s_tmsi : as_stmsi_t
  cause : Nat
deriving DecidableEq, Repr

/-- Cell information request (`cell_info_req_t`). -/
structure cell_info_req_t where
  plmnID : Nat
  rat : Nat
deriving DecidableEq, Repr

/-- The message handed to the access stratum (`as_message_t`): identifier
and the members of its union that the SAP fills. -/
structure as_message_t where
  msgID : Int
  info_transfer_req : info_transfer_req_t
  nas_establish_rsp : nas_establish_rsp_t
  nas_release_req : nas_release_req_t
  cell_info_req : cell_info_req_t
deriving DecidableEq, Repr

/-- The value of an `as_message_t` after `memset (&as_msg, 0, ...)`. -/
def as_message_t.zero : as_message_t :=
  { msgID := 0,
    info_transfer_req :=
      { UEid := 0, s_tmsi := { MMEcode := 0, m_tmsi := 0 },
        nasMsg := { length := 0, data := none } },
    nas_establish_rsp :=
      { UEid := 0, s_tmsi := { MMEcode := 0, m_tmsi := 0 }, errCode := 0,
        nasMsg := { length := 0, data := none }, nas_ul_count := 0,
        selected_encryption_algorithm := 0, selected_integrity_algorithm := 0 },
    nas_release_req := { UEid := 0, s_tmsi := { MMEcode := 0, m_tmsi := 0 }, cause := 0 },
    cell_info_req := { plmnID := 0, rat := 0 } }

/-! ## Collaborators and trace -/

/-- The EMM procedure handlers called by the receive pipeline. -/
inductive emm_recv_handler where
  | emm_recv_status
  | emm_recv_attach_request
  | emm_recv_identity_response
  | emm_recv_authentication_response
  | emm_recv_authentication_failure
  | emm_recv_security_mode_complete
  | emm_recv_security_mode_reject
  | emm_recv_attach_complete
  | emm_recv_detach_request
  | emm_recv_tracking_area_update_request
deriving DecidableEq, Repr

/-- The EMM payload builders called by the send pipeline. -/
inductive emm_send_builder where
  | emm_send_detach_accept
  | emm_send_status
  | emm_send_identity_request
  | emm_send_authentication_request
  | emm_send_security_mode_command
  | emm_send_authentication_reject
  | emm_send_attach_accept
  | emm_send_attach_reject
  | emm_send_tracking_area_update_reject
deriving DecidableEq, Repr

/-- What `nas_message_decode` hands back: its result, the decoded message and
the decode status. -/
structure decode_result where
  rc : Int
  nas_msg : nas_message_t
  decode_status : nas_message_decode_status_t
deriving DecidableEq, Repr

/-- What `nas_message_decrypt` hands back: the byte count, the cleartext, the
resolved header and the decode status. -/
structure decrypt_result where
  bytes : Int
  plain_msg : Bytes
  header : nas_message_security_header_t
  decode_status : nas_message_decode_status_t
deriving DecidableEq, Repr

/-- What an `emm_recv_*` handler hands back: its result code and the value it
leaves in `*emm_cause`. -/
structure recv_result where
  rc : Int
  emm_cause : Int
deriving DecidableEq, Repr

/-- Observable actions of the SAP, in program order. -/
inductive Event where
  | set_emm_cause (cause : Int)
  | nas_message_decode (buffer : Bytes) (length : Int)
      (security : Option emm_security_context_t)
  | nas_message_decrypt (inbuf : Bytes) (length : Int)
      (security : Option emm_security_context_t)
  | emm_recv (handler : emm_recv_handler) (ueid : Nat)
  | lowerlayer_success (ueid : Nat)
  | lowerlayer_failure (ueid : Nat)
  | lowerlayer_data_ind (ueid : Nat) (data : OctetString)
  | emm_proc_status (ueid : Nat) (emm_cause : Int)
  | malloc (size : Int)
  | free
  | emm_send (builder : emm_send_builder)
  | nas_message_encode (msg : nas_message_t) (length : Int)
      (security : Option emm_security_context_t)
  | nas_message_encrypt (inbuf : Bytes) (header : nas_message_security_header_t)
      (length : Int) (security : Option emm_security_context_t)
  | nas_itti_dl_data_req (ueid : Nat) (data : Option Bytes) (length : Nat)
  | nas_itti_establish_cnf (ueid : Nat) (errCode : Nat) (data : Option Bytes)
      (length : Nat) (selected_encryption_algorithm : Nat)
      (selected_integrity_algorithm : Nat)
deriving DecidableEq, Repr

/-- The external collaborators of the SAP.  A payload builder returns the
size it reports and the EMM message it leaves in the target; a codec
function returns its byte count and the bytes it leaves in the buffer. -/
structure Env where
  emm_data_context_get : Nat → Option emm_data_context_t
  nas_message_decode : Bytes → Int → Option emm_security_context_t →
    nas_message_decode_status_t → decode_result
  nas_message_decrypt : Bytes → Int → Option emm_security_context_t →
    nas_message_decode_status_t → decrypt_result
  emm_recv : emm_recv_handler → Nat → EMM_msg → Int →
    nas_message_decode_status_t → recv_result
  emm_recv_tracking_area_update_request : Nat → EMM_msg → Int → recv_result
  lowerlayer_success : Nat → Int
  lowerlayer_failure : Nat → Int
  lowerlayer_data_ind : Nat → OctetString → Int
  emm_proc_status : Nat → Int → Int
  malloc : Int → Bool
  emm_send_detach_accept : emm_as_data_t → EMM_msg → Int × EMM_msg
  emm_send_status : emm_as_status_t → EMM_msg → Int × EMM_msg
  emm_send_identity_request : emm_as_security_t → EMM_msg → Int × EMM_msg
  emm_send_authentication_request : emm_as_security_t → EMM_msg → Int × EMM_msg
  emm_send_security_mode_command : emm_as_security_t → EMM_msg → Int × EMM_msg
  emm_send_authentication_reject : EMM_msg → Int × EMM_msg
  emm_send_attach_accept : emm_as_establish_t → EMM_msg → Int × EMM_msg
  emm_send_attach_reject : emm_as_establish_t → EMM_msg → Int × EMM_msg
  emm_send_tracking_area_update_reject : emm_as_establish_t → EMM_msg → Int × EMM_msg
  nas_message_encode : nas_message_t → Int → Option emm_security_context_t → Int × Bytes
  nas_message_encrypt : Bytes → nas_message_security_header_t → Int →
    Option emm_security_context_t → Int × Bytes

/-- The state threaded through the receive side: the integer behind the
`emm_cause` pointer and the trace so far. -/
structure St where
  emm_cause : Int
  trace : List Event
deriving DecidableEq, Repr

/-- Record an event. -/
def St.log (s : St) (e : Event) : St :=
  { s with trace := s.trace ++ [e] }

/-- The statement `*emm_cause = cause`. -/
def St.set_emm_cause (s : St) (cause : Int) : St :=
  { emm_cause := cause, trace := s.trace ++ [Event.set_emm_cause cause] }

/-- A call `rc = emm_recv_xxx (ueid, &emm_msg->xxx, emm_cause, decode_status)`. -/
def call_emm_recv (E : Env) (h : emm_recv_handler) (ueid : Nat) (emm_msg : EMM_msg)
    (decode_status : nas_message_decode_status_t) (s : St) : Int × St :=
  let r := E.emm_recv h ueid emm_msg s.emm_cause decode_status
  (r.rc, { emm_cause := r.emm_cause, trace := s.trace ++ [Event.emm_recv h ueid] })

/-- The handler calls of a trace, in order. -/
def handler_calls (t : List Event) : List (emm_recv_handler × Nat) :=
  t.filterMap fun e =>
    match e with
    | Event.emm_recv h ueid => some (h, ueid)
    | _ => none

/-- The values stored through `emm_cause` by the SAP itself, in order. -/
def cause_stores (t : List Event) : List Int :=
  t.filterMap fun e =>
    match e with
    | Event.set_emm_cause c => some c
    | _ => none

/-- The status reports of a trace, in order: subscriber and cause. -/
def status_reports (t : List Event) : List (Nat × Int) :=
  t.filterMap fun e =>
    match e with
    | Event.emm_proc_status ueid c => some (ueid, c)
    | _ => none

/-! ## Receive pipeline -/

/-- The lookup `emm_data_context_get (&_emm_data, ueid)` followed by
`emm_security_context = emm_ctx->security` when a context is found. -/
def lookup_security (E : Env) (ueid : Nat) : Option emm_security_context_t :=
  match E.emm_data_context_get ueid with
  | some emm_ctx => emm_ctx.security
  | none => none

/-- The test guarding the message types that require integrity protection
(requirements MME24.301R10_4.4.4.3_1 and _2), as written in the source. -/
def integrity_check_violated (ds : nas_message_decode_status_t) : Prop :=
  0 = ds.security_context_available ∨ 0 = ds.integrity_protected_message ∨
    (1 = ds.security_context_available ∧ 0 = ds.mac_matched)

instance (ds : nas_message_decode_status_t) : Decidable (integrity_check_violated ds) := by
  unfold integrity_check_violated; infer_instance

/-- The test guarding `DETACH_REQUEST`, as written in the source; `none` when
its evaluation reads `emm_security_context->activated` through `NULL`. -/
def detach_check_violated (ds : nas_message_decode_status_t)
    (emm_security_context : Option emm_security_context_t) : Option Bool :=
  if 1 = ds.security_context_available then
    match emm_security_context with
    | none => none
    | some ctx =>
      some (decide (0 < ctx.activated ∧
        (0 = ds.integrity_protected_message ∨ 0 = ds.mac_matched)))
  else
    some false

/-- Embedding of `_emm_as_recv`: result code and state after the call. -/
def _emm_as_recv (K : Codes) (E : Env) (ueid : Nat) (msg : Bytes) (len : Int)
    (decode_status : Option nas_message_decode_status_t) (s : St) : Option (Int × St) :=
  let rc := K.RETURNerror
  let decode_status := decode_status.getD nas_message_decode_status_t.zero
  let emm_security_context := lookup_security E ueid
  let d := E.nas_message_decode msg len emm_security_context decode_status
  let s := s.log (Event.nas_message_decode msg len emm_security_context)
  let decoder_rc := d.rc
  let decode_status := d.decode_status
  if decoder_rc < 0 then
    some (decoder_rc, s.set_emm_cause K.EMM_CAUSE_PROTOCOL_ERROR)
  else
    let emm_msg := d.nas_msg.plain.emm
    match emm_msg.header.message_type with
    | emm_message_type.EMM_STATUS =>
      if integrity_check_violated decode_status then
        some (decoder_rc, s.set_emm_cause K.EMM_CAUSE_PROTOCOL_ERROR)
      else
        some (call_emm_recv E emm_recv_handler.emm_recv_status ueid emm_msg decode_status s)
    | emm_message_type.ATTACH_REQUEST =>
      some (call_emm_recv E emm_recv_handler.emm_recv_attach_request ueid emm_msg
        decode_status s)
    | emm_message_type.IDENTITY_RESPONSE =>
      some (call_emm_recv E emm_recv_handler.emm_recv_identity_response ueid emm_msg
        decode_status s)
    | emm_message_type.AUTHENTICATION_RESPONSE =>
      some (call_emm_recv E emm_recv_handler.emm_recv_authentication_response ueid emm_msg
        decode_status s)
    | emm_message_type.AUTHENTICATION_FAILURE =>
      some (call_emm_recv E emm_recv_handler.emm_recv_authentication_failure ueid emm_msg
        decode_status s)
    | emm_message_type.SECURITY_MODE_COMPLETE =>
      if integrity_check_violated decode_status then
        some (decoder_rc, s.set_emm_cause K.EMM_CAUSE_PROTOCOL_ERROR)
      else
        some (call_emm_recv E emm_recv_handler.emm_recv_security_mode_complete ueid emm_msg
          decode_status s)
    | emm_message_type.SECURITY_MODE_REJECT =>
      some (call_emm_recv E emm_recv_handler.emm_recv_security_mode_reject ueid emm_msg
        decode_status s)
    | emm_message_type.ATTACH_COMPLETE =>
      if integrity_check_violated decode_status then
        some (decoder_rc, s.set_emm_cause K.EMM_CAUSE_PROTOCOL_ERROR)
      else
        some (call_emm_recv E emm_recv_handler.emm_recv_attach_complete ueid emm_msg
          decode_status s)
    | emm_message_type.TRACKING_AREA_UPDATE_COMPLETE
    | emm_message_type.GUTI_REALLOCATION_COMPLETE
    | emm_message_type.UPLINK_NAS_TRANSPORT =>
      if integrity_check_violated decode_status then
        some (decoder_rc, s.set_emm_cause K.EMM_CAUSE_PROTOCOL_ERROR)
      else
        some (rc, s)
    | emm_message_type.DETACH_REQUEST =>
      match detach_check_violated decode_status emm_security_context with
      | none => none
      | some true => some (decoder_rc, s.set_emm_cause K.EMM_CAUSE_PROTOCOL_ERROR)
      | some false =>
        some (call_emm_recv E emm_recv_handler.emm_recv_detach_request ueid emm_msg
          decode_status s)
    | _ => some (rc, s.set_emm_cause K.EMM_CAUSE_MESSAGE_TYPE_NOT_COMPATIBLE)

/-- Embedding of `_emm_as_data_ind`. -/
def _emm_as_data_ind (K : Codes) (E : Env) (msg : emm_as_data_t) (s : St) :
    Option (Int × St) :=
  let rc := K.RETURNerror
  if msg.delivered ≠ 0 then
    if msg.NASmsg.length > 0 then
      let plain_msg := E.malloc msg.NASmsg.length
      let s := s.log (Event.malloc msg.NASmsg.length)
      if plain_msg then
        let security : Option emm_security_context_t :=
          if msg.ueid > 0 then lookup_security E msg.ueid else none
        let d := E.nas_message_decrypt msg.NASmsg.value (int_of_uint32 msg.NASmsg.length)
          security nas_message_decode_status_t.zero
        let s := s.log (Event.nas_message_decrypt msg.NASmsg.value
          (int_of_uint32 msg.NASmsg.length) security)
        let bytes := d.bytes
        if bytes < 0 ∧ bytes ≠ K.TLV_DECODE_MAC_MISMATCH then
          some (bytes, s.set_emm_cause K.EMM_CAUSE_PROTOCOL_ERROR)
        else if d.header.protocol_discriminator = K.EPS_MOBILITY_MANAGEMENT_MESSAGE then
          match _emm_as_recv K E msg.ueid d.plain_msg bytes (some d.decode_status) s with
          | none => none
          | some (rc, s) => some (rc, s.log Event.free)
        else if d.header.protocol_discriminator = K.EPS_SESSION_MANAGEMENT_MESSAGE then
          let data : OctetString := { length := (bytes % 4294967296).toNat, value := d.plain_msg }
          let rc := E.lowerlayer_data_ind msg.ueid data
          some (rc, (s.log (Event.lowerlayer_data_ind msg.ueid data)).log Event.free)
        else
          some (rc, s.log Event.free)
      else
        some (rc, s)
    else
      some (E.lowerlayer_success msg.ueid, s.log (Event.lowerlayer_success msg.ueid))
  else
    some (E.lowerlayer_failure msg.ueid, s.log (Event.lowerlayer_failure msg.ueid))

/-- Embedding of `_emm_as_establish_req`. -/
def _emm_as_establish_req (K : Codes) (E : Env) (msg : emm_as_establish_t) (s : St) :
    Option (Int × St) :=
  let rc := K.RETURNerror
  let emm_security_context := lookup_security E msg.ueid
  let d := E.nas_message_decode msg.NASmsg.value (int_of_uint32 msg.NASmsg.length)
    emm_security_context nas_message_decode_status_t.zero
  let s := s.log (Event.nas_message_decode msg.NASmsg.value (int_of_uint32 msg.NASmsg.length)
    emm_security_context)
  let decoder_rc := d.rc
  let decode_status := d.decode_status
  if decoder_rc < K.TLV_DECODE_FATAL_ERROR then
    some (decoder_rc, s.set_emm_cause K.EMM_CAUSE_PROTOCOL_ERROR)
  else
    let s :=
      if decoder_rc = K.TLV_DECODE_UNEXPECTED_IEI then
        s.set_emm_cause K.EMM_CAUSE_IE_NOT_IMPLEMENTED
      else if decoder_rc < 0 then
        s.set_emm_cause K.EMM_CAUSE_PROTOCOL_ERROR
      else s
    let emm_msg := d.nas_msg.plain.emm
    match emm_msg.header.message_type with
    | emm_message_type.ATTACH_REQUEST =>
      some (call_emm_recv E emm_recv_handler.emm_recv_attach_request msg.ueid emm_msg
        decode_status s)
    | emm_message_type.DETACH_REQUEST =>
      match detach_check_violated decode_status emm_security_context with
      | none => none
      | some true => some (decoder_rc, s.set_emm_cause K.EMM_CAUSE_PROTOCOL_ERROR)
      | some false =>
        some (K.RETURNok, s.set_emm_cause K.EMM_CAUSE_MESSAGE_TYPE_NOT_IMPLEMENTED)
    | emm_message_type.TRACKING_AREA_UPDATE_REQUEST =>
      let r := E.emm_recv_tracking_area_update_request msg.ueid emm_msg s.emm_cause
      some (r.rc, { emm_cause := r.emm_cause,
                    trace := s.trace ++
                      [Event.emm_recv emm_recv_handler.emm_recv_tracking_area_update_request
                        msg.ueid] })
    | emm_message_type.SERVICE_REQUEST =>
      if integrity_check_violated decode_status then
        some (decoder_rc, s.set_emm_cause K.EMM_CAUSE_PROTOCOL_ERROR)
      else
        some (K.RETURNok, s.set_emm_cause K.EMM_CAUSE_MESSAGE_TYPE_NOT_IMPLEMENTED)
    | emm_message_type.EXTENDED_SERVICE_REQUEST =>
      if integrity_check_violated decode_status then
        some (decoder_rc, s.set_emm_cause K.EMM_CAUSE_PROTOCOL_ERROR)
      else
        some (K.RETURNok, s.set_emm_cause K.EMM_CAUSE_MESSAGE_TYPE_NOT_IMPLEMENTED)
    | _ => some (rc, s.set_emm_cause K.EMM_CAUSE_MESSAGE_TYPE_NOT_COMPATIBLE)

/-- Embedding of `_emm_as_cell_info_res`. -/
def _emm_as_cell_info_res (K : Codes) (_msg : emm_as_cell_info_t) : Int :=
  K.RETURNok

/-- Embedding of `_emm_as_cell_info_ind`. -/
def _emm_as_cell_info_ind (K : Codes) (_msg : emm_as_cell_info_t) : Int :=
  K.RETURNok

/-! ## Codec adapter -/

/-- The EMM message a returned `EMM_msg *` points to. -/
def EMM_msg_ptr.read (p : EMM_msg_ptr) (msg : nas_message_t) : EMM_msg :=
  match p with
  | EMM_msg_ptr.plain_emm => msg.plain.emm
  | EMM_msg_ptr.security_protected_plain_emm => msg.security_protected.plain.emm

/-- A store through a returned `EMM_msg *`. -/
def EMM_msg_ptr.write (p : EMM_msg_ptr) (msg : nas_message_t) (v : EMM_msg) : nas_message_t :=
  match p with
  | EMM_msg_ptr.plain_emm => { msg with plain := { emm := v } }
  | EMM_msg_ptr.security_protected_plain_emm =>
    { msg with security_protected := { msg.security_protected with plain := { emm := v } } }

/-- The addition of two `int` values as the compiled program performs it: the
sum reduced to 32 bits in two's complement.  It is the sum itself whenever
that lies between `INT_MIN` and `INT_MAX`; beyond, C leaves the addition
undefined and the machine wraps. -/
def int_add (a b : Int) : Int :=
  (a + b + 2147483648) % 4294967296 - 2147483648

/-- Embedding of `_emm_as_encode`: byte count, the container `info` and the
message after the call, and the trace.  The parameter `length` is an `int`,
and `length += NAS_MESSAGE_SECURITY_HEADER_SIZE` is an `int` addition; the
allocation is recorded with the value of `length`, which `malloc` receives
converted to `size_t`. -/
def _emm_as_encode (K : Codes) (E : Env) (info : as_nas_info_t) (msg : nas_message_t)
    (length : Int) (emm_security_context : Option emm_security_context_t)
    (t : List Event) : Int × as_nas_info_t × nas_message_t × List Event :=
  let bytes : Int := 0
  let protected_ := msg.header.security_header_type ≠ K.SECURITY_HEADER_TYPE_NOT_PROTECTED
  let length := if protected_ then int_add length K.NAS_MESSAGE_SECURITY_HEADER_SIZE else length
  let msg : nas_message_t :=
    if protected_ then
      { msg with security_protected :=
          { msg.security_protected with plain :=
              { emm :=
                  { msg.security_protected.plain.emm with header :=
                      { msg.security_protected.plain.emm.header with
                          protocol_discriminator := K.EPS_MOBILITY_MANAGEMENT_MESSAGE,
                          security_header_type := K.SECURITY_HEADER_TYPE_NOT_PROTECTED } } } } }
    else msg
  let t := t ++ [Event.malloc length]
  if E.malloc length then
    let r := E.nas_message_encode msg length emm_security_context
    let t := t ++ [Event.nas_message_encode msg length emm_security_context]
    let bytes := r.1
    if bytes > 0 then
      (bytes, { length := bytes.toNat, data := some r.2 }, msg, t)
    else
      (bytes, { length := 0, data := none }, msg, t ++ [Event.free])
  else
    (bytes, { info with data := none }, msg, t)

/-- Embedding of `_emm_as_encrypt`: byte count, the container `info` after
the call, and the trace.  As in `_emm_as_encode`, `length` is an `int` and its
expansion is an `int` addition. -/
def _emm_as_encrypt (K : Codes) (E : Env) (info : as_nas_info_t)
    (header : nas_message_security_header_t) (msg : Bytes) (length : Int)
    (emm_security_context : Option emm_security_context_t)
    (t : List Event) : Int × as_nas_info_t × List Event :=
  let bytes : Int := 0
  let length :=
    if header.security_header_type ≠ K.SECURITY_HEADER_TYPE_NOT_PROTECTED then
      int_add length K.NAS_MESSAGE_SECURITY_HEADER_SIZE
    else length
  let t := t ++ [Event.malloc length]
  if E.malloc length then
    let r := E.nas_message_encrypt msg header length emm_security_context
    let t := t ++ [Event.nas_message_encrypt msg header length emm_security_context]
    let bytes := r.1
    if bytes > 0 then
      (bytes, { length := bytes.toNat, data := some r.2 }, t)
    else
      (bytes, { length := 0, data := none }, t ++ [Event.free])
  else
    (bytes, { info with data := none }, t)

/-! ## Send pipeline -/

/-- The statement `nas_msg.header.sequence_number = n`. -/
def nas_message_t.set_sequence_number (msg : nas_message_t) (n : Nat) : nas_message_t :=
  { msg with header := { msg.header with sequence_number := n } }

/-- The stamping `if (emm_security_context) nas_msg.header.sequence_number =
emm_security_context->dl_count.seq_num`. -/
def stamp_sequence_number (nas_msg : nas_message_t)
    (emm_security_context : Option emm_security_context_t) : nas_message_t :=
  match emm_security_context with
  | some ctx => nas_msg.set_sequence_number ctx.dl_count.seq_num
  | none => nas_msg

/-- A call `size = emm_send_xxx (msg, &emm_msg->xxx)` of a payload builder
whose result on the pointed message is `r`. -/
def call_emm_send (b : emm_send_builder) (p : EMM_msg_ptr) (nas_msg : nas_message_t)
    (r : Int × EMM_msg) (t : List Event) : Int × nas_message_t × List Event :=
  (r.1, p.write nas_msg r.2, t ++ [Event.emm_send b])

/-- Embedding of `_emm_as_data_req`. -/
def _emm_as_data_req (K : Codes) (E : Env) (msg : emm_as_data_t)
    (as_msg : info_transfer_req_t) (t : List Event) :
    Int × info_transfer_req_t × List Event :=
  let nas_msg := nas_message_t.zero
  let as_msg : info_transfer_req_t :=
    match msg.guti with
    | some guti =>
      { as_msg with s_tmsi := { MMEcode := guti.MMEcode, m_tmsi := guti.m_tmsi } }
    | none => { as_msg with UEid := msg.ueid }
  let h := _emm_as_set_header K nas_msg (some msg.sctx)
  let nas_msg := h.1
  let b : Int × Bool × nas_message_t × List Event :=
    match h.2 with
    | some emm_msg =>
      match msg.NASinfo with
      | emm_as_nas_data.EMM_AS_NAS_DATA_DETACH =>
        let r := call_emm_send emm_send_builder.emm_send_detach_accept emm_msg nas_msg
          (E.emm_send_detach_accept msg (emm_msg.read nas_msg)) t
        (r.1, false, r.2.1, r.2.2)
      | _ => (int_of_uint32 msg.NASmsg.length, true, nas_msg, t)
    | none => (0, false, nas_msg, t)
  let size := b.1
  let is_encoded := b.2.1
  let nas_msg := b.2.2.1
  let t := b.2.2.2
  if size > 0 then
    let emm_security_context := lookup_security E msg.ueid
    let nas_msg := stamp_sequence_number nas_msg emm_security_context
    if ¬ is_encoded then
      let r := _emm_as_encode K E as_msg.nasMsg nas_msg size emm_security_context t
      if r.1 > 0 then
        (K.AS_DL_INFO_TRANSFER_REQ, { as_msg with nasMsg := r.2.1 }, r.2.2.2)
      else
        (0, { as_msg with nasMsg := r.2.1 }, r.2.2.2)
    else
      let r := _emm_as_encrypt K E as_msg.nasMsg nas_msg.header msg.NASmsg.value size
        emm_security_context t
      if r.1 > 0 then
        (K.AS_DL_INFO_TRANSFER_REQ, { as_msg with nasMsg := r.2.1 }, r.2.2)
      else
        (0, { as_msg with nasMsg := r.2.1 }, r.2.2)
  else
    (0, as_msg, t)

/-- The common tail of the send functions that encode a built payload into a
downlink information transfer: lookup, sequence number, `_emm_as_encode`. -/
def encode_info_transfer (K : Codes) (E : Env) (ueid : Nat) (size : Int)
    (nas_msg : nas_message_t) (as_msg : info_transfer_req_t) (t : List Event) :
    Int × info_transfer_req_t × List Event :=
  if size > 0 then
    let emm_security_context := lookup_security E ueid
    let nas_msg := stamp_sequence_number nas_msg emm_security_context
    let r := _emm_as_encode K E as_msg.nasMsg nas_msg size emm_security_context t
    if r.1 > 0 then
      (K.AS_DL_INFO_TRANSFER_REQ, { as_msg with nasMsg := r.2.1 }, r.2.2.2)
    else
      (0, { as_msg with nasMsg := r.2.1 }, r.2.2.2)
  else
    (0, as_msg, t)

/-- Embedding of `_emm_as_status_ind`. -/
def _emm_as_status_ind (K : Codes) (E : Env) (msg : emm_as_status_t)
    (as_msg : info_transfer_req_t) (t : List Event) :
    Int × info_transfer_req_t × List Event :=
  let nas_msg := nas_message_t.zero
  let as_msg : info_transfer_req_t :=
    match msg.guti with
    | some guti =>
      { as_msg with s_tmsi := { MMEcode := guti.MMEcode, m_tmsi := guti.m_tmsi } }
    | none => { as_msg with UEid := msg.ueid }
  let h := _emm_as_set_header K nas_msg (some msg.sctx)
  let nas_msg := h.1
  let b : Int × nas_message_t × List Event :=
    match h.2 with
    | some emm_msg =>
      call_emm_send emm_send_builder.emm_send_status emm_msg nas_msg
        (E.emm_send_status msg (emm_msg.read nas_msg)) t
    | none => (0, nas_msg, t)
  encode_info_transfer K E msg.ueid b.1 b.2.1 as_msg b.2.2

/-- Embedding of `_emm_as_release_req`. -/
def _emm_as_release_req (K : Codes) (msg : emm_as_release_t) (as_msg : nas_release_req_t) :
    Int × nas_release_req_t :=
  let as_msg : nas_release_req_t :=
    match msg.guti with
    | some guti =>
      { as_msg with s_tmsi := { MMEcode := guti.MMEcode, m_tmsi := guti.m_tmsi } }
    | none => { as_msg with UEid := msg.ueid }
  let as_msg : nas_release_req_t :=
    if msg.cause = K.EMM_AS_CAUSE_AUTHENTICATION then
      { as_msg with cause := K.AS_AUTHENTICATION_FAILURE }
    else if msg.cause = K.EMM_AS_CAUSE_DETACH then
      { as_msg with cause := K.AS_DETACH }
    else as_msg
  (K.AS_NAS_RELEASE_REQ, as_msg)

/-- Embedding of `_emm_as_security_req`. -/
def _emm_as_security_req (K : Codes) (E : Env) (msg : emm_as_security_t)
    (as_msg : info_transfer_req_t) (t : List Event) :
    Int × info_transfer_req_t × List Event :=
  let nas_msg := nas_message_t.zero
  let as_msg : info_transfer_req_t :=
    match msg.guti with
    | some guti =>
      { as_msg with s_tmsi := { MMEcode := guti.MMEcode, m_tmsi := guti.m_tmsi } }
    | none => { as_msg with UEid := msg.ueid }
  let h := _emm_as_set_header K nas_msg (some msg.sctx)
  let nas_msg := h.1
  let b : Int × nas_message_t × List Event :=
    match h.2 with
    | some emm_msg =>
      match msg.msgType with
      | emm_as_msg_type.EMM_AS_MSG_TYPE_IDENT =>
        call_emm_send emm_send_builder.emm_send_identity_request emm_msg nas_msg
          (E.emm_send_identity_request msg (emm_msg.read nas_msg)) t
      | emm_as_msg_type.EMM_AS_MSG_TYPE_AUTH =>
        call_emm_send emm_send_builder.emm_send_authentication_request emm_msg nas_msg
          (E.emm_send_authentication_request msg (emm_msg.read nas_msg)) t
      | emm_as_msg_type.EMM_AS_MSG_TYPE_SMC =>
        call_emm_send emm_send_builder.emm_send_security_mode_command emm_msg nas_msg
          (E.emm_send_security_mode_command msg (emm_msg.read nas_msg)) t
      | _ => (0, nas_msg, t)
    | none => (0, nas_msg, t)
  encode_info_transfer K E msg.ueid b.1 b.2.1 as_msg b.2.2

/-- Embedding of `_emm_as_security_rej`. -/
def _emm_as_security_rej (K : Codes) (E : Env) (msg : emm_as_security_t)
    (as_msg : info_transfer_req_t) (t : List Event) :
    Int × info_transfer_req_t × List Event :=
  let nas_msg := nas_message_t.zero
  let as_msg : info_transfer_req_t :=
    match msg.guti with
    | some guti =>
      { as_msg with s_tmsi := { MMEcode := guti.MMEcode, m_tmsi := guti.m_tmsi } }
    | none => { as_msg with UEid := msg.ueid }
  let h := _emm_as_set_header K nas_msg (some msg.sctx)
  let nas_msg := h.1
  let b : Int × nas_message_t × List Event :=
    match h.2 with
    | some emm_msg =>
      match msg.msgType with
      | emm_as_msg_type.EMM_AS_MSG_TYPE_AUTH =>
        call_emm_send emm_send_builder.emm_send_authentication_reject emm_msg nas_msg
          (E.emm_send_authentication_reject (emm_msg.read nas_msg)) t
      | _ => (0, nas_msg, t)
    | none => (0, nas_msg, t)
  encode_info_transfer K E msg.ueid b.1 b.2.1 as_msg b.2.2

/-- The function `htons` on a little-endian host: the two bytes of a 16-bit
value swapped. -/
def htons (x : Nat) : Nat :=
  (x % 65536 % 256) * 256 + x % 65536 / 256

/-- Embedding of `_emm_as_establish_cnf`; `none` when the sequence number is
read through a `NULL` security context. -/
def _emm_as_establish_cnf (K : Codes) (E : Env) (msg : emm_as_establish_t)
    (as_msg : nas_establish_rsp_t) (t : List Event) :
    Option (Int × nas_establish_rsp_t × List Event) :=
  let nas_msg := nas_message_t.zero
  let as_msg : nas_establish_rsp_t := { as_msg with UEid := msg.ueid }
  match msg.UEid_guti with
  | none => some (0, as_msg, t)
  | some guti =>
    let as_msg : nas_establish_rsp_t :=
      { as_msg with s_tmsi := { MMEcode := guti.MMEcode, m_tmsi := guti.m_tmsi } }
    let h := _emm_as_set_header K nas_msg (some msg.sctx)
    let nas_msg := h.1
    let b : Int × nas_message_t × List Event :=
      match h.2 with
      | some emm_msg =>
        match msg.NASinfo with
        | emm_as_nas_info.EMM_AS_NAS_INFO_ATTACH =>
          call_emm_send emm_send_builder.emm_send_attach_accept emm_msg nas_msg
            (E.emm_send_attach_accept msg (emm_msg.read nas_msg)) t
        | _ => (0, nas_msg, t)
      | none => (0, nas_msg, t)
    let size := b.1
    let nas_msg := b.2.1
    let t := b.2.2
    if size > 0 then
      let encode := fun (as_msg : nas_establish_rsp_t) (nas_msg : nas_message_t)
          (emm_security_context : Option emm_security_context_t) =>
        let r := _emm_as_encode K E as_msg.nasMsg nas_msg size emm_security_context t
        if r.1 > 0 then
          (K.AS_NAS_ESTABLISH_CNF,
            { as_msg with nasMsg := r.2.1, errCode := K.AS_SUCCESS }, r.2.2.2)
        else
          ((0 : Int), { as_msg with nasMsg := r.2.1 }, r.2.2.2)
      match E.emm_data_context_get msg.ueid with
      | some emm_ctx =>
        match emm_ctx.security with
        | some ctx =>
          let as_msg : nas_establish_rsp_t :=
            { as_msg with nas_ul_count :=
                (ctx.ul_count.overflow <<< 8 ||| ctx.ul_count.seq_num) % 4294967296 }
          let nas_msg := nas_msg.set_sequence_number ctx.dl_count.seq_num
          let as_msg : nas_establish_rsp_t :=
            { as_msg with
                selected_encryption_algorithm :=
                  htons (65536 >>> ctx.selected_algorithms.encryption),
                selected_integrity_algorithm :=
                  htons (65536 >>> ctx.selected_algorithms.integrity) }
          some (encode as_msg nas_msg (some ctx))
        | none => none
      | none => some (encode as_msg nas_msg none)
    else
      some (0, as_msg, t)

/-- Embedding of `_emm_as_establish_rej`. -/
def _emm_as_establish_rej (K : Codes) (E : Env) (msg : emm_as_establish_t)
    (as_msg : nas_establish_rsp_t) (t : List Event) :
    Int × nas_establish_rsp_t × List Event :=
  let nas_msg := nas_message_t.zero
  let as_msg : nas_establish_rsp_t :=
    match msg.UEid_guti with
    | some guti =>
      { as_msg with s_tmsi := { MMEcode := guti.MMEcode, m_tmsi := guti.m_tmsi } }
    | none => { as_msg with UEid := msg.ueid }
  let h := _emm_as_set_header K nas_msg (some msg.sctx)
  let nas_msg := h.1
  let b : Int × nas_message_t × List Event :=
    match h.2 with
    | some emm_msg =>
      match msg.NASinfo with
      | emm_as_nas_info.EMM_AS_NAS_INFO_ATTACH =>
        call_emm_send emm_send_builder.emm_send_attach_reject emm_msg nas_msg
          (E.emm_send_attach_reject msg (emm_msg.read nas_msg)) t
      | emm_as_nas_info.EMM_AS_NAS_INFO_TAU =>
        call_emm_send emm_send_builder.emm_send_tracking_area_update_reject emm_msg nas_msg
          (E.emm_send_tracking_area_update_reject msg (emm_msg.read nas_msg)) t
      | _ => (0, nas_msg, t)
    | none => (0, nas_msg, t)
  let size := b.1
  let nas_msg := b.2.1
  let t := b.2.2
  if size > 0 then
    let emm_security_context := lookup_security E msg.ueid
    let nas_msg := stamp_sequence_number nas_msg emm_security_context
    let r := _emm_as_encode K E as_msg.nasMsg nas_msg size emm_security_context t
    if r.1 > 0 then
      (K.AS_NAS_ESTABLISH_RSP,
        { as_msg with nasMsg := r.2.1, errCode := K.AS_TERMINATED_NAS }, r.2.2.2)
    else
      (0, { as_msg with nasMsg := r.2.1 }, r.2.2.2)
  else
    (0, as_msg, t)

/-- Embedding of `_emm_as_page_ind`. -/
def _emm_as_page_ind (K : Codes) : Int :=
  let bytes : Int := 0
  if bytes > 0 then K.AS_PAGING_IND else 0

/-- Embedding of `_emm_as_cell_info_req`. -/
def _emm_as_cell_info_req (K : Codes) (msg : emm_as_cell_info_t) (_as_msg : cell_info_req_t) :
    Int × cell_info_req_t :=
  (K.AS_CELL_INFO_REQ, { plmnID := msg.plmn0, rat := msg.rat })

/-- Embedding of `_emm_as_send`: result code and trace; `none` when a send
function dereferences `NULL`. -/
def _emm_as_send (K : Codes) (E : Env) (msg : emm_as_t) (t : List Event) :
    Option (Int × List Event) :=
  let as_msg := as_message_t.zero
  let r : Option (as_message_t × List Event) :=
    match msg.primitive with
    | emm_as_primitive_t._EMMAS_DATA_REQ =>
      let r := _emm_as_data_req K E msg.u.data as_msg.info_transfer_req t
      some ({ as_msg with msgID := r.1, info_transfer_req := r.2.1 }, r.2.2)
    | emm_as_primitive_t._EMMAS_STATUS_IND =>
      let r := _emm_as_status_ind K E msg.u.status as_msg.info_transfer_req t
      some ({ as_msg with msgID := r.1, info_transfer_req := r.2.1 }, r.2.2)
    | emm_as_primitive_t._EMMAS_RELEASE_REQ =>
      let r := _emm_as_release_req K msg.u.release as_msg.nas_release_req
      some ({ as_msg with msgID := r.1, nas_release_req := r.2 }, t)
    | emm_as_primitive_t._EMMAS_SECURITY_REQ =>
      let r := _emm_as_security_req K E msg.u.security as_msg.info_transfer_req t
      some ({ as_msg with msgID := r.1, info_transfer_req := r.2.1 }, r.2.2)
    | emm_as_primitive_t._EMMAS_SECURITY_REJ =>
      let r := _emm_as_security_rej K E msg.u.security as_msg.info_transfer_req t
      some ({ as_msg with msgID := r.1, info_transfer_req := r.2.1 }, r.2.2)
    | emm_as_primitive_t._EMMAS_ESTABLISH_CNF =>
      match _emm_as_establish_cnf K E msg.u.establish as_msg.nas_establish_rsp t with
      | some r => some ({ as_msg with msgID := r.1, nas_establish_rsp := r.2.1 }, r.2.2)
      | none => none
    | emm_as_primitive_t._EMMAS_ESTABLISH_REJ =>
      let r := _emm_as_establish_rej K E msg.u.establish as_msg.nas_establish_rsp t
      some ({ as_msg with msgID := r.1, nas_establish_rsp := r.2.1 }, r.2.2)
    | emm_as_primitive_t._EMMAS_PAGE_IND =>
      some ({ as_msg with msgID := _emm_as_page_ind K }, t)
    | emm_as_primitive_t._EMMAS_CELL_INFO_REQ =>
      let r := _emm_as_cell_info_req K msg.u.cell_info as_msg.cell_info_req
      some ({ as_msg with msgID := r.1, cell_info_req := r.2 }, t)
    | _ => some ({ as_msg with msgID := 0 }, t)
  match r with
  | none => none
  | some (as_msg, t) =>
    if as_msg.msgID > 0 then
      if as_msg.msgID = K.AS_DL_INFO_TRANSFER_REQ then
        some (K.RETURNok,
          t ++ [Event.nas_itti_dl_data_req as_msg.info_transfer_req.UEid
                  as_msg.info_transfer_req.nasMsg.data as_msg.info_transfer_req.nasMsg.length])
      else if as_msg.msgID = K.AS_NAS_ESTABLISH_RSP ∨ as_msg.msgID = K.AS_NAS_ESTABLISH_CNF then
        if as_msg.nas_establish_rsp.errCode ≠ K.AS_SUCCESS then
          some (K.RETURNok,
            t ++ [Event.nas_itti_dl_data_req as_msg.nas_establish_rsp.UEid
                    as_msg.nas_establish_rsp.nasMsg.data as_msg.nas_establish_rsp.nasMsg.length])
        else
          some (K.RETURNok,
            t ++ [Event.nas_itti_establish_cnf as_msg.nas_establish_rsp.UEid
                    as_msg.nas_establish_rsp.errCode as_msg.nas_establish_rsp.nasMsg.data
                    as_msg.nas_establish_rsp.nasMsg.length
                    as_msg.nas_establish_rsp.selected_encryption_algorithm
                    as_msg.nas_establish_rsp.selected_integrity_algorithm])
      else
        some (K.RETURNerror, t)
    else
      some (K.RETURNerror, t)

/-! ## Primitive dispatcher -/

/-- The part of `emm_as_send` that follows its switch ("Handle decoding
errors"): `rc` and `s` are the result code and the state left by the routed
function, `ueid` the subscriber taken from the primitive. -/
def emm_as_send_report (K : Codes) (E : Env) (rc : Int) (s : St) (ueid : Nat) :
    Int × List Event :=
  if s.emm_cause ≠ K.EMM_CAUSE_SUCCESS then
    if rc = K.TLV_DECODE_BUFFER_TOO_SHORT then
      (K.RETURNok, s.trace)
    else if rc = K.TLV_DECODE_PROTOCOL_NOT_SUPPORTED then
      (K.RETURNok, s.trace)
    else
      let emm_cause :=
        if rc = K.TLV_DECODE_WRONG_MESSAGE_TYPE then K.EMM_CAUSE_MESSAGE_TYPE_NOT_IMPLEMENTED
        else s.emm_cause
      (E.emm_proc_status ueid emm_cause, s.trace ++ [Event.emm_proc_status ueid emm_cause])
  else
    (rc, s.trace)

/-- Embedding of `emm_as_send`: the result code and the trace of the call;
`none` when the routed function dereferences `NULL`.  The EMM cause starts at
`EMM_CAUSE_SUCCESS` and `ueid` at 0. -/
def emm_as_send (K : Codes) (E : Env) (msg : emm_as_t) : Option (Int × List Event) :=
  let s0 : St := { emm_cause := K.EMM_CAUSE_SUCCESS, trace := [] }
  match msg.primitive with
  | emm_as_primitive_t._EMMAS_DATA_IND =>
    match _emm_as_data_ind K E msg.u.data s0 with
    | some (rc, s) => some (emm_as_send_report K E rc s msg.u.data.ueid)
    | none => none
  | emm_as_primitive_t._EMMAS_ESTABLISH_REQ =>
    match _emm_as_establish_req K E msg.u.establish s0 with
    | some (rc, s) => some (emm_as_send_report K E rc s msg.u.establish.ueid)
    | none => none
  | emm_as_primitive_t._EMMAS_CELL_INFO_RES =>
    some (emm_as_send_report K E (_emm_as_cell_info_res K msg.u.cell_info) s0 0)
  | emm_as_primitive_t._EMMAS_CELL_INFO_IND =>
    some (emm_as_send_report K E (_emm_as_cell_info_ind K msg.u.cell_info) s0 0)
  | _ =>
    match _emm_as_send K E msg s0.trace with
    | some (rc, t) =>
      if rc ≠ K.RETURNok then some (K.RETURNerror, t)
      else some (emm_as_send_report K E rc { s0 with trace := t } 0)
    | none => none

/-! ## The selector table of the specification -/

/-- The five header variants of the specification. -/
inductive HeaderVariant where
  | NOT_PROTECTED
  | INTEGRITY_PROTECTED
  | INTEGRITY_PROTECTED_CYPHERED
  | INTEGRITY_PROTECTED_NEW
  | INTEGRITY_PROTECTED_CYPHERED_NEW
deriving DecidableEq, Repr

/-- The two plaintext targets of the specification. -/
inductive PlaintextTarget where
  | top_level
  | nested
deriving DecidableEq, Repr

/-- Outcome of the selector in the specification. -/
inductive Selection where
  | selected (variant : HeaderVariant) (target : PlaintextTarget)
  | Denied
deriving DecidableEq, Repr

/-- The decision table of section 4.4 of the specification, written from its
three bullets, over (key-set valid, is new, integrity key present, cipher key
present). -/
def select_spec (key_set_valid is_new integrity_key cipher_key : Bool) : Selection :=
  match key_set_valid, is_new, integrity_key, cipher_key with
  | false, _, _, _ => Selection.selected HeaderVariant.NOT_PROTECTED PlaintextTarget.top_level
  | true, true, true, true =>
    Selection.selected HeaderVariant.INTEGRITY_PROTECTED_CYPHERED_NEW PlaintextTarget.nested
  | true, true, true, false =>
    Selection.selected HeaderVariant.INTEGRITY_PROTECTED_NEW PlaintextTarget.nested
  | true, true, false, _ => Selection.Denied
  | true, false, true, true =>
    Selection.selected HeaderVariant.INTEGRITY_PROTECTED_CYPHERED PlaintextTarget.nested
  | true, false, true, false =>
    Selection.selected HeaderVariant.INTEGRITY_PROTECTED PlaintextTarget.nested
  | true, false, false, _ =>
    Selection.selected HeaderVariant.NOT_PROTECTED PlaintextTarget.top_level

/-- The code of a header variant. -/
def Codes.security_header_type (K : Codes) : HeaderVariant → Nat
  | HeaderVariant.NOT_PROTECTED => K.SECURITY_HEADER_TYPE_NOT_PROTECTED
  | HeaderVariant.INTEGRITY_PROTECTED => K.SECURITY_HEADER_TYPE_INTEGRITY_PROTECTED
  | HeaderVariant.INTEGRITY_PROTECTED_CYPHERED =>
    K.SECURITY_HEADER_TYPE_INTEGRITY_PROTECTED_CYPHERED
  | HeaderVariant.INTEGRITY_PROTECTED_NEW => K.SECURITY_HEADER_TYPE_INTEGRITY_PROTECTED_NEW
  | HeaderVariant.INTEGRITY_PROTECTED_CYPHERED_NEW =>
    K.SECURITY_HEADER_TYPE_INTEGRITY_PROTECTED_CYPHERED_NEW

/-- The pointer that stands for a plaintext target. -/
def PlaintextTarget.ptr : PlaintextTarget → EMM_msg_ptr
  | PlaintextTarget.top_level => EMM_msg_ptr.plain_emm
  | PlaintextTarget.nested => EMM_msg_ptr.security_protected_plain_emm

/-- The four booleans the selector depends on, read off a security snapshot
pointer: key set valid (snapshot present and `ksi` not "no key available"),
is new, integrity key present, cipher key present.  An absent snapshot has
none of them. -/
def selector_inputs (K : Codes) (security : Option emm_as_security_data_t) :
    Bool × Bool × Bool × Bool :=
  match security with
  | some s =>
    (decide (s.ksi ≠ K.EMM_AS_NO_KEY_AVAILABLE), decide (s.is_new ≠ 0), s.k_int.isSome,
      s.k_enc.isSome)
  | none => (false, false, false, false)

/-! ## The decoding steps of the receive pipeline -/

/-- The result of the call of `nas_message_decode` made by `_emm_as_recv`. -/
def recv_decode (E : Env) (ueid : Nat) (msg : Bytes) (len : Int)
    (decode_status : Option nas_message_decode_status_t) : decode_result :=
  E.nas_message_decode msg len (lookup_security E ueid)
    (decode_status.getD nas_message_decode_status_t.zero)

/-- The state in which a pipeline function is entered: the given cause and
an empty trace. -/
def St.init (emm_cause : Int) : St :=
  { emm_cause := emm_cause, trace := [] }

/-- The state of `_emm_as_recv` after its call of the decoder. -/
def recv_decoded_state (E : Env) (ueid : Nat) (msg : Bytes) (len : Int) (s : St) : St :=
  s.log (Event.nas_message_decode msg len (lookup_security E ueid))

/-- The handler behind each message type that is guarded by the integrity
test in `_emm_as_recv`; the three types of the shared `TODO` case have none. -/
def integrity_guarded_handler : emm_message_type → Option emm_recv_handler
  | emm_message_type.EMM_STATUS => some emm_recv_handler.emm_recv_status
  | emm_message_type.SECURITY_MODE_COMPLETE =>
    some emm_recv_handler.emm_recv_security_mode_complete
  | emm_message_type.ATTACH_COMPLETE => some emm_recv_handler.emm_recv_attach_complete
  | _ => none

/-- The security context `_emm_as_data_ind` hands to `nas_message_decrypt`. -/
def data_ind_security (E : Env) (msg : emm_as_data_t) : Option emm_security_context_t :=
  if msg.ueid > 0 then lookup_security E msg.ueid else none

/-- The result of the call of `nas_message_decrypt` made by
`_emm_as_data_ind`. -/
def data_ind_decrypt (E : Env) (msg : emm_as_data_t) : decrypt_result :=
  E.nas_message_decrypt msg.NASmsg.value (int_of_uint32 msg.NASmsg.length)
    (data_ind_security E msg) nas_message_decode_status_t.zero

/-- The result of the call of `nas_message_decode` made by `_emm_as_recv` when
`_emm_as_data_ind` enters it with the decrypted message. -/
def data_ind_decode (E : Env) (msg : emm_as_data_t) : decode_result :=
  recv_decode E msg.ueid (data_ind_decrypt E msg).plain_msg (data_ind_decrypt E msg).bytes
    (some (data_ind_decrypt E msg).decode_status)

/-- The result of the call of `nas_message_decode` made by
`_emm_as_establish_req`. -/
def establish_req_decode (E : Env) (msg : emm_as_establish_t) : decode_result :=
  E.nas_message_decode msg.NASmsg.value (int_of_uint32 msg.NASmsg.length)
    (lookup_security E msg.ueid) nas_message_decode_status_t.zero

/-- A data indication whose message reaches the switch of `_emm_as_recv`:
delivered, not empty, cleartext buffer allocated, no hard decrypt failure,
EMM protocol discriminator, decoder result not negative. -/
def data_ind_decoded (K : Codes) (E : Env) (msg : emm_as_data_t) : Prop :=
  msg.delivered ≠ 0 ∧ msg.NASmsg.length > 0 ∧ E.malloc msg.NASmsg.length = true ∧
  ¬ ((data_ind_decrypt E msg).bytes < 0 ∧
      (data_ind_decrypt E msg).bytes ≠ K.TLV_DECODE_MAC_MISMATCH) ∧
  (data_ind_decrypt E msg).header.protocol_discriminator = K.EPS_MOBILITY_MANAGEMENT_MESSAGE ∧
  0 ≤ (data_ind_decode E msg).rc

/-- A decoded message that a mandatory-security check of `_emm_as_recv`
rejects: one of the six types guarded by the integrity test with the test
violated, or a `DETACH_REQUEST` with its test violated. -/
def recv_security_check_rejects (d : decode_result)
    (emm_security_context : Option emm_security_context_t) : Prop :=
  (d.nas_msg.plain.emm.header.message_type ∈
      [emm_message_type.EMM_STATUS, emm_message_type.SECURITY_MODE_COMPLETE,
        emm_message_type.ATTACH_COMPLETE, emm_message_type.TRACKING_AREA_UPDATE_COMPLETE,
        emm_message_type.GUTI_REALLOCATION_COMPLETE, emm_message_type.UPLINK_NAS_TRANSPORT] ∧
    integrity_check_violated d.decode_status) ∨
  (d.nas_msg.plain.emm.header.message_type = emm_message_type.DETACH_REQUEST ∧
    detach_check_violated d.decode_status emm_security_context = some true)

/-- A decoded initial message that a mandatory-security check of
`_emm_as_establish_req` rejects: a `SERVICE_REQUEST` or
`EXTENDED_SERVICE_REQUEST` with the integrity test violated, or a
`DETACH_REQUEST` with its test violated. -/
def establish_req_security_check_rejects (d : decode_result)
    (emm_security_context : Option emm_security_context_t) : Prop :=
  (d.nas_msg.plain.emm.header.message_type ∈
      [emm_message_type.SERVICE_REQUEST, emm_message_type.EXTENDED_SERVICE_REQUEST] ∧
    integrity_check_violated d.decode_status) ∨
  (d.nas_msg.plain.emm.header.message_type = emm_message_type.DETACH_REQUEST ∧
    detach_check_violated d.decode_status emm_security_context = some true)

/-! ## Sample inputs and collaborators -/

/-- A sample key. -/
def sampleKey : OctetString := { length := 2, value := [17, 34] }

/-- A sample snapshot: valid key set, not new, no keys. -/
def sampleSecurity : emm_as_security_data_t :=
  { is_new := 0, ksi := 1, sqn := 0, count := 0, k_enc := none, k_int := none }

/-- A sample snapshot: valid key set, new, both keys. -/
def sampleSecurityNew : emm_as_security_data_t :=
  { is_new := 1, ksi := 1, sqn := 0, count := 0, k_enc := some sampleKey,
    k_int := some sampleKey }

/-- A sample snapshot marked new, with both keys, whose `ksi` is 255, the
"no key available" value of `sampleCodes`. -/
def sampleSecurityNoKeySet : emm_as_security_data_t :=
  { is_new := 1, ksi := 255, sqn := 0, count := 0, k_enc := some sampleKey,
    k_int := some sampleKey }

/-- A sample security context, activated once. -/
def sampleContext : emm_security_context_t :=
  { dl_count := { overflow := 0, seq_num := 5 }, ul_count := { overflow := 1, seq_num := 2 },
    selected_algorithms := { encryption := 1, integrity := 2 }, activated := 1 }

/-- Sample collaborators: no subscriber context, a codec that decodes every
buffer successfully into the all-zero message and leaves the status as it
is, handlers that return 0 and leave the cause as it is. -/
def sampleEnv : Env where
  emm_data_context_get := fun _ => none
  nas_message_decode := fun _ _ _ ds =>
    { rc := 0, nas_msg := nas_message_t.zero, decode_status := ds }
  nas_message_decrypt := fun inbuf length _ ds =>
    { bytes := length, plain_msg := inbuf,
      header := { nas_message_security_header_t.zero with protocol_discriminator := 7 },
      decode_status := ds }
  emm_recv := fun _ _ _ emm_cause _ => { rc := 0, emm_cause := emm_cause }
  emm_recv_tracking_area_update_request := fun _ _ emm_cause =>
    { rc := 0, emm_cause := emm_cause }
  lowerlayer_success := fun _ => 0
  lowerlayer_failure := fun _ => 0
  lowerlayer_data_ind := fun _ _ => 0
  emm_proc_status := fun _ _ => 0
  malloc := fun _ => true
  emm_send_detach_accept := fun _ m => (0, m)
  emm_send_status := fun _ m => (0, m)
  emm_send_identity_request := fun _ m => (0, m)
  emm_send_authentication_request := fun _ m => (0, m)
  emm_send_security_mode_command := fun _ m => (0, m)
  emm_send_authentication_reject := fun m => (0, m)
  emm_send_attach_accept := fun _ m => (0, m)
  emm_send_attach_reject := fun _ m => (0, m)
  emm_send_tracking_area_update_reject := fun _ m => (0, m)
  nas_message_encode := fun _ _ _ => (0, [])
  nas_message_encrypt := fun _ _ _ _ => (0, [])

/-- The all-zero NAS message with the given EMM message type. -/
def sampleMessage (t : emm_message_type) : nas_message_t :=
  { nas_message_t.zero with
      plain := { emm := { EMM_msg.zero with
                            header := { EMM_msg.zero.header with message_type := t } } } }

/-- Sample collaborators in which every subscriber has `sampleContext` and
the codec decodes every buffer, with result `rc`, into a message of type `t`
with decode status `ds`; the handlers return 0 and set the cause to 42. -/
def sampleEnvDecoding (rc : Int) (t : emm_message_type) (ds : nas_message_decode_status_t) :
    Env :=
  { sampleEnv with
      emm_data_context_get := fun _ => some { security := some sampleContext }
      nas_message_decode := fun _ _ _ _ =>
        { rc := rc, nas_msg := sampleMessage t, decode_status := ds }
      nas_message_decrypt := fun inbuf length _ _ =>
        { bytes := length, plain_msg := inbuf,
          header := { nas_message_security_header_t.zero with protocol_discriminator := 7 },
          decode_status := ds }
      emm_recv := fun _ _ _ _ _ => { rc := 0, emm_cause := 42 } }

/-- A decode status: context available, integrity protected, MAC mismatch. -/
def statusMacMismatch : nas_message_decode_status_t :=
  { security_context_available := 1, integrity_protected_message := 1, mac_matched := 0 }

/-- A decode status: context available, not integrity protected. -/
def statusUnprotected : nas_message_decode_status_t :=
  { security_context_available := 1, integrity_protected_message := 0, mac_matched := 0 }

/-- The members of a primitive, all zero. -/
def sampleU : emm_as_u :=
  { security := { ueid := 0, guti := none, sctx := sampleSecurity,
                  msgType := emm_as_msg_type.unlisted 0 },
    establish := { ueid := 0, UEid_guti := none, sctx := sampleSecurity,
                   NASinfo := emm_as_nas_info.unlisted 0, NASmsg := { length := 0, value := [] } },
    release := { ueid := 0, guti := none, cause := 0 },
    data := { ueid := 0, guti := none, sctx := sampleSecurity, delivered := 0,
              NASinfo := emm_as_nas_data.unlisted 0, NASmsg := { length := 0, value := [] } },
    status := { ueid := 0, guti := none, sctx := sampleSecurity, emm_cause := 0 },
    cell_info := { plmn0 := 0, rat := 0 } }

/-- A data indication for subscriber 3 that delivers two bytes. -/
def sampleDataInd : emm_as_t :=
  { primitive := emm_as_primitive_t._EMMAS_DATA_IND,
    u := { sampleU with
             data := { ueid := 3, guti := none, sctx := sampleSecurity, delivered := 1,
                       NASinfo := emm_as_nas_data.unlisted 0,
                       NASmsg := { length := 2, value := [7, 69] } } } }

/-- An establish request for subscriber 4 that carries two bytes. -/
def sampleEstablishReq : emm_as_t :=
  { primitive := emm_as_primitive_t._EMMAS_ESTABLISH_REQ,
    u := { sampleU with
             establish := { ueid := 4, UEid_guti := none, sctx := sampleSecurity,
                            NASinfo := emm_as_nas_info.unlisted 0,
                            NASmsg := { length := 2, value := [7, 69] } } } }

/-! ## Views of a trace -/

/-- The side of the SAP an event belongs to: the receive pipeline, the send
pipeline, buffer management (used by both), or the status report of the
dispatcher. -/
inductive EventKind where
  | receive
  | send
  | memory
  | status
deriving DecidableEq, Repr

/-- The side of each event. -/
def Event.kind : Event → EventKind
  | Event.set_emm_cause _ => EventKind.receive
  | Event.nas_message_decode _ _ _ => EventKind.receive
  | Event.nas_message_decrypt _ _ _ => EventKind.receive
  | Event.emm_recv _ _ => EventKind.receive
  | Event.lowerlayer_success _ => EventKind.receive
  | Event.lowerlayer_failure _ => EventKind.receive
  | Event.lowerlayer_data_ind _ _ => EventKind.receive
  | Event.emm_proc_status _ _ => EventKind.status
  | Event.malloc _ => EventKind.memory
  | Event.free => EventKind.memory
  | Event.emm_send _ => EventKind.send
  | Event.nas_message_encode _ _ _ => EventKind.send
  | Event.nas_message_encrypt _ _ _ _ => EventKind.send
  | Event.nas_itti_dl_data_req _ _ _ => EventKind.send
  | Event.nas_itti_establish_cnf _ _ _ _ _ _ => EventKind.send

/-- The events of one side in a trace, in order. -/
def events_of_kind (k : EventKind) (t : List Event) : List Event :=
  t.filter fun e => decide (e.kind = k)

/-- The calls of `nas_message_decode` in a trace, in order: buffer and length. -/
def decode_calls (t : List Event) : List (Bytes × Int) :=
  t.filterMap fun e =>
    match e with
    | Event.nas_message_decode buffer length _ => some (buffer, length)
    | _ => none

/-- The calls of `nas_message_decrypt` in a trace, in order: buffer and
length. -/
def decrypt_calls (t : List Event) : List (Bytes × Int) :=
  t.filterMap fun e =>
    match e with
    | Event.nas_message_decrypt inbuf length _ => some (inbuf, length)
    | _ => none

/-- The calls of `lowerlayer_data_ind` in a trace, in order. -/
def lowerlayer_data_ind_calls (t : List Event) : List (Nat × OctetString) :=
  t.filterMap fun e =>
    match e with
    | Event.lowerlayer_data_ind ueid data => some (ueid, data)
    | _ => none

/-- The calls of `lowerlayer_success` in a trace, in order. -/
def lowerlayer_success_calls (t : List Event) : List Nat :=
  t.filterMap fun e =>
    match e with
    | Event.lowerlayer_success ueid => some ueid
    | _ => none

/-- The calls of `lowerlayer_failure` in a trace, in order. -/
def lowerlayer_failure_calls (t : List Event) : List Nat :=
  t.filterMap fun e =>
    match e with
    | Event.lowerlayer_failure ueid => some ueid
    | _ => none

/-- The state of `_emm_as_data_ind` after its calls of `malloc` and
`nas_message_decrypt`. -/
def data_ind_decrypted_state (E : Env) (msg : emm_as_data_t) (s : St) : St :=
  (s.log (Event.malloc msg.NASmsg.length)).log
    (Event.nas_message_decrypt msg.NASmsg.value (int_of_uint32 msg.NASmsg.length)
      (data_ind_security E msg))

/-- A data indication for which `_emm_as_data_ind` calls `nas_message_decrypt`:
delivered, not empty, cleartext buffer allocated. -/
def data_ind_decrypts (E : Env) (msg : emm_as_data_t) : Prop :=
  msg.delivered ≠ 0 ∧ msg.NASmsg.length > 0 ∧ E.malloc msg.NASmsg.length = true

/-- The hard failure test of `_emm_as_data_ind` on the decrypt result. -/
def data_ind_hard_failure (K : Codes) (E : Env) (msg : emm_as_data_t) : Prop :=
  (data_ind_decrypt E msg).bytes < 0 ∧
    (data_ind_decrypt E msg).bytes ≠ K.TLV_DECODE_MAC_MISMATCH

instance (K : Codes) (E : Env) (msg : emm_as_data_t) :
    Decidable (data_ind_hard_failure K E msg) := by
  unfold data_ind_hard_failure; infer_instance

/-- The `OctetString` that `_emm_as_data_ind` hands to `lowerlayer_data_ind`:
the byte count converted to `uint32_t` and the cleartext. -/
def data_ind_esm_data (E : Env) (msg : emm_as_data_t) : OctetString :=
  { length := ((data_ind_decrypt E msg).bytes % 4294967296).toNat,
    value := (data_ind_decrypt E msg).plain_msg }

/-- Sample collaborators in which `nas_message_decrypt` returns the byte
count `bytes` and a header with protocol discriminator `pd`, the cleartext
being the input; the lower layer functions return 5, 6 and 8. -/
def sampleEnvDecrypting (bytes : Int) (pd : Nat) : Env :=
  { sampleEnv with
      nas_message_decrypt := fun inbuf _ _ ds =>
        { bytes := bytes, plain_msg := inbuf,
          header := { nas_message_security_header_t.zero with protocol_discriminator := pd },
          decode_status := ds }
      lowerlayer_data_ind := fun _ _ => 5
      lowerlayer_success := fun _ => 6
      lowerlayer_failure := fun _ => 8 }

/-- The data of `sampleDataInd`. -/
def sampleData : emm_as_data_t := sampleDataInd.u.data

/-- Sample collaborators for a MAC mismatch: `nas_message_decrypt` returns
-14, the MAC mismatch code of `sampleCodes`, with the EMM protocol
discriminator 7, and the decoder reads an `IDENTITY_RESPONSE`. -/
def sampleEnvMacMismatch : Env :=
  { sampleEnvDecrypting (-14) 7 with
      nas_message_decode := fun _ _ _ ds =>
        { rc := 0, nas_msg := sampleMessage emm_message_type.IDENTITY_RESPONSE,
          decode_status := ds } }

/-- A paging indication, a primitive of the send pipeline. -/
def samplePageInd : emm_as_t :=
  { primitive := emm_as_primitive_t._EMMAS_PAGE_IND, u := sampleU }

/-! ## Message types of the two receive switches -/

/-- The twelve message types that the switch of `_emm_as_recv` names. -/
def recv_recognised_types : List emm_message_type :=
  [emm_message_type.EMM_STATUS, emm_message_type.ATTACH_REQUEST,
    emm_message_type.IDENTITY_RESPONSE, emm_message_type.AUTHENTICATION_RESPONSE,
    emm_message_type.AUTHENTICATION_FAILURE, emm_message_type.SECURITY_MODE_COMPLETE,
    emm_message_type.SECURITY_MODE_REJECT, emm_message_type.ATTACH_COMPLETE,
    emm_message_type.TRACKING_AREA_UPDATE_COMPLETE, emm_message_type.GUTI_REALLOCATION_COMPLETE,
    emm_message_type.UPLINK_NAS_TRANSPORT, emm_message_type.DETACH_REQUEST]

/-- The five message types that the switch of `_emm_as_establish_req` names. -/
def establish_req_recognised_types : List emm_message_type :=
  [emm_message_type.ATTACH_REQUEST, emm_message_type.DETACH_REQUEST,
    emm_message_type.TRACKING_AREA_UPDATE_REQUEST, emm_message_type.SERVICE_REQUEST,
    emm_message_type.EXTENDED_SERVICE_REQUEST]

/-- The three initial message types that `_emm_as_establish_req` answers with
a `TODO` stub. -/
def establish_req_stubbed_types : List emm_message_type :=
  [emm_message_type.DETACH_REQUEST, emm_message_type.SERVICE_REQUEST,
    emm_message_type.EXTENDED_SERVICE_REQUEST]

/-- The handler that the case of a message type calls in `_emm_as_recv`; the
three types of the shared `TODO` case, and the types of the default case, have
none. -/
def recv_handler : emm_message_type → Option emm_recv_handler
  | emm_message_type.EMM_STATUS => some emm_recv_handler.emm_recv_status
  | emm_message_type.ATTACH_REQUEST => some emm_recv_handler.emm_recv_attach_request
  | emm_message_type.IDENTITY_RESPONSE => some emm_recv_handler.emm_recv_identity_response
  | emm_message_type.AUTHENTICATION_RESPONSE =>
    some emm_recv_handler.emm_recv_authentication_response
  | emm_message_type.AUTHENTICATION_FAILURE =>
    some emm_recv_handler.emm_recv_authentication_failure
  | emm_message_type.SECURITY_MODE_COMPLETE =>
    some emm_recv_handler.emm_recv_security_mode_complete
  | emm_message_type.SECURITY_MODE_REJECT => some emm_recv_handler.emm_recv_security_mode_reject
  | emm_message_type.ATTACH_COMPLETE => some emm_recv_handler.emm_recv_attach_complete
  | emm_message_type.DETACH_REQUEST => some emm_recv_handler.emm_recv_detach_request
  | _ => none

/-- A decoded message that passes the mandatory-security check of its case in
`_emm_as_recv`: for the six types guarded by the integrity test the test is
not violated, and for a `DETACH_REQUEST` its test is evaluated and not
violated; the other types have no check. -/
def recv_security_check_passes (d : decode_result)
    (emm_security_context : Option emm_security_context_t) : Prop :=
  (d.nas_msg.plain.emm.header.message_type ∈
      [emm_message_type.EMM_STATUS, emm_message_type.SECURITY_MODE_COMPLETE,
        emm_message_type.ATTACH_COMPLETE, emm_message_type.TRACKING_AREA_UPDATE_COMPLETE,
        emm_message_type.GUTI_REALLOCATION_COMPLETE, emm_message_type.UPLINK_NAS_TRANSPORT] →
    ¬ integrity_check_violated d.decode_status) ∧
  (d.nas_msg.plain.emm.header.message_type = emm_message_type.DETACH_REQUEST →
    detach_check_violated d.decode_status emm_security_context = some false)

/-- A decoded initial message that passes the mandatory-security check of its
case in `_emm_as_establish_req`: for a `SERVICE_REQUEST` or an
`EXTENDED_SERVICE_REQUEST` the integrity test is not violated, and for a
`DETACH_REQUEST` its test is evaluated and not violated. -/
def establish_req_security_check_passes (d : decode_result)
    (emm_security_context : Option emm_security_context_t) : Prop :=
  (d.nas_msg.plain.emm.header.message_type ∈
      [emm_message_type.SERVICE_REQUEST, emm_message_type.EXTENDED_SERVICE_REQUEST] →
    ¬ integrity_check_violated d.decode_status) ∧
  (d.nas_msg.plain.emm.header.message_type = emm_message_type.DETACH_REQUEST →
    detach_check_violated d.decode_status emm_security_context = some false)

/-- The state of `_emm_as_establish_req` after its call of the decoder. -/
def establish_req_decoded_state (E : Env) (msg : emm_as_establish_t) (s : St) : St :=
  s.log (Event.nas_message_decode msg.NASmsg.value (int_of_uint32 msg.NASmsg.length)
    (lookup_security E msg.ueid))

/-- A decode status: context available, integrity protected, MAC matched. -/
def statusProtected : nas_message_decode_status_t :=
  { security_context_available := 1, integrity_protected_message := 1, mac_matched := 1 }

/-- Sample collaborators for an attach: no subscriber has a context, the
decoder reads an `ATTACH_REQUEST` that is not integrity protected, and the
handlers return 0 and leave the cause as it is. -/
def sampleEnvAttachRequest : Env :=
  { sampleEnv with
      nas_message_decode := fun _ _ _ _ =>
        { rc := 0, nas_msg := sampleMessage emm_message_type.ATTACH_REQUEST,
          decode_status := nas_message_decode_status_t.zero } }

/-! ## The payload step of the send functions -/

/-- A security snapshot on which the selector denies: valid key set
identifier, marked new, no integrity key. -/
def snapshot_denied (K : Codes) (sctx : emm_as_security_data_t) : Prop :=
  sctx.ksi ≠ K.EMM_AS_NO_KEY_AVAILABLE ∧ sctx.is_new ≠ 0 ∧ sctx.k_int = none

instance (K : Codes) (sctx : emm_as_security_data_t) : Decidable (snapshot_denied K sctx) := by
  unfold snapshot_denied; infer_instance

/-- The security snapshot read by the send function of a primitive, for the
six primitives that build a payload: the `sctx` member of the primitive's
data. -/
def send_snapshot (msg : emm_as_t) : Option emm_as_security_data_t :=
  match msg.primitive with
  | emm_as_primitive_t._EMMAS_DATA_REQ => some msg.u.data.sctx
  | emm_as_primitive_t._EMMAS_STATUS_IND => some msg.u.status.sctx
  | emm_as_primitive_t._EMMAS_SECURITY_REQ => some msg.u.security.sctx
  | emm_as_primitive_t._EMMAS_SECURITY_REJ => some msg.u.security.sctx
  | emm_as_primitive_t._EMMAS_ESTABLISH_CNF => some msg.u.establish.sctx
  | emm_as_primitive_t._EMMAS_ESTABLISH_REJ => some msg.u.establish.sctx
  | _ => none

/-- The payload step of `_emm_as_data_req`, from the header selection to the
test `size > 0`: the value of `size` (the result of `emm_send_detach_accept`,
or `NASmsg.length` for data that is already encoded, or 0 when the selector
denies), the flag `is_encoded`, the NAS message and the trace. -/
def data_req_payload (K : Codes) (E : Env) (msg : emm_as_data_t) (t : List Event) :
    Int × Bool × nas_message_t × List Event :=
  let h := _emm_as_set_header K nas_message_t.zero (some msg.sctx)
  match h.2 with
  | some emm_msg =>
    match msg.NASinfo with
    | emm_as_nas_data.EMM_AS_NAS_DATA_DETACH =>
      let r := call_emm_send emm_send_builder.emm_send_detach_accept emm_msg h.1
        (E.emm_send_detach_accept msg (emm_msg.read h.1)) t
      (r.1, false, r.2.1, r.2.2)
    | _ => (int_of_uint32 msg.NASmsg.length, true, h.1, t)
  | none => (0, false, h.1, t)

/-- The payload step of `_emm_as_status_ind`: the value of `size` at the test
`size > 0`, the NAS message and the trace. -/
def status_ind_payload (K : Codes) (E : Env) (msg : emm_as_status_t) (t : List Event) :
    Int × nas_message_t × List Event :=
  let h := _emm_as_set_header K nas_message_t.zero (some msg.sctx)
  match h.2 with
  | some emm_msg =>
    call_emm_send emm_send_builder.emm_send_status emm_msg h.1
      (E.emm_send_status msg (emm_msg.read h.1)) t
  | none => (0, h.1, t)

/-- The payload step of `_emm_as_security_req`: the value of `size` at the
test `size > 0`, the NAS message and the trace. -/
def security_req_payload (K : Codes) (E : Env) (msg : emm_as_security_t) (t : List Event) :
    Int × nas_message_t × List Event :=
  let h := _emm_as_set_header K nas_message_t.zero (some msg.sctx)
  match h.2 with
  | some emm_msg =>
    match msg.msgType with
    | emm_as_msg_type.EMM_AS_MSG_TYPE_IDENT =>
      call_emm_send emm_send_builder.emm_send_identity_request emm_msg h.1
        (E.emm_send_identity_request msg (emm_msg.read h.1)) t
    | emm_as_msg_type.EMM_AS_MSG_TYPE_AUTH =>
      call_emm_send emm_send_builder.emm_send_authentication_request emm_msg h.1
        (E.emm_send_authentication_request msg (emm_msg.read h.1)) t
    | emm_as_msg_type.EMM_AS_MSG_TYPE_SMC =>
      call_emm_send emm_send_builder.emm_send_security_mode_command emm_msg h.1
        (E.emm_send_security_mode_command msg (emm_msg.read h.1)) t
    | _ => (0, h.1, t)
  | none => (0, h.1, t)

/-- The payload step of `_emm_as_security_rej`: the value of `size` at the
test `size > 0`, the NAS message and the trace. -/
def security_rej_payload (K : Codes) (E : Env) (msg : emm_as_security_t) (t : List Event) :
    Int × nas_message_t × List Event :=
  let h := _emm_as_set_header K nas_message_t.zero (some msg.sctx)
  match h.2 with
  | some emm_msg =>
    match msg.msgType with
    | emm_as_msg_type.EMM_AS_MSG_TYPE_AUTH =>
      call_emm_send emm_send_builder.emm_send_authentication_reject emm_msg h.1
        (E.emm_send_authentication_reject (emm_msg.read h.1)) t
    | _ => (0, h.1, t)
  | none => (0, h.1, t)

/-- The payload step of `_emm_as_establish_cnf`: the value of `size` when the
function returns for a `NULL` GUTI (still 0) or at the test `size > 0`, the
NAS message and the trace. -/
def establish_cnf_payload (K : Codes) (E : Env) (msg : emm_as_establish_t) (t : List Event) :
    Int × nas_message_t × List Event :=
  match msg.UEid_guti with
  | none => (0, nas_message_t.zero, t)
  | some _ =>
    let h := _emm_as_set_header K nas_message_t.zero (some msg.sctx)
    match h.2 with
    | some emm_msg =>
      match msg.NASinfo with
      | emm_as_nas_info.EMM_AS_NAS_INFO_ATTACH =>
        call_emm_send emm_send_builder.emm_send_attach_accept emm_msg h.1
          (E.emm_send_attach_accept msg (emm_msg.read h.1)) t
      | _ => (0, h.1, t)
    | none => (0, h.1, t)

/-- The payload step of `_emm_as_establish_rej`: the value of `size` at the
test `size > 0`, the NAS message and the trace. -/
def establish_rej_payload (K : Codes) (E : Env) (msg : emm_as_establish_t) (t : List Event) :
    Int × nas_message_t × List Event :=
  let h := _emm_as_set_header K nas_message_t.zero (some msg.sctx)
  match h.2 with
  | some emm_msg =>
    match msg.NASinfo with
    | emm_as_nas_info.EMM_AS_NAS_INFO_ATTACH =>
      call_emm_send emm_send_builder.emm_send_attach_reject emm_msg h.1
        (E.emm_send_attach_reject msg (emm_msg.read h.1)) t
    | emm_as_nas_info.EMM_AS_NAS_INFO_TAU =>
      call_emm_send emm_send_builder.emm_send_tracking_area_update_reject emm_msg h.1
        (E.emm_send_tracking_area_update_reject msg (emm_msg.read h.1)) t
    | _ => (0, h.1, t)
  | none => (0, h.1, t)

/-- The events of the codec adapter in a trace: the allocation and release
of a buffer and the calls of the codec. -/
def codec_adapter_events (t : List Event) : List Event :=
  t.filter fun e =>
    match e with
    | Event.malloc _ => true
    | Event.free => true
    | Event.nas_message_encode _ _ _ => true
    | Event.nas_message_encrypt _ _ _ _ => true
    | _ => false

/-- The byte counts returned by the calls of `nas_message_encode` and
`nas_message_encrypt` that a trace records, in order. -/
def codec_results (E : Env) (t : List Event) : List Int :=
  t.filterMap fun e =>
    match e with
    | Event.nas_message_encode msg length security =>
      some (E.nas_message_encode msg length security).1
    | Event.nas_message_encrypt inbuf header length security =>
      some (E.nas_message_encrypt inbuf header length security).1
    | _ => none

/-- The payload builders called in a trace, in order. -/
def builder_calls (t : List Event) : List emm_send_builder :=
  t.filterMap fun e =>
    match e with
    | Event.emm_send b => some b
    | _ => none

/-- A sample snapshot on which the selector denies: valid key set, new, no
integrity key. -/
def sampleSecurityDenied : emm_as_security_data_t :=
  { is_new := 1, ksi := 1, sqn := 0, count := 0, k_enc := some sampleKey, k_int := none }

/-- A security request for subscriber 4 with a snapshot on which the selector
denies. -/
def sampleSecurityReqDenied : emm_as_t :=
  { primitive := emm_as_primitive_t._EMMAS_SECURITY_REQ,
    u := { sampleU with
             security := { ueid := 4, guti := none, sctx := sampleSecurityDenied,
                           msgType := emm_as_msg_type.EMM_AS_MSG_TYPE_SMC } } }

/-- A call of the codec recorded in the trace returned a positive byte
count. -/
def codec_positive (E : Env) (t : List Event) : Prop :=
  ∃ b ∈ codec_results E t, 0 < b

instance (E : Env) (t : List Event) : Decidable (codec_positive E t) := by
  unfold codec_positive; infer_instance

/-- Sample collaborators for sending: no subscriber has a context, every
payload builder reports the size 3, and the codec writes three bytes. -/
def sampleEnvSending : Env :=
  { sampleEnv with
      emm_send_detach_accept := fun _ m => (3, m)
      emm_send_status := fun _ m => (3, m)
      emm_send_identity_request := fun _ m => (3, m)
      emm_send_authentication_request := fun _ m => (3, m)
      emm_send_security_mode_command := fun _ m => (3, m)
      emm_send_authentication_reject := fun m => (3, m)
      emm_send_attach_accept := fun _ m => (3, m)
      emm_send_attach_reject := fun _ m => (3, m)
      emm_send_tracking_area_update_reject := fun _ m => (3, m)
      nas_message_encode := fun _ _ _ => (3, [7, 96, 111])
      nas_message_encrypt := fun _ _ _ _ => (3, [7, 96, 111]) }

/-- Sample collaborators for sending to a subscriber whose EMM context
exists but holds no security context (`emm_ctx->security` is `NULL`). -/
def sampleEnvNoSecurity : Env :=
  { sampleEnvSending with
      emm_data_context_get := fun _ => some { security := none } }

/-- A sample GUTI. -/
def sampleGuti : GUTI_t := { MMEcode := 1, m_tmsi := 9 }

/-- The data of an establish confirm for subscriber 4: a GUTI, a snapshot on
which the selector does not deny, an attach accept to build. -/
def sampleEstablishCnfData : emm_as_establish_t :=
  { ueid := 4, UEid_guti := some sampleGuti, sctx := sampleSecurity,
    NASinfo := emm_as_nas_info.EMM_AS_NAS_INFO_ATTACH, NASmsg := { length := 0, value := [] } }

/-- An establish confirm for subscriber 4. -/
def sampleEstablishCnf : emm_as_t :=
  { primitive := emm_as_primitive_t._EMMAS_ESTABLISH_CNF,
    u := { sampleU with establish := sampleEstablishCnfData } }

/-! ## The codec adapter before the allocation -/

/-- The value of `length` in `_emm_as_encode` when the buffer is requested:
expanded by `NAS_MESSAGE_SECURITY_HEADER_SIZE` under the test
`msg->header.security_header_type != SECURITY_HEADER_TYPE_NOT_PROTECTED`. -/
def encode_length (K : Codes) (msg : nas_message_t) (length : Int) : Int :=
  if msg.header.security_header_type ≠ K.SECURITY_HEADER_TYPE_NOT_PROTECTED then
    int_add length K.NAS_MESSAGE_SECURITY_HEADER_SIZE
  else length

/-- The message `_emm_as_encode` hands to `nas_message_encode`: under the
same test the header of the nested plain message has been set. -/
def encode_message (K : Codes) (msg : nas_message_t) : nas_message_t :=
  if msg.header.security_header_type ≠ K.SECURITY_HEADER_TYPE_NOT_PROTECTED then
    { msg with security_protected :=
        { msg.security_protected with plain :=
            { emm :=
                { msg.security_protected.plain.emm with header :=
                    { msg.security_protected.plain.emm.header with
                        protocol_discriminator := K.EPS_MOBILITY_MANAGEMENT_MESSAGE,
                        security_header_type := K.SECURITY_HEADER_TYPE_NOT_PROTECTED } } } } }
  else msg

/-- The value of `length` in `_emm_as_encrypt` when the buffer is
requested. -/
def encrypt_length (K : Codes) (header : nas_message_security_header_t) (length : Int) : Int :=
  if header.security_header_type ≠ K.SECURITY_HEADER_TYPE_NOT_PROTECTED then
    int_add length K.NAS_MESSAGE_SECURITY_HEADER_SIZE
  else length

/-! ## The switch of `_emm_as_send` -/

/-- The switch of `_emm_as_send`: the access stratum message after the call
of the send function selected by the primitive, with the identifier it
returned in `msgID`, and the trace; `none` when that function dereferences
`NULL`. -/
def send_function_result (K : Codes) (E : Env) (msg : emm_as_t) (t : List Event) :
    Option (as_message_t × List Event) :=
  let as_msg := as_message_t.zero
  match msg.primitive with
  | emm_as_primitive_t._EMMAS_DATA_REQ =>
    let r := _emm_as_data_req K E msg.u.data as_msg.info_transfer_req t
    some ({ as_msg with msgID := r.1, info_transfer_req := r.2.1 }, r.2.2)
  | emm_as_primitive_t._EMMAS_STATUS_IND =>
    let r := _emm_as_status_ind K E msg.u.status as_msg.info_transfer_req t
    some ({ as_msg with msgID := r.1, info_transfer_req := r.2.1 }, r.2.2)
  | emm_as_primitive_t._EMMAS_RELEASE_REQ =>
    let r := _emm_as_release_req K msg.u.release as_msg.nas_release_req
    some ({ as_msg with msgID := r.1, nas_release_req := r.2 }, t)
  | emm_as_primitive_t._EMMAS_SECURITY_REQ =>
    let r := _emm_as_security_req K E msg.u.security as_msg.info_transfer_req t
    some ({ as_msg with msgID := r.1, info_transfer_req := r.2.1 }, r.2.2)
  | emm_as_primitive_t._EMMAS_SECURITY_REJ =>
    let r := _emm_as_security_rej K E msg.u.security as_msg.info_transfer_req t
    some ({ as_msg with msgID := r.1, info_transfer_req := r.2.1 }, r.2.2)
  | emm_as_primitive_t._EMMAS_ESTABLISH_CNF =>
    match _emm_as_establish_cnf K E msg.u.establish as_msg.nas_establish_rsp t with
    | some r => some ({ as_msg with msgID := r.1, nas_establish_rsp := r.2.1 }, r.2.2)
    | none => none
  | emm_as_primitive_t._EMMAS_ESTABLISH_REJ =>
    let r := _emm_as_establish_rej K E msg.u.establish as_msg.nas_establish_rsp t
    some ({ as_msg with msgID := r.1, nas_establish_rsp := r.2.1 }, r.2.2)
  | emm_as_primitive_t._EMMAS_PAGE_IND =>
    some ({ as_msg with msgID := _emm_as_page_ind K }, t)
  | emm_as_primitive_t._EMMAS_CELL_INFO_REQ =>
    let r := _emm_as_cell_info_req K msg.u.cell_info as_msg.cell_info_req
    some ({ as_msg with msgID := r.1, cell_info_req := r.2 }, t)
  | _ => some ({ as_msg with msgID := 0 }, t)

/-- The calls of the transport recorded in a trace, in order. -/
def transport_calls (t : List Event) : List Event :=
  t.filter fun e =>
    match e with
    | Event.nas_itti_dl_data_req _ _ _ => true
    | Event.nas_itti_establish_cnf _ _ _ _ _ _ => true
    | _ => false

/-- The buffer events of a trace: allocations and releases, in order. -/
def buffer_events (t : List Event) : List Event :=
  t.filter fun e =>
    match e with
    | Event.malloc _ => true
    | Event.free => true
    | _ => false

/-- A release request for subscriber 4 that supplies `sampleGuti`. -/
def sampleReleaseData : emm_as_release_t :=
  { ueid := 4, guti := some sampleGuti, cause := 0 }

/-- Sample collaborators for sending to a subscriber who has
`sampleContext`. -/
def sampleEnvSendingContext : Env :=
  { sampleEnvSending with
      emm_data_context_get := fun _ => some { security := some sampleContext } }

/-- A security header of an integrity protected message (type 1 of
`sampleCodes`). -/
def sampleHeaderProtected : nas_message_security_header_t :=
  { nas_message_security_header_t.zero with
      protocol_discriminator := 7, security_header_type := 1 }


/-- A release request primitive carrying the sample release data. -/
def sampleReleaseReq : emm_as_t :=
  { primitive := emm_as_primitive_t._EMMAS_RELEASE_REQ,
    u := { sampleU with release := sampleReleaseData } }

/-- A cell information response primitive. -/
def sampleCellInfoRes : emm_as_t :=
  { primitive := emm_as_primitive_t._EMMAS_CELL_INFO_RES, u := sampleU }

/-! ## Samples for the reads through `NULL` and for the `int` byte budget -/

/-- Sample collaborators for sending whose allocator refuses a request of
negative `int` length (as a `size_t` it exceeds every object). -/
def sampleEnvSendingBounded : Env :=
  { sampleEnvSending with malloc := fun size => decide (0 ≤ size) }

/-- The sample NAS message with a protected header, of type 1. -/
def sampleMessageProtected : nas_message_t :=
  nas_message_t.zero.set_security_header_type 1

/-- A data request that forwards an already encoded message of `n` bytes under
the snapshot that is new with both keys. -/
def sampleDataReqOfLength (n : Nat) : emm_as_data_t :=
  { ueid := 0, guti := none, sctx := sampleSecurityNew, delivered := 0,
    NASinfo := emm_as_nas_data.unlisted 0, NASmsg := { length := n, value := [] } }

/-! ## Shape of the receive functions on the paths studied -/

/-- Shape of `_emm_as_recv` on the six types guarded by the integrity test. -/
theorem recv_integrity_guarded_eq (K : Codes) (E : Env) (ueid : Nat)
    (msg : Bytes) (len : Int) (decode_status : Option nas_message_decode_status_t)
    (s : St) (hrc : 0 ≤ (recv_decode E ueid msg len decode_status).rc)
    (hty : (recv_decode E ueid msg len decode_status).nas_msg.plain.emm.header.message_type ∈
      [emm_message_type.EMM_STATUS, emm_message_type.SECURITY_MODE_COMPLETE,
        emm_message_type.ATTACH_COMPLETE, emm_message_type.TRACKING_AREA_UPDATE_COMPLETE,
        emm_message_type.GUTI_REALLOCATION_COMPLETE, emm_message_type.UPLINK_NAS_TRANSPORT]) :
    _emm_as_recv K E ueid msg len decode_status s =
      if integrity_check_violated (recv_decode E ueid msg len decode_status).decode_status then
        some ((recv_decode E ueid msg len decode_status).rc,
          (recv_decoded_state E ueid msg len s).set_emm_cause K.EMM_CAUSE_PROTOCOL_ERROR)
      else
        match integrity_guarded_handler
            (recv_decode E ueid msg len decode_status).nas_msg.plain.emm.header.message_type with
        | some h =>
          some (call_emm_recv E h ueid (recv_decode E ueid msg len decode_status).nas_msg.plain.emm
            (recv_decode E ueid msg len decode_status).decode_status
            (recv_decoded_state E ueid msg len s))
        | none => some (K.RETURNerror, recv_decoded_state E ueid msg len s) := by
  unfold recv_decode at hrc hty ⊢
  unfold _emm_as_recv recv_decoded_state
  simp only [List.mem_cons, List.mem_singleton, List.not_mem_nil, or_false] at hty
  rcases hty with hty | hty | hty | hty | hty | hty <;>
    simp only [hty, not_lt.mpr hrc, if_false, integrity_guarded_handler]

/-- Shape of `_emm_as_recv` on a message rejected by a mandatory-security
check. -/
theorem recv_rejects_eq (K : Codes) (E : Env) (ueid : Nat)
    (msg : Bytes) (len : Int) (decode_status : Option nas_message_decode_status_t) (s : St)
    (hrc : 0 ≤ (recv_decode E ueid msg len decode_status).rc)
    (hrej : recv_security_check_rejects (recv_decode E ueid msg len decode_status)
      (lookup_security E ueid)) :
    _emm_as_recv K E ueid msg len decode_status s =
      some ((recv_decode E ueid msg len decode_status).rc,
        (recv_decoded_state E ueid msg len s).set_emm_cause K.EMM_CAUSE_PROTOCOL_ERROR) := by
  rcases hrej with ⟨hty, hviol⟩ | ⟨hty, hdet⟩
  · rw [recv_integrity_guarded_eq K E ueid msg len decode_status s hrc hty, if_pos hviol]
  · unfold recv_decode at hrc hty hdet ⊢
    unfold _emm_as_recv recv_decoded_state
    simp only [hty, not_lt.mpr hrc, if_false, hdet]

/-- Shape of `_emm_as_data_ind` on a data indication whose message reaches
`_emm_as_recv`. -/
theorem data_ind_decoded_eq (K : Codes) (E : Env) (msg : emm_as_data_t) (s : St)
    (h : data_ind_decoded K E msg) :
    _emm_as_data_ind K E msg s =
      match _emm_as_recv K E msg.ueid (data_ind_decrypt E msg).plain_msg
          (data_ind_decrypt E msg).bytes (some (data_ind_decrypt E msg).decode_status)
          ((s.log (Event.malloc msg.NASmsg.length)).log
            (Event.nas_message_decrypt msg.NASmsg.value (int_of_uint32 msg.NASmsg.length)
              (data_ind_security E msg))) with
      | none => none
      | some (rc, s) => some (rc, s.log Event.free) := by
  obtain ⟨h1, h2, h3, h4, h5, _⟩ := h
  unfold data_ind_decrypt data_ind_security at h4 h5 ⊢
  unfold _emm_as_data_ind
  simp only [h1, h2, h3, h4, h5, ne_eq, not_false_eq_true, if_true, if_false]

/-! ## Properties of the typed decode-and-validate step -/

/-- C1: in `_emm_as_recv`, for a message whose decoder result is not
negative, whose type is `EMM_STATUS`, `SECURITY_MODE_COMPLETE`,
`ATTACH_COMPLETE`, `TRACKING_AREA_UPDATE_COMPLETE`,
`GUTI_REALLOCATION_COMPLETE` or `UPLINK_NAS_TRANSPORT`, and whose three flags
are 0 or 1: the call returns, and it rejects the message (the one store
through `emm_cause` is `EMM_CAUSE_PROTOCOL_ERROR` and no handler is called)
if and only if the three flags are not all set.  A rejected message leaves
the cause at `EMM_CAUSE_PROTOCOL_ERROR` and returns the decoder result.  In
particular the message is rejected when `integrity_protected_message` is 0,
and when `security_context_available` is 1 and `mac_matched` is 0.  The same
equivalence holds for the cause found after the call, when the cause on entry
is not already `EMM_CAUSE_PROTOCOL_ERROR`. -/
theorem recv_integrity_required_rejected_iff (K : Codes) (E : Env) (ueid : Nat)
    (msg : Bytes) (len : Int) (decode_status : Option nas_message_decode_status_t)
    (emm_cause : Int)
    (hrc : 0 ≤ (recv_decode E ueid msg len decode_status).rc)
    (hty : (recv_decode E ueid msg len decode_status).nas_msg.plain.emm.header.message_type ∈
      [emm_message_type.EMM_STATUS, emm_message_type.SECURITY_MODE_COMPLETE,
        emm_message_type.ATTACH_COMPLETE, emm_message_type.TRACKING_AREA_UPDATE_COMPLETE,
        emm_message_type.GUTI_REALLOCATION_COMPLETE, emm_message_type.UPLINK_NAS_TRANSPORT])
    (hsca : (recv_decode E ueid msg len decode_status).decode_status.security_context_available
      ≤ 1)
    (hipm : (recv_decode E ueid msg len decode_status).decode_status.integrity_protected_message
      ≤ 1)
    (hmac : (recv_decode E ueid msg len decode_status).decode_status.mac_matched ≤ 1) :
    ∃ rc s,
      _emm_as_recv K E ueid msg len decode_status (St.init emm_cause) = some (rc, s) ∧
      ((cause_stores s.trace = [K.EMM_CAUSE_PROTOCOL_ERROR] ∧ handler_calls s.trace = []) ↔
        ¬ ((recv_decode E ueid msg len decode_status).decode_status.security_context_available
              = 1 ∧
            (recv_decode E ueid msg len decode_status).decode_status.integrity_protected_message
              = 1 ∧
            (recv_decode E ueid msg len decode_status).decode_status.mac_matched = 1)) ∧
      (cause_stores s.trace = [K.EMM_CAUSE_PROTOCOL_ERROR] ∧ handler_calls s.trace = [] →
        s.emm_cause = K.EMM_CAUSE_PROTOCOL_ERROR ∧
        rc = (recv_decode E ueid msg len decode_status).rc) ∧
      ((recv_decode E ueid msg len decode_status).decode_status.integrity_protected_message = 0 ∨
        ((recv_decode E ueid msg len decode_status).decode_status.security_context_available = 1 ∧
          (recv_decode E ueid msg len decode_status).decode_status.mac_matched = 0) →
        cause_stores s.trace = [K.EMM_CAUSE_PROTOCOL_ERROR] ∧ handler_calls s.trace = []) ∧
      (emm_cause ≠ K.EMM_CAUSE_PROTOCOL_ERROR →
        ((s.emm_cause = K.EMM_CAUSE_PROTOCOL_ERROR ∧ handler_calls s.trace = []) ↔
          ¬ ((recv_decode E ueid msg len decode_status).decode_status.security_context_available
                = 1 ∧
              (recv_decode E ueid msg len decode_status).decode_status.integrity_protected_message
                = 1 ∧
              (recv_decode E ueid msg len decode_status).decode_status.mac_matched = 1))) := by
  rw [recv_integrity_guarded_eq K E ueid msg len decode_status _ hrc hty]
  have hv : integrity_check_violated (recv_decode E ueid msg len decode_status).decode_status ↔
      ¬ ((recv_decode E ueid msg len decode_status).decode_status.security_context_available
              = 1 ∧
            (recv_decode E ueid msg len decode_status).decode_status.integrity_protected_message
              = 1 ∧
            (recv_decode E ueid msg len decode_status).decode_status.mac_matched = 1) := by
    unfold integrity_check_violated
    omega
  by_cases hviol : integrity_check_violated (recv_decode E ueid msg len decode_status).decode_status
  · have hn := hv.mp hviol
    rw [if_pos hviol]
    refine ⟨_, _, rfl, ?_⟩
    simp [recv_decoded_state, St.init, St.log, St.set_emm_cause, cause_stores, handler_calls, hn]
  · have hall := not_not.mp (mt hv.mpr hviol)
    rw [if_neg hviol]
    simp only [List.mem_cons, List.mem_singleton, List.not_mem_nil, or_false] at hty
    rcases hty with hty | hty | hty | hty | hty | hty <;>
      simp only [hty, integrity_guarded_handler, call_emm_recv] <;>
      refine ⟨_, _, rfl, ?_⟩ <;>
      simp [recv_decoded_state, St.init, St.log, cause_stores, handler_calls, hall]

/-- Witness of C1: an `EMM_STATUS` message that is integrity protected with
a context available and a MAC that does not match is rejected. -/
theorem recv_integrity_required_rejected_iff_witness :
    ∃ rc s,
      _emm_as_recv sampleCodes
          (sampleEnvDecoding 0 emm_message_type.EMM_STATUS statusMacMismatch) 3 [7, 96] 2
          none (St.init (-1)) = some (rc, s) ∧
      cause_stores s.trace = [111] ∧ handler_calls s.trace = [] ∧ s.emm_cause = 111 ∧ rc = 0 := by
  obtain ⟨rc, s, h1, _, h3, h4, _⟩ :=
    recv_integrity_required_rejected_iff sampleCodes
      (sampleEnvDecoding 0 emm_message_type.EMM_STATUS statusMacMismatch) 3 [7, 96] 2 none (-1)
      (by decide) (by decide) (by decide) (by decide) (by decide)
  have h5 := h4 (Or.inr ⟨by decide, by decide⟩)
  exact ⟨rc, s, h1, h5.1, h5.2, (h3 h5).1, (h3 h5).2⟩

/-- The `DETACH_REQUEST` case of `_emm_as_recv` away from the read through
`NULL`: for a `DETACH_REQUEST` whose decoder result is not negative, the
decoder reporting a context as available only when the subscriber has one,
the call returns, and it rejects the message (the one store through
`emm_cause` is `EMM_CAUSE_PROTOCOL_ERROR`, no handler is called, the decoder
result is returned) if and only if `security_context_available` is 1, the
context's `activated` is positive and `integrity_protected_message` or
`mac_matched` is 0; the same equivalence holds for the cause found after the
call.  In every other case `emm_recv_detach_request` is the one handler call,
its result code is returned, and the cause is the one it leaves. -/
theorem recv_detach_request_rejected_iff (K : Codes) (E : Env) (ueid : Nat)
    (msg : Bytes) (len : Int) (decode_status : Option nas_message_decode_status_t)
    (emm_cause : Int)
    (hrc : 0 ≤ (recv_decode E ueid msg len decode_status).rc)
    (hty : (recv_decode E ueid msg len decode_status).nas_msg.plain.emm.header.message_type =
      emm_message_type.DETACH_REQUEST)
    (hctx : (recv_decode E ueid msg len decode_status).decode_status.security_context_available
      = 1 → lookup_security E ueid ≠ none) :
    ∃ rc s,
      _emm_as_recv K E ueid msg len decode_status (St.init emm_cause) = some (rc, s) ∧
      ((cause_stores s.trace = [K.EMM_CAUSE_PROTOCOL_ERROR] ∧ handler_calls s.trace = []) ↔
        ((recv_decode E ueid msg len decode_status).decode_status.security_context_available
            = 1 ∧
          (∃ ctx, lookup_security E ueid = some ctx ∧ 0 < ctx.activated) ∧
          ((recv_decode E ueid msg len decode_status).decode_status.integrity_protected_message
              = 0 ∨
            (recv_decode E ueid msg len decode_status).decode_status.mac_matched = 0))) ∧
      ((s.emm_cause = K.EMM_CAUSE_PROTOCOL_ERROR ∧ handler_calls s.trace = []) ↔
        ((recv_decode E ueid msg len decode_status).decode_status.security_context_available
            = 1 ∧
          (∃ ctx, lookup_security E ueid = some ctx ∧ 0 < ctx.activated) ∧
          ((recv_decode E ueid msg len decode_status).decode_status.integrity_protected_message
              = 0 ∨
            (recv_decode E ueid msg len decode_status).decode_status.mac_matched = 0))) ∧
      (cause_stores s.trace = [K.EMM_CAUSE_PROTOCOL_ERROR] ∧ handler_calls s.trace = [] →
        s.emm_cause = K.EMM_CAUSE_PROTOCOL_ERROR ∧
        rc = (recv_decode E ueid msg len decode_status).rc) ∧
      (¬ (cause_stores s.trace = [K.EMM_CAUSE_PROTOCOL_ERROR] ∧ handler_calls s.trace = []) →
        handler_calls s.trace = [(emm_recv_handler.emm_recv_detach_request, ueid)] ∧
        cause_stores s.trace = [] ∧
        rc = (E.emm_recv emm_recv_handler.emm_recv_detach_request ueid
          (recv_decode E ueid msg len decode_status).nas_msg.plain.emm emm_cause
          (recv_decode E ueid msg len decode_status).decode_status).rc ∧
        s.emm_cause = (E.emm_recv emm_recv_handler.emm_recv_detach_request ueid
          (recv_decode E ueid msg len decode_status).nas_msg.plain.emm emm_cause
          (recv_decode E ueid msg len decode_status).decode_status).emm_cause) := by
  unfold recv_decode at hrc hty hctx ⊢
  unfold _emm_as_recv
  simp only [hty, not_lt.mpr hrc, if_false]
  generalize E.nas_message_decode msg len (lookup_security E ueid)
    (decode_status.getD nas_message_decode_status_t.zero) = d at hctx ⊢
  generalize lookup_security E ueid = ctx at hctx ⊢
  unfold detach_check_violated
  by_cases hsca : 1 = d.decode_status.security_context_available
  · have hsca' : d.decode_status.security_context_available = 1 := hsca.symm
    rw [if_pos hsca]
    cases ctx with
    | none => exact absurd rfl (hctx hsca')
    | some c =>
      by_cases hcond : 0 < c.activated ∧
          (0 = d.decode_status.integrity_protected_message ∨ 0 = d.decode_status.mac_matched)
      · simp only [hcond, decide_True, and_self]
        refine ⟨_, _, rfl, ?_⟩
        have h2 : d.decode_status.integrity_protected_message = 0 ∨
            d.decode_status.mac_matched = 0 := by omega
        simp [St.init, St.log, St.set_emm_cause, cause_stores, handler_calls, hsca', hcond.1, h2]
      · simp only [hcond, decide_False, call_emm_recv]
        refine ⟨_, _, rfl, ?_⟩
        have h2 : ¬ (0 < c.activated ∧ (d.decode_status.integrity_protected_message = 0 ∨
            d.decode_status.mac_matched = 0)) := by
          intro h; exact hcond ⟨h.1, by omega⟩
        simp [St.init, St.log, cause_stores, handler_calls]
        intro _ h3
        exact ⟨fun h4 => h2 ⟨h3, Or.inl h4⟩, fun h4 => h2 ⟨h3, Or.inr h4⟩⟩
  · have hsca' : ¬ d.decode_status.security_context_available = 1 := fun h => hsca h.symm
    rw [if_neg hsca]
    simp only [call_emm_recv]
    refine ⟨_, _, rfl, ?_⟩
    simp [St.init, St.log, cause_stores, handler_calls, hsca']

/-- On a sample: a `DETACH_REQUEST` that is not integrity protected, from a
subscriber whose context is available and activated, is rejected. -/
theorem recv_detach_request_rejected_iff_witness :
    ∃ rc s,
      _emm_as_recv sampleCodes
          (sampleEnvDecoding 0 emm_message_type.DETACH_REQUEST statusUnprotected) 3 [7, 69] 2
          none (St.init (-1)) = some (rc, s) ∧
      cause_stores s.trace = [111] ∧ handler_calls s.trace = [] ∧ s.emm_cause = 111 ∧ rc = 0 := by
  obtain ⟨rc, s, h1, h2, _, h3, _⟩ :=
    recv_detach_request_rejected_iff sampleCodes
      (sampleEnvDecoding 0 emm_message_type.DETACH_REQUEST statusUnprotected) 3 [7, 69] 2 none
      (-1) (by decide) (by decide) (by decide)
  have h5 := h2.mpr ⟨by decide, ⟨sampleContext, by decide, by decide⟩, Or.inl (by decide)⟩
  exact ⟨rc, s, h1, h5.1, h5.2, (h3 h5).1, (h3 h5).2⟩

/-- C3: in `_emm_as_recv`, for a message whose decoder result is not negative
and whose type is `ATTACH_REQUEST`, `IDENTITY_RESPONSE`,
`AUTHENTICATION_RESPONSE`, `AUTHENTICATION_FAILURE` or `SECURITY_MODE_REJECT`,
whatever the decode status and the security context are: the call returns,
the matching handler is the one handler call, `_emm_as_recv` stores nothing
through `emm_cause`, and the result code and the cause are those of the
handler. -/
theorem recv_unconditional_types_forwarded (K : Codes) (E : Env) (ueid : Nat)
    (msg : Bytes) (len : Int) (decode_status : Option nas_message_decode_status_t)
    (emm_cause : Int) (h : emm_recv_handler)
    (hrc : 0 ≤ (recv_decode E ueid msg len decode_status).rc)
    (hty : ((recv_decode E ueid msg len decode_status).nas_msg.plain.emm.header.message_type, h) ∈
      [(emm_message_type.ATTACH_REQUEST, emm_recv_handler.emm_recv_attach_request),
        (emm_message_type.IDENTITY_RESPONSE, emm_recv_handler.emm_recv_identity_response),
        (emm_message_type.AUTHENTICATION_RESPONSE,
          emm_recv_handler.emm_recv_authentication_response),
        (emm_message_type.AUTHENTICATION_FAILURE,
          emm_recv_handler.emm_recv_authentication_failure),
        (emm_message_type.SECURITY_MODE_REJECT,
          emm_recv_handler.emm_recv_security_mode_reject)]) :
    ∃ rc s,
      _emm_as_recv K E ueid msg len decode_status (St.init emm_cause) = some (rc, s) ∧
      handler_calls s.trace = [(h, ueid)] ∧
      cause_stores s.trace = [] ∧
      rc = (E.emm_recv h ueid (recv_decode E ueid msg len decode_status).nas_msg.plain.emm
        emm_cause (recv_decode E ueid msg len decode_status).decode_status).rc ∧
      s.emm_cause = (E.emm_recv h ueid
        (recv_decode E ueid msg len decode_status).nas_msg.plain.emm emm_cause
        (recv_decode E ueid msg len decode_status).decode_status).emm_cause := by
  unfold recv_decode at hrc hty ⊢
  unfold _emm_as_recv
  simp only [List.mem_cons, List.mem_singleton, List.not_mem_nil, or_false, Prod.mk.injEq] at hty
  rcases hty with ⟨hty, hh⟩ | ⟨hty, hh⟩ | ⟨hty, hh⟩ | ⟨hty, hh⟩ | ⟨hty, hh⟩ <;>
    subst hh <;>
    simp only [hty, not_lt.mpr hrc, if_false, call_emm_recv] <;>
    refine ⟨_, _, rfl, ?_⟩ <;>
    simp [St.init, St.log, cause_stores, handler_calls]

/-- Witness of C3: an `ATTACH_REQUEST` that is not integrity protected goes
to `emm_recv_attach_request`, whose result 0 and cause 42 are handed back. -/
theorem recv_unconditional_types_forwarded_witness :
    ∃ rc s,
      _emm_as_recv sampleCodes
          (sampleEnvDecoding 0 emm_message_type.ATTACH_REQUEST statusUnprotected) 3 [7, 65] 2
          none (St.init (-1)) = some (rc, s) ∧
      handler_calls s.trace = [(emm_recv_handler.emm_recv_attach_request, 3)] ∧
      cause_stores s.trace = [] ∧ rc = 0 ∧ s.emm_cause = 42 :=
  recv_unconditional_types_forwarded sampleCodes
    (sampleEnvDecoding 0 emm_message_type.ATTACH_REQUEST statusUnprotected) 3 [7, 65] 2 none
    (-1) emm_recv_handler.emm_recv_attach_request (by decide) (by decide)

/-! ## Properties of the primitive dispatcher -/

/-- C4: every mandatory-security rejection is reported.  The decoder codes
`TLV_DECODE_BUFFER_TOO_SHORT`, `TLV_DECODE_PROTOCOL_NOT_SUPPORTED` and
`TLV_DECODE_WRONG_MESSAGE_TYPE` being negative and below
`TLV_DECODE_FATAL_ERROR`, and `EMM_CAUSE_PROTOCOL_ERROR` differing from
`EMM_CAUSE_SUCCESS`: for a data indication whose message reaches the switch
of `_emm_as_recv` and is rejected by a mandatory-security check there, and for
an establish request whose message is not a fatal decoding failure and is
rejected by a mandatory-security check of `_emm_as_establish_req`,
`emm_as_send` returns the result of `emm_proc_status`, which it calls exactly
once, with the `ueid` of the primitive and `EMM_CAUSE_PROTOCOL_ERROR`, and no
`emm_recv_*` handler is called. -/
theorem security_rejection_reported (K : Codes) (E : Env) (msg : emm_as_t)
    (hneg : K.TLV_DECODE_BUFFER_TOO_SHORT < 0 ∧ K.TLV_DECODE_PROTOCOL_NOT_SUPPORTED < 0 ∧
      K.TLV_DECODE_WRONG_MESSAGE_TYPE < 0)
    (hfatal : K.TLV_DECODE_BUFFER_TOO_SHORT < K.TLV_DECODE_FATAL_ERROR ∧
      K.TLV_DECODE_PROTOCOL_NOT_SUPPORTED < K.TLV_DECODE_FATAL_ERROR ∧
      K.TLV_DECODE_WRONG_MESSAGE_TYPE < K.TLV_DECODE_FATAL_ERROR)
    (hpe : K.EMM_CAUSE_PROTOCOL_ERROR ≠ K.EMM_CAUSE_SUCCESS) :
    (msg.primitive = emm_as_primitive_t._EMMAS_DATA_IND →
      data_ind_decoded K E msg.u.data →
      recv_security_check_rejects (data_ind_decode E msg.u.data)
        (lookup_security E msg.u.data.ueid) →
      ∃ t, emm_as_send K E msg =
          some (E.emm_proc_status msg.u.data.ueid K.EMM_CAUSE_PROTOCOL_ERROR, t) ∧
        status_reports t = [(msg.u.data.ueid, K.EMM_CAUSE_PROTOCOL_ERROR)] ∧
        handler_calls t = []) ∧
    (msg.primitive = emm_as_primitive_t._EMMAS_ESTABLISH_REQ →
      K.TLV_DECODE_FATAL_ERROR ≤ (establish_req_decode E msg.u.establish).rc →
      establish_req_security_check_rejects (establish_req_decode E msg.u.establish)
        (lookup_security E msg.u.establish.ueid) →
      ∃ t, emm_as_send K E msg =
          some (E.emm_proc_status msg.u.establish.ueid K.EMM_CAUSE_PROTOCOL_ERROR, t) ∧
        status_reports t = [(msg.u.establish.ueid, K.EMM_CAUSE_PROTOCOL_ERROR)] ∧
        handler_calls t = []) := by
  obtain ⟨hn1, hn2, hn3⟩ := hneg
  obtain ⟨hf1, hf2, hf3⟩ := hfatal
  constructor
  · intro hprim hdec hrej
    have hrc : 0 ≤ (data_ind_decode E msg.u.data).rc := hdec.2.2.2.2.2
    have e1 : (data_ind_decode E msg.u.data).rc ≠ K.TLV_DECODE_BUFFER_TOO_SHORT := by omega
    have e2 : (data_ind_decode E msg.u.data).rc ≠ K.TLV_DECODE_PROTOCOL_NOT_SUPPORTED := by
      omega
    have e3 : (data_ind_decode E msg.u.data).rc ≠ K.TLV_DECODE_WRONG_MESSAGE_TYPE := by omega
    unfold emm_as_send
    simp only [hprim]
    rw [data_ind_decoded_eq K E msg.u.data _ hdec]
    unfold data_ind_decode at hrc hrej e1 e2 e3
    rw [recv_rejects_eq K E _ _ _ _ _ hrc hrej]
    simp only [emm_as_send_report, St.set_emm_cause, St.log, recv_decoded_state, hpe, e1, e2, e3,
      ne_eq, not_false_eq_true, if_true, if_false]
    refine ⟨_, rfl, ?_⟩
    simp [status_reports, handler_calls]
  · intro hprim hrc hrej
    have e1 : (establish_req_decode E msg.u.establish).rc ≠ K.TLV_DECODE_BUFFER_TOO_SHORT := by
      omega
    have e2 : (establish_req_decode E msg.u.establish).rc ≠
        K.TLV_DECODE_PROTOCOL_NOT_SUPPORTED := by omega
    have e3 : (establish_req_decode E msg.u.establish).rc ≠ K.TLV_DECODE_WRONG_MESSAGE_TYPE := by
      omega
    have hnf : ¬ (establish_req_decode E msg.u.establish).rc < K.TLV_DECODE_FATAL_ERROR :=
      not_lt.mpr hrc
    unfold emm_as_send
    simp only [hprim]
    unfold establish_req_decode at hrc hrej e1 e2 e3 hnf
    unfold _emm_as_establish_req
    simp only [hnf, if_false]
    rcases hrej with ⟨hty, hviol⟩ | ⟨hty, hdet⟩
    · simp only [List.mem_cons, List.mem_singleton, List.not_mem_nil, or_false] at hty
      rcases hty with hty | hty <;>
        simp only [hty, hviol, if_true, emm_as_send_report, St.set_emm_cause, hpe, e1, e2, e3,
          ne_eq, not_false_eq_true, if_false] <;>
        refine ⟨_, rfl, ?_⟩ <;>
        split_ifs <;>
        simp [status_reports, handler_calls, St.set_emm_cause, St.log]
    · simp only [hty, hdet, emm_as_send_report, St.set_emm_cause, hpe, e1, e2, e3,
        ne_eq, not_false_eq_true, if_true, if_false]
      refine ⟨_, rfl, ?_⟩
      split_ifs <;>
        simp [status_reports, handler_calls, St.set_emm_cause, St.log]

/-- Witness of C4: a `DETACH_REQUEST` that is not integrity protected, from
a subscriber whose context is available and activated, arriving in a data
indication (subscriber 3) and in an establish request (subscriber 4, decoder
result -1): one status report with cause 111 and no handler call. -/
theorem security_rejection_reported_witness :
    (∃ t, emm_as_send sampleCodes
          (sampleEnvDecoding 0 emm_message_type.DETACH_REQUEST statusUnprotected)
          sampleDataInd = some (0, t) ∧
        status_reports t = [(3, 111)] ∧ handler_calls t = []) ∧
    (∃ t, emm_as_send sampleCodes
          (sampleEnvDecoding (-1) emm_message_type.DETACH_REQUEST statusUnprotected)
          sampleEstablishReq = some (0, t) ∧
        status_reports t = [(4, 111)] ∧ handler_calls t = []) :=
  ⟨(security_rejection_reported sampleCodes
      (sampleEnvDecoding 0 emm_message_type.DETACH_REQUEST statusUnprotected) sampleDataInd
      (by decide) (by decide) (by decide)).1 rfl
      (by unfold data_ind_decoded; decide)
      (by unfold recv_security_check_rejects; decide),
    (security_rejection_reported sampleCodes
      (sampleEnvDecoding (-1) emm_message_type.DETACH_REQUEST statusUnprotected)
      sampleEstablishReq (by decide) (by decide) (by decide)).2 rfl
      (by decide)
      (by unfold establish_req_security_check_rejects; decide)⟩

/-! ## Properties of the security header selector -/

/-- C5: `_emm_as_set_header` returns `NULL` exactly when the snapshot is
present, its `ksi` is not `EMM_AS_NO_KEY_AVAILABLE`, `is_new` is set and
`k_int` is absent; on every input its outcome (header type written and
pointer returned, or `NULL`) is the entry of the table of section 4.4 for the
four booleans of the snapshot; so `NULL` implies is-new and no integrity
key. -/
theorem set_header_matches_table (K : Codes) (msg : nas_message_t)
    (security : Option emm_as_security_data_t) :
    ((_emm_as_set_header K msg security).2 = none ↔
      ∃ s, security = some s ∧ s.ksi ≠ K.EMM_AS_NO_KEY_AVAILABLE ∧ s.is_new ≠ 0 ∧
        s.k_int = none) ∧
    (match select_spec (selector_inputs K security).1 (selector_inputs K security).2.1
        (selector_inputs K security).2.2.1 (selector_inputs K security).2.2.2 with
      | Selection.Denied => (_emm_as_set_header K msg security).2 = none
      | Selection.selected v t =>
        (_emm_as_set_header K msg security).2 = some t.ptr ∧
        (_emm_as_set_header K msg security).1.header.security_header_type =
          K.security_header_type v) ∧
    ((_emm_as_set_header K msg security).2 = none →
      (selector_inputs K security).2.1 = true ∧ (selector_inputs K security).2.2.1 = false) := by
  cases security with
  | none => simp [_emm_as_set_header, selector_inputs, select_spec, PlaintextTarget.ptr,
      Codes.security_header_type, nas_message_t.set_security_header_type]
  | some s =>
    rcases s with ⟨is_new, ksi, sqn, count, k_enc, k_int⟩
    by_cases h1 : ksi = K.EMM_AS_NO_KEY_AVAILABLE <;> by_cases h2 : is_new = 0 <;>
      cases k_int <;> cases k_enc <;>
      simp [_emm_as_set_header, selector_inputs, select_spec, PlaintextTarget.ptr,
        Codes.security_header_type, nas_message_t.set_security_header_type, h1, h2]

/-- C6: for a snapshot that is present with `ksi` different from
`EMM_AS_NO_KEY_AVAILABLE` and `k_int` present, the header type written is
`INTEGRITY_PROTECTED_CYPHERED_NEW` (is new, `k_enc`), `INTEGRITY_PROTECTED_NEW`
(is new, no `k_enc`), `INTEGRITY_PROTECTED_CYPHERED` (not new, `k_enc`) or
`INTEGRITY_PROTECTED` (not new, no `k_enc`), and in all four cases the pointer
returned is `&msg->security_protected.plain.emm`. -/
theorem set_header_with_integrity_key (K : Codes) (msg : nas_message_t)
    (s : emm_as_security_data_t) (hksi : s.ksi ≠ K.EMM_AS_NO_KEY_AVAILABLE)
    (hint : s.k_int ≠ none) :
    (_emm_as_set_header K msg (some s)).2 = some EMM_msg_ptr.security_protected_plain_emm ∧
    (s.is_new ≠ 0 → s.k_enc ≠ none →
      (_emm_as_set_header K msg (some s)).1.header.security_header_type =
        K.SECURITY_HEADER_TYPE_INTEGRITY_PROTECTED_CYPHERED_NEW) ∧
    (s.is_new ≠ 0 → s.k_enc = none →
      (_emm_as_set_header K msg (some s)).1.header.security_header_type =
        K.SECURITY_HEADER_TYPE_INTEGRITY_PROTECTED_NEW) ∧
    (s.is_new = 0 → s.k_enc ≠ none →
      (_emm_as_set_header K msg (some s)).1.header.security_header_type =
        K.SECURITY_HEADER_TYPE_INTEGRITY_PROTECTED_CYPHERED) ∧
    (s.is_new = 0 → s.k_enc = none →
      (_emm_as_set_header K msg (some s)).1.header.security_header_type =
        K.SECURITY_HEADER_TYPE_INTEGRITY_PROTECTED) := by
  rcases s with ⟨is_new, ksi, sqn, count, k_enc, k_int⟩
  simp only at hksi hint
  by_cases h2 : is_new = 0 <;> cases k_int <;> cases k_enc <;>
    simp_all [_emm_as_set_header, nas_message_t.set_security_header_type]

/-- Witness of C6: a new context with both keys. -/
theorem set_header_with_integrity_key_witness :
    (sampleSecurityNew).ksi ≠ sampleCodes.EMM_AS_NO_KEY_AVAILABLE ∧
    (sampleSecurityNew).k_int ≠ none ∧
    (_emm_as_set_header sampleCodes nas_message_t.zero
      (some sampleSecurityNew)).2 =
      some EMM_msg_ptr.security_protected_plain_emm ∧
    (_emm_as_set_header sampleCodes nas_message_t.zero
      (some sampleSecurityNew)).1.header.security_header_type = 4 :=
  ⟨by decide, by decide,
    (set_header_with_integrity_key sampleCodes nas_message_t.zero
      sampleSecurityNew
      (by decide) (by decide)).1,
    (set_header_with_integrity_key sampleCodes nas_message_t.zero
      sampleSecurityNew
      (by decide) (by decide)).2.1 (by decide) (by decide)⟩

/-- C7: when the snapshot pointer is `NULL` or its `ksi` equals
`EMM_AS_NO_KEY_AVAILABLE`, whatever `is_new`, `k_int` and `k_enc` are, the
header type written is `SECURITY_HEADER_TYPE_NOT_PROTECTED` and the pointer
returned is `&msg->plain.emm`. -/
theorem set_header_without_key_set (K : Codes) (msg : nas_message_t)
    (security : Option emm_as_security_data_t)
    (h : security = none ∨ ∃ s, security = some s ∧ s.ksi = K.EMM_AS_NO_KEY_AVAILABLE) :
    (_emm_as_set_header K msg security).1.header.security_header_type =
      K.SECURITY_HEADER_TYPE_NOT_PROTECTED ∧
    (_emm_as_set_header K msg security).2 = some EMM_msg_ptr.plain_emm := by
  rcases h with h | ⟨s, h, hk⟩
  · subst h
    simp [_emm_as_set_header, nas_message_t.set_security_header_type]
  · subst h
    simp [_emm_as_set_header, nas_message_t.set_security_header_type, hk]

/-- Witness of C7: a snapshot marked new, with both keys, whose `ksi` is "no
key available". -/
theorem set_header_without_key_set_witness :
    (_emm_as_set_header sampleCodes nas_message_t.zero
      (some sampleSecurityNoKeySet)).1.header.security_header_type = 0 ∧
    (_emm_as_set_header sampleCodes nas_message_t.zero
      (some sampleSecurityNoKeySet)).2 = some EMM_msg_ptr.plain_emm :=
  set_header_without_key_set sampleCodes nas_message_t.zero
    (some sampleSecurityNoKeySet)
    (Or.inr ⟨_, rfl, by decide⟩)

/-- C8: a snapshot with a valid `ksi`, `is_new` false and no `k_int` (any
`k_enc`) is not denied: the header type written is
`SECURITY_HEADER_TYPE_NOT_PROTECTED` and the pointer returned is
`&msg->plain.emm`; the same snapshot with `is_new` set to any non-zero value
makes the function return `NULL`. -/
theorem set_header_deny_degrade_asymmetry (K : Codes) (msg : nas_message_t)
    (s : emm_as_security_data_t) (hksi : s.ksi ≠ K.EMM_AS_NO_KEY_AVAILABLE)
    (hnew : s.is_new = 0) (hint : s.k_int = none) :
    (_emm_as_set_header K msg (some s)).1.header.security_header_type =
      K.SECURITY_HEADER_TYPE_NOT_PROTECTED ∧
    (_emm_as_set_header K msg (some s)).2 = some EMM_msg_ptr.plain_emm ∧
    ∀ n : Nat, n ≠ 0 → (_emm_as_set_header K msg (some { s with is_new := n })).2 = none := by
  rcases s with ⟨is_new, ksi, sqn, count, k_enc, k_int⟩
  simp only at hksi hnew hint
  subst hnew hint
  refine ⟨?_, ?_, ?_⟩
  · simp [_emm_as_set_header, nas_message_t.set_security_header_type, hksi]
  · simp [_emm_as_set_header, nas_message_t.set_security_header_type, hksi]
  · intro n hn
    simp [_emm_as_set_header, hksi, hn]

/-- Witness of C8: the sample snapshot (valid key set, not new, no keys,
starting from a message whose header type is 9). -/
theorem set_header_deny_degrade_asymmetry_witness :
    sampleSecurity.ksi ≠ sampleCodes.EMM_AS_NO_KEY_AVAILABLE ∧ sampleSecurity.is_new = 0 ∧
    sampleSecurity.k_int = none ∧
    (_emm_as_set_header sampleCodes
      (nas_message_t.zero.set_security_header_type 9)
      (some sampleSecurity)).1.header.security_header_type = 0 ∧
    (_emm_as_set_header sampleCodes (nas_message_t.zero.set_security_header_type 9)
      (some sampleSecurity)).2 = some EMM_msg_ptr.plain_emm ∧
    (_emm_as_set_header sampleCodes (nas_message_t.zero.set_security_header_type 9)
      (some { sampleSecurity with is_new := 1 })).2 = none :=
  ⟨by decide, by decide, by decide,
    (set_header_deny_degrade_asymmetry sampleCodes
      (nas_message_t.zero.set_security_header_type 9) sampleSecurity
      (by decide) rfl rfl).1,
    (set_header_deny_degrade_asymmetry sampleCodes
      (nas_message_t.zero.set_security_header_type 9) sampleSecurity
      (by decide) rfl rfl).2.1,
    (set_header_deny_degrade_asymmetry sampleCodes
      (nas_message_t.zero.set_security_header_type 9) sampleSecurity
      (by decide) rfl rfl).2.2 1 (by decide)⟩

/-- C9, as stated, fails: the sample snapshot has a valid `ksi` and no
integrity key, yet the selector does not return `NULL`; it writes
`SECURITY_HEADER_TYPE_NOT_PROTECTED` and returns `&msg->plain.emm`. -/
theorem set_header_fails_closed_counterexample :
    sampleSecurity.ksi ≠ sampleCodes.EMM_AS_NO_KEY_AVAILABLE ∧
    sampleSecurity.k_int = none ∧
    (_emm_as_set_header sampleCodes nas_message_t.zero (some sampleSecurity)).2 ≠ none ∧
    (_emm_as_set_header sampleCodes nas_message_t.zero
      (some sampleSecurity)).1.header.security_header_type =
      sampleCodes.SECURITY_HEADER_TYPE_NOT_PROTECTED := by
  decide

/-- C9, amended: the selector fails closed for a new context only.  For every
snapshot with a valid `ksi` and no integrity key: if `is_new` is set the
function returns `NULL` and writes no header type (the header type of the
message is the one it had on entry); if `is_new` is not set the message is
downgraded to `SECURITY_HEADER_TYPE_NOT_PROTECTED`, which is the only case in
which a snapshot with a valid `ksi` yields `NOT_PROTECTED`'s target
`&msg->plain.emm`. -/
theorem set_header_fails_closed_when_new (K : Codes) (msg : nas_message_t)
    (s : emm_as_security_data_t) (hksi : s.ksi ≠ K.EMM_AS_NO_KEY_AVAILABLE)
    (hint : s.k_int = none) :
    (s.is_new ≠ 0 →
      (_emm_as_set_header K msg (some s)).2 = none ∧
      (_emm_as_set_header K msg (some s)).1.header.security_header_type =
        msg.header.security_header_type) ∧
    (s.is_new = 0 →
      (_emm_as_set_header K msg (some s)).2 = some EMM_msg_ptr.plain_emm ∧
      (_emm_as_set_header K msg (some s)).1.header.security_header_type =
        K.SECURITY_HEADER_TYPE_NOT_PROTECTED) ∧
    ((_emm_as_set_header K msg (some s)).2 = some EMM_msg_ptr.plain_emm → s.is_new = 0) := by
  rcases s with ⟨is_new, ksi, sqn, count, k_enc, k_int⟩
  simp only at hksi hint
  subst hint
  by_cases h2 : is_new = 0 <;>
    simp [_emm_as_set_header, nas_message_t.set_security_header_type, hksi, h2]

/-- Witness of the amended C9: a new context without keys, starting from a
message whose header type is 9. -/
theorem set_header_fails_closed_when_new_witness :
    ({ sampleSecurity with is_new := 1 }).ksi ≠ sampleCodes.EMM_AS_NO_KEY_AVAILABLE ∧
    ({ sampleSecurity with is_new := 1 }).k_int = none ∧
    (_emm_as_set_header sampleCodes (nas_message_t.zero.set_security_header_type 9)
      (some { sampleSecurity with is_new := 1 })).2 = none ∧
    (_emm_as_set_header sampleCodes (nas_message_t.zero.set_security_header_type 9)
      (some { sampleSecurity with is_new := 1 })).1.header.security_header_type = 9 :=
  ⟨by decide, by decide,
    ((set_header_fails_closed_when_new sampleCodes
      (nas_message_t.zero.set_security_header_type 9) { sampleSecurity with is_new := 1 }
      (by decide) rfl).1 (by decide)).1,
    ((set_header_fails_closed_when_new sampleCodes
      (nas_message_t.zero.set_security_header_type 9) { sampleSecurity with is_new := 1 }
      (by decide) rfl).1 (by decide)).2⟩

/-- C10: the selector is a function of the four booleans.  Two snapshot
pointers (present or absent) that agree on (key set valid, is new, integrity
key present, cipher key present), or that both have no valid key set, give,
from the zero-initialised message, the same message and the same returned
pointer, whatever their other fields; and the outcome is `NULL` or one of the
five header types. -/
theorem set_header_depends_on_four_booleans (K : Codes)
    (a b : Option emm_as_security_data_t)
    (h : selector_inputs K a = selector_inputs K b ∨
      ((selector_inputs K a).1 = false ∧ (selector_inputs K b).1 = false)) :
    _emm_as_set_header K nas_message_t.zero a = _emm_as_set_header K nas_message_t.zero b ∧
    ((_emm_as_set_header K nas_message_t.zero a).2 = none ∨
      (_emm_as_set_header K nas_message_t.zero a).1.header.security_header_type ∈
        [K.SECURITY_HEADER_TYPE_NOT_PROTECTED, K.SECURITY_HEADER_TYPE_INTEGRITY_PROTECTED,
          K.SECURITY_HEADER_TYPE_INTEGRITY_PROTECTED_CYPHERED,
          K.SECURITY_HEADER_TYPE_INTEGRITY_PROTECTED_NEW,
          K.SECURITY_HEADER_TYPE_INTEGRITY_PROTECTED_CYPHERED_NEW]) := by
  have key : ∀ x : Option emm_as_security_data_t,
      _emm_as_set_header K nas_message_t.zero x =
        (match select_spec (selector_inputs K x).1 (selector_inputs K x).2.1
            (selector_inputs K x).2.2.1 (selector_inputs K x).2.2.2 with
          | Selection.Denied =>
            ({ nas_message_t.zero with header :=
                { nas_message_t.zero.header with
                    protocol_discriminator := K.EPS_MOBILITY_MANAGEMENT_MESSAGE } }, none)
          | Selection.selected v t =>
            ({ nas_message_t.zero with header :=
                { nas_message_t.zero.header with
                    protocol_discriminator := K.EPS_MOBILITY_MANAGEMENT_MESSAGE,
                    security_header_type := K.security_header_type v } }, some t.ptr)) := by
    intro x
    cases x with
    | none => simp [_emm_as_set_header, selector_inputs, select_spec, PlaintextTarget.ptr,
        Codes.security_header_type, nas_message_t.set_security_header_type]
    | some s =>
      rcases s with ⟨is_new, ksi, sqn, count, k_enc, k_int⟩
      by_cases h1 : ksi = K.EMM_AS_NO_KEY_AVAILABLE <;> by_cases h2 : is_new = 0 <;>
        cases k_int <;> cases k_enc <;>
        simp [_emm_as_set_header, selector_inputs, select_spec, PlaintextTarget.ptr,
          Codes.security_header_type, nas_message_t.set_security_header_type, h1, h2]
  refine ⟨?_, ?_⟩
  · rw [key a, key b]
    rcases h with h | ⟨ha, hb⟩
    · rw [h]
    · rw [ha, hb]
      simp [select_spec]
  · rw [key a]
    cases hs : select_spec (selector_inputs K a).1 (selector_inputs K a).2.1
        (selector_inputs K a).2.2.1 (selector_inputs K a).2.2.2 with
    | Denied => simp
    | selected v t => cases v <;> simp [Codes.security_header_type]

/-- Witness of C10: two snapshots with different `ksi`, counters and key
bytes that agree on the four booleans (valid, not new, both keys). -/
theorem set_header_depends_on_four_booleans_witness :
    selector_inputs sampleCodes
      (some { is_new := 0, ksi := 1, sqn := 3, count := 7, k_enc := some sampleKey,
              k_int := some sampleKey }) =
    selector_inputs sampleCodes
      (some { is_new := 0, ksi := 5, sqn := 0, count := 900,
              k_enc := some { length := 1, value := [9] },
              k_int := some { length := 3, value := [1, 2, 3] } }) ∧
    _emm_as_set_header sampleCodes nas_message_t.zero
      (some { is_new := 0, ksi := 1, sqn := 3, count := 7, k_enc := some sampleKey,
              k_int := some sampleKey }) =
    _emm_as_set_header sampleCodes nas_message_t.zero
      (some { is_new := 0, ksi := 5, sqn := 0, count := 900,
              k_enc := some { length := 1, value := [9] },
              k_int := some { length := 3, value := [1, 2, 3] } }) :=
  ⟨by decide,
    (set_header_depends_on_four_booleans sampleCodes
      (some { is_new := 0, ksi := 1, sqn := 3, count := 7, k_enc := some sampleKey,
              k_int := some sampleKey })
      (some { is_new := 0, ksi := 5, sqn := 0, count := 900,
              k_enc := some { length := 1, value := [9] },
              k_int := some { length := 3, value := [1, 2, 3] } })
      (Or.inl (by decide))).1⟩

/-! ## Frame lemmas: what the pipelines add to a trace -/

/-- Status reports of a trace extended by events. -/
theorem status_reports_append (t l : List Event) :
    status_reports (t ++ l) = status_reports t ++ status_reports l := by
  simp [status_reports, List.filterMap_append]

/-- Events of a kind in a trace extended by events. -/
theorem events_of_kind_append (k : EventKind) (t l : List Event) :
    events_of_kind k (t ++ l) = events_of_kind k t ++ events_of_kind k l := by
  simp [events_of_kind, List.filter_append]

/-- The function `_emm_as_recv` reports no status and adds no send event. -/
theorem recv_frame (K : Codes) (E : Env) (ueid : Nat) (msg : Bytes) (len : Int)
    (decode_status : Option nas_message_decode_status_t) (s s' : St) (rc : Int)
    (h : _emm_as_recv K E ueid msg len decode_status s = some (rc, s')) :
    status_reports s'.trace = status_reports s.trace ∧
    events_of_kind EventKind.send s'.trace = events_of_kind EventKind.send s.trace := by
  unfold _emm_as_recv at h
  simp only [] at h
  split at h
  · cases h
    simp [St.log, St.set_emm_cause, status_reports_append, events_of_kind_append,
      status_reports, events_of_kind, Event.kind]
  · split at h <;> (try split at h) <;> (try cases h) <;>
      simp [St.log, St.set_emm_cause, call_emm_recv, status_reports_append,
        events_of_kind_append, status_reports, events_of_kind, Event.kind]

/-- The function `_emm_as_data_ind` reports no status and adds no send event. -/
theorem data_ind_frame (K : Codes) (E : Env) (msg : emm_as_data_t) (s s' : St) (rc : Int)
    (h : _emm_as_data_ind K E msg s = some (rc, s')) :
    status_reports s'.trace = status_reports s.trace ∧
    events_of_kind EventKind.send s'.trace = events_of_kind EventKind.send s.trace := by
  unfold _emm_as_data_ind at h
  simp only [] at h
  split_ifs at h
  all_goals first
    | (cases h
       simp [St.log, St.set_emm_cause, status_reports_append, events_of_kind_append,
         status_reports, events_of_kind, Event.kind])
    | (split at h
       · cases h
       · rename_i rc1 s1 hrecv
         cases h
         have hf := recv_frame K E _ _ _ _ _ _ _ hrecv
         simp only [St.log, status_reports_append, events_of_kind_append] at hf ⊢
         rw [hf.1, hf.2]
         simp [status_reports, events_of_kind, Event.kind])

/-- The function `_emm_as_establish_req` reports no status and adds no send event. -/
theorem establish_req_frame (K : Codes) (E : Env) (msg : emm_as_establish_t) (s s' : St)
    (rc : Int) (h : _emm_as_establish_req K E msg s = some (rc, s')) :
    status_reports s'.trace = status_reports s.trace ∧
    events_of_kind EventKind.send s'.trace = events_of_kind EventKind.send s.trace := by
  unfold _emm_as_establish_req at h
  simp only [] at h
  split at h
  · cases h
    simp [St.log, St.set_emm_cause, status_reports_append, events_of_kind_append,
      status_reports, events_of_kind, Event.kind]
  · split at h <;> (try split at h) <;> (try cases h) <;> (try split_ifs) <;>
      simp [St.log, St.set_emm_cause, call_emm_recv, status_reports_append,
        events_of_kind_append, status_reports, events_of_kind, Event.kind]

/-- The function `_emm_as_encode` reports no status. -/
theorem encode_status_reports (K : Codes) (E : Env) (info : as_nas_info_t)
    (msg : nas_message_t) (length : Int) (ctx : Option emm_security_context_t)
    (t : List Event) :
    status_reports (_emm_as_encode K E info msg length ctx t).2.2.2 = status_reports t := by
  unfold _emm_as_encode
  simp only []
  split_ifs <;> simp [status_reports_append, status_reports]

/-- The function `_emm_as_encode` adds no receive event. -/
theorem encode_receive_events (K : Codes) (E : Env) (info : as_nas_info_t)
    (msg : nas_message_t) (length : Int) (ctx : Option emm_security_context_t)
    (t : List Event) :
    events_of_kind EventKind.receive (_emm_as_encode K E info msg length ctx t).2.2.2 =
      events_of_kind EventKind.receive t := by
  unfold _emm_as_encode
  simp only []
  split_ifs <;> simp [events_of_kind_append, events_of_kind, Event.kind]

/-- The function `_emm_as_encrypt` reports no status. -/
theorem encrypt_status_reports (K : Codes) (E : Env) (info : as_nas_info_t)
    (header : nas_message_security_header_t) (msg : Bytes)
    (length : Int) (ctx : Option emm_security_context_t) (t : List Event) :
    status_reports (_emm_as_encrypt K E info header msg length ctx t).2.2 =
      status_reports t := by
  unfold _emm_as_encrypt
  simp only []
  split_ifs <;> simp [status_reports_append, status_reports]

/-- The function `_emm_as_encrypt` adds no receive event. -/
theorem encrypt_receive_events (K : Codes) (E : Env) (info : as_nas_info_t)
    (header : nas_message_security_header_t) (msg : Bytes)
    (length : Int) (ctx : Option emm_security_context_t) (t : List Event) :
    events_of_kind EventKind.receive (_emm_as_encrypt K E info header msg length ctx t).2.2 =
      events_of_kind EventKind.receive t := by
  unfold _emm_as_encrypt
  simp only []
  split_ifs <;> simp [events_of_kind_append, events_of_kind, Event.kind]

/-- The function `_emm_as_data_req` reports no status and adds no receive event. -/
theorem data_req_frame (K : Codes) (E : Env) (msg : emm_as_data_t)
    (as_msg : info_transfer_req_t) (t : List Event) :
    status_reports (_emm_as_data_req K E msg as_msg t).2.2 = status_reports t ∧
    events_of_kind EventKind.receive (_emm_as_data_req K E msg as_msg t).2.2 =
      events_of_kind EventKind.receive t := by
  unfold _emm_as_data_req
  simp only []
  repeat' split
  all_goals
    simp only [encode_status_reports, encode_receive_events, encrypt_status_reports,
      encrypt_receive_events, call_emm_send, status_reports_append, events_of_kind_append]
  all_goals simp [status_reports, events_of_kind, Event.kind]

/-- The common encoding tail reports no status. -/
theorem encode_info_transfer_status_reports (K : Codes) (E : Env) (ueid : Nat) (size : Int)
    (nas_msg : nas_message_t) (as_msg : info_transfer_req_t) (t : List Event) :
    status_reports (encode_info_transfer K E ueid size nas_msg as_msg t).2.2 =
      status_reports t := by
  unfold encode_info_transfer
  simp only []
  repeat' split
  all_goals simp only [encode_status_reports]

/-- The common encoding tail adds no receive event. -/
theorem encode_info_transfer_receive_events (K : Codes) (E : Env) (ueid : Nat) (size : Int)
    (nas_msg : nas_message_t) (as_msg : info_transfer_req_t) (t : List Event) :
    events_of_kind EventKind.receive (encode_info_transfer K E ueid size nas_msg as_msg t).2.2 =
      events_of_kind EventKind.receive t := by
  unfold encode_info_transfer
  simp only []
  repeat' split
  all_goals simp only [encode_receive_events]

/-- The function `_emm_as_status_ind` reports no status and adds no receive event. -/
theorem status_ind_frame (K : Codes) (E : Env) (msg : emm_as_status_t)
    (as_msg : info_transfer_req_t) (t : List Event) :
    status_reports (_emm_as_status_ind K E msg as_msg t).2.2 = status_reports t ∧
    events_of_kind EventKind.receive (_emm_as_status_ind K E msg as_msg t).2.2 =
      events_of_kind EventKind.receive t := by
  unfold _emm_as_status_ind
  simp only [encode_info_transfer_status_reports, encode_info_transfer_receive_events]
  repeat' split
  all_goals simp only [call_emm_send, status_reports_append, events_of_kind_append]
  all_goals simp [status_reports, events_of_kind, Event.kind]

/-- The function `_emm_as_security_req` reports no status and adds no receive event. -/
theorem security_req_frame (K : Codes) (E : Env) (msg : emm_as_security_t)
    (as_msg : info_transfer_req_t) (t : List Event) :
    status_reports (_emm_as_security_req K E msg as_msg t).2.2 = status_reports t ∧
    events_of_kind EventKind.receive (_emm_as_security_req K E msg as_msg t).2.2 =
      events_of_kind EventKind.receive t := by
  unfold _emm_as_security_req
  simp only [encode_info_transfer_status_reports, encode_info_transfer_receive_events]
  repeat' split
  all_goals simp only [call_emm_send, status_reports_append, events_of_kind_append]
  all_goals simp [status_reports, events_of_kind, Event.kind]

/-- The function `_emm_as_security_rej` reports no status and adds no receive event. -/
theorem security_rej_frame (K : Codes) (E : Env) (msg : emm_as_security_t)
    (as_msg : info_transfer_req_t) (t : List Event) :
    status_reports (_emm_as_security_rej K E msg as_msg t).2.2 = status_reports t ∧
    events_of_kind EventKind.receive (_emm_as_security_rej K E msg as_msg t).2.2 =
      events_of_kind EventKind.receive t := by
  unfold _emm_as_security_rej
  simp only [encode_info_transfer_status_reports, encode_info_transfer_receive_events]
  repeat' split
  all_goals simp only [call_emm_send, status_reports_append, events_of_kind_append]
  all_goals simp [status_reports, events_of_kind, Event.kind]

/-- The function `_emm_as_establish_rej` reports no status and adds no receive event. -/
theorem establish_rej_frame (K : Codes) (E : Env) (msg : emm_as_establish_t)
    (as_msg : nas_establish_rsp_t) (t : List Event) :
    status_reports (_emm_as_establish_rej K E msg as_msg t).2.2 = status_reports t ∧
    events_of_kind EventKind.receive (_emm_as_establish_rej K E msg as_msg t).2.2 =
      events_of_kind EventKind.receive t := by
  unfold _emm_as_establish_rej
  simp only []
  repeat' split
  all_goals
    simp only [encode_status_reports, encode_receive_events, call_emm_send,
      status_reports_append, events_of_kind_append]
  all_goals simp [status_reports, events_of_kind, Event.kind]

/-- The function `_emm_as_establish_cnf` reports no status and adds no receive event. -/
theorem establish_cnf_frame (K : Codes) (E : Env) (msg : emm_as_establish_t)
    (as_msg : nas_establish_rsp_t) (t : List Event) (r : Int × nas_establish_rsp_t × List Event)
    (h : _emm_as_establish_cnf K E msg as_msg t = some r) :
    status_reports r.2.2 = status_reports t ∧
    events_of_kind EventKind.receive r.2.2 = events_of_kind EventKind.receive t := by
  unfold _emm_as_establish_cnf at h
  simp only [] at h
  repeat' split at h
  all_goals cases h
  all_goals
    simp only [encode_status_reports, encode_receive_events, call_emm_send,
      status_reports_append, events_of_kind_append]
  all_goals simp [status_reports, events_of_kind, Event.kind]

/-- The hand-over to the transport at the end of `_emm_as_send` reports no
status and adds no receive event. -/
theorem send_transport_frame (K : Codes) (msgID : Int) (errCode : Nat)
    (e1 e2 e3 : Event) (t t' : List Event) (rc : Int)
    (h : (if msgID > 0 then
        if msgID = K.AS_DL_INFO_TRANSFER_REQ then
          some (K.RETURNok, t ++ [e1])
        else if msgID = K.AS_NAS_ESTABLISH_RSP ∨ msgID = K.AS_NAS_ESTABLISH_CNF then
          if errCode ≠ K.AS_SUCCESS then
            some (K.RETURNok, t ++ [e2])
          else
            some (K.RETURNok, t ++ [e3])
        else
          some (K.RETURNerror, t)
      else
        some (K.RETURNerror, t)) = some (rc, t'))
    (he1 : e1.kind = EventKind.send) (he2 : e2.kind = EventKind.send)
    (he3 : e3.kind = EventKind.send) :
    status_reports t' = status_reports t ∧
    events_of_kind EventKind.receive t' = events_of_kind EventKind.receive t := by
  have hs : ∀ e : Event, e.kind = EventKind.send →
      status_reports [e] = [] ∧ events_of_kind EventKind.receive [e] = [] := by
    intro e he
    cases e <;> simp [Event.kind] at he <;> simp [status_reports, events_of_kind, Event.kind]
  split_ifs at h <;> cases h <;>
    simp [status_reports_append, events_of_kind_append, hs e1 he1, hs e2 he2, hs e3 he3]

/-- The function `_emm_as_send` reports no status and adds no receive event. -/
theorem send_frame (K : Codes) (E : Env) (msg : emm_as_t) (t t' : List Event) (rc : Int)
    (h : _emm_as_send K E msg t = some (rc, t')) :
    status_reports t' = status_reports t ∧
    events_of_kind EventKind.receive t' = events_of_kind EventKind.receive t := by
  unfold _emm_as_send at h
  simp only [] at h
  cases hp : msg.primitive <;> simp only [hp] at h
  case _EMMAS_DATA_REQ =>
    have h1 := send_transport_frame K _ _ _ _ _ _ _ _ h rfl rfl rfl
    have h2 := data_req_frame K E msg.u.data as_message_t.zero.info_transfer_req t
    exact ⟨h1.1.trans h2.1, h1.2.trans h2.2⟩
  case _EMMAS_STATUS_IND =>
    have h1 := send_transport_frame K _ _ _ _ _ _ _ _ h rfl rfl rfl
    have h2 := status_ind_frame K E msg.u.status as_message_t.zero.info_transfer_req t
    exact ⟨h1.1.trans h2.1, h1.2.trans h2.2⟩
  case _EMMAS_SECURITY_REQ =>
    have h1 := send_transport_frame K _ _ _ _ _ _ _ _ h rfl rfl rfl
    have h2 := security_req_frame K E msg.u.security as_message_t.zero.info_transfer_req t
    exact ⟨h1.1.trans h2.1, h1.2.trans h2.2⟩
  case _EMMAS_SECURITY_REJ =>
    have h1 := send_transport_frame K _ _ _ _ _ _ _ _ h rfl rfl rfl
    have h2 := security_rej_frame K E msg.u.security as_message_t.zero.info_transfer_req t
    exact ⟨h1.1.trans h2.1, h1.2.trans h2.2⟩
  case _EMMAS_ESTABLISH_REJ =>
    have h1 := send_transport_frame K _ _ _ _ _ _ _ _ h rfl rfl rfl
    have h2 := establish_rej_frame K E msg.u.establish as_message_t.zero.nas_establish_rsp t
    exact ⟨h1.1.trans h2.1, h1.2.trans h2.2⟩
  case _EMMAS_ESTABLISH_CNF =>
    cases hc : _emm_as_establish_cnf K E msg.u.establish
        as_message_t.zero.nas_establish_rsp t with
    | none => simp only [hc] at h; cases h
    | some r =>
      simp only [hc] at h
      have h1 := send_transport_frame K _ _ _ _ _ _ _ _ h rfl rfl rfl
      have h2 := establish_cnf_frame K E _ _ _ _ hc
      exact ⟨h1.1.trans h2.1, h1.2.trans h2.2⟩
  all_goals exact send_transport_frame K _ _ _ _ _ _ _ _ h rfl rfl rfl

/-- Decoder calls of a trace extended by events. -/
theorem decode_calls_append (t l : List Event) :
    decode_calls (t ++ l) = decode_calls t ++ decode_calls l := by
  simp [decode_calls, List.filterMap_append]

/-- Calls of `lowerlayer_data_ind` of a trace extended by events. -/
theorem lowerlayer_data_ind_calls_append (t l : List Event) :
    lowerlayer_data_ind_calls (t ++ l) =
      lowerlayer_data_ind_calls t ++ lowerlayer_data_ind_calls l := by
  simp [lowerlayer_data_ind_calls, List.filterMap_append]

/-- A call of `_emm_as_recv` that returns has called `nas_message_decode`
exactly once, on its buffer and length, and has not called
`lowerlayer_data_ind`. -/
theorem recv_decode_calls (K : Codes) (E : Env) (ueid : Nat) (msg : Bytes) (len : Int)
    (decode_status : Option nas_message_decode_status_t) (s s' : St) (rc : Int)
    (h : _emm_as_recv K E ueid msg len decode_status s = some (rc, s')) :
    decode_calls s'.trace = decode_calls s.trace ++ [(msg, len)] ∧
    lowerlayer_data_ind_calls s'.trace = lowerlayer_data_ind_calls s.trace := by
  unfold _emm_as_recv at h
  simp only [] at h
  split at h
  · cases h
    simp [St.log, St.set_emm_cause, decode_calls_append, lowerlayer_data_ind_calls_append,
      decode_calls, lowerlayer_data_ind_calls]
  · split at h <;> (try split at h) <;> (try cases h) <;>
      simp [St.log, St.set_emm_cause, call_emm_recv, decode_calls_append,
        lowerlayer_data_ind_calls_append, decode_calls, lowerlayer_data_ind_calls]

/-! ## Shape of `_emm_as_data_ind` after decryption -/

/-- Shape of `_emm_as_data_ind` once the message has been decrypted. -/
theorem data_ind_decrypts_eq (K : Codes) (E : Env) (msg : emm_as_data_t) (s : St)
    (h : data_ind_decrypts E msg) :
    _emm_as_data_ind K E msg s =
      if data_ind_hard_failure K E msg then
        some ((data_ind_decrypt E msg).bytes,
          (data_ind_decrypted_state E msg s).set_emm_cause K.EMM_CAUSE_PROTOCOL_ERROR)
      else if (data_ind_decrypt E msg).header.protocol_discriminator =
          K.EPS_MOBILITY_MANAGEMENT_MESSAGE then
        Option.map (fun p => (p.1, p.2.log Event.free))
          (_emm_as_recv K E msg.ueid (data_ind_decrypt E msg).plain_msg
            (data_ind_decrypt E msg).bytes (some (data_ind_decrypt E msg).decode_status)
            (data_ind_decrypted_state E msg s))
      else if (data_ind_decrypt E msg).header.protocol_discriminator =
          K.EPS_SESSION_MANAGEMENT_MESSAGE then
        some (E.lowerlayer_data_ind msg.ueid (data_ind_esm_data E msg),
          ((data_ind_decrypted_state E msg s).log
            (Event.lowerlayer_data_ind msg.ueid (data_ind_esm_data E msg))).log Event.free)
      else
        some (K.RETURNerror, (data_ind_decrypted_state E msg s).log Event.free) := by
  obtain ⟨h1, h2, h3⟩ := h
  unfold _emm_as_data_ind data_ind_hard_failure data_ind_decrypted_state data_ind_esm_data
    data_ind_decrypt data_ind_security
  simp only [h1, h2, h3, ne_eq, not_false_eq_true, if_true]
  split_ifs <;> first
    | rfl
    | (cases _emm_as_recv K E msg.ueid _ _ _ _ <;> rfl)

/-! ## Properties of the data transfer indication path -/

/-- C15: in `_emm_as_data_ind`, when `nas_message_decrypt` (called for a
delivered, non-empty message whose cleartext buffer was allocated) returns a
negative byte count other than `TLV_DECODE_MAC_MISMATCH`: the function
returns that byte count, the cause is `EMM_CAUSE_PROTOCOL_ERROR` (its only
store), and the trace holds no call of `nas_message_decode` (the first action
of `_emm_as_recv`), of `lowerlayer_data_ind` or of a handler. -/
theorem data_ind_hard_decrypt_failure (K : Codes) (E : Env) (msg : emm_as_data_t)
    (emm_cause : Int) (hd : data_ind_decrypts E msg)
    (hneg : (data_ind_decrypt E msg).bytes < 0)
    (hne : (data_ind_decrypt E msg).bytes ≠ K.TLV_DECODE_MAC_MISMATCH) :
    ∃ s, _emm_as_data_ind K E msg (St.init emm_cause) =
        some ((data_ind_decrypt E msg).bytes, s) ∧
      s.emm_cause = K.EMM_CAUSE_PROTOCOL_ERROR ∧
      cause_stores s.trace = [K.EMM_CAUSE_PROTOCOL_ERROR] ∧
      decode_calls s.trace = [] ∧
      lowerlayer_data_ind_calls s.trace = [] ∧
      handler_calls s.trace = [] := by
  have hf : data_ind_hard_failure K E msg := ⟨hneg, hne⟩
  rw [data_ind_decrypts_eq K E msg _ hd, if_pos hf]
  refine ⟨_, rfl, ?_⟩
  simp [data_ind_decrypted_state, St.init, St.log, St.set_emm_cause, cause_stores,
    decode_calls, lowerlayer_data_ind_calls, handler_calls]

/-- Witness of C15: decryption fails with -13, which is not the MAC mismatch
code -14 of `sampleCodes`. -/
theorem data_ind_hard_decrypt_failure_witness :
    ∃ s, _emm_as_data_ind sampleCodes (sampleEnvDecrypting (-13) 7) sampleData
        (St.init (-1)) = some (-13, s) ∧
      s.emm_cause = 111 ∧ cause_stores s.trace = [111] ∧ decode_calls s.trace = [] ∧
      lowerlayer_data_ind_calls s.trace = [] ∧ handler_calls s.trace = [] :=
  data_ind_hard_decrypt_failure sampleCodes (sampleEnvDecrypting (-13) 7) sampleData (-1)
    (by unfold data_ind_decrypts; decide) (by decide) (by decide)

/-- C16, evaluated: with the MAC mismatch code -14 of `sampleCodes`, a data
indication for subscriber 3 whose decryption returns that code with the EMM
protocol discriminator sets no cause and goes on to `_emm_as_recv`, which
decodes the cleartext `[7, 69]`; but the length handed to `nas_message_decode`
is -14, the code itself, not the byte count of the cleartext. -/
theorem data_ind_mac_mismatch_length :
    (data_ind_decrypt sampleEnvMacMismatch sampleData).bytes =
      sampleCodes.TLV_DECODE_MAC_MISMATCH ∧
    _emm_as_data_ind sampleCodes sampleEnvMacMismatch sampleData (St.init (-1)) =
      some (0, { emm_cause := -1,
                 trace := [Event.malloc 2, Event.nas_message_decrypt [7, 69] 2 none,
                   Event.nas_message_decode [7, 69] (-14) none,
                   Event.emm_recv emm_recv_handler.emm_recv_identity_response 3,
                   Event.free] }) := by
  decide

/-- C17, as stated, fails: a decrypted message whose protocol discriminator
is 3, neither the EMM value 7 nor the ESM value 2 of `sampleCodes`, is not
forwarded to `lowerlayer_data_ind`; the function returns `RETURNerror`. -/
theorem data_ind_other_discriminator_counterexample :
    data_ind_decrypts (sampleEnvDecrypting 2 3) sampleData ∧
    ¬ data_ind_hard_failure sampleCodes (sampleEnvDecrypting 2 3) sampleData ∧
    (data_ind_decrypt (sampleEnvDecrypting 2 3) sampleData).header.protocol_discriminator ≠
      sampleCodes.EPS_MOBILITY_MANAGEMENT_MESSAGE ∧
    ∃ s, _emm_as_data_ind sampleCodes (sampleEnvDecrypting 2 3) sampleData (St.init (-1)) =
        some (sampleCodes.RETURNerror, s) ∧
      lowerlayer_data_ind_calls s.trace = [] := by
  refine ⟨by unfold data_ind_decrypts; decide, by unfold data_ind_hard_failure; decide,
    by decide, _, rfl, ?_⟩
  decide

/-- C17, amended: in `_emm_as_data_ind`, after a decrypt that is not a hard
failure, the protocol discriminator of the resolved header routes the
cleartext.  `EPS_MOBILITY_MANAGEMENT_MESSAGE` goes to `_emm_as_recv`, called
with the subscriber, the cleartext, the value returned by the decryption and
the decode status, and its result code is returned.  `EPS_SESSION_MANAGEMENT_MESSAGE` goes to
`lowerlayer_data_ind`, called once with the subscriber and the cleartext with
the byte count, and its result is returned.  Any other discriminator goes
nowhere: the function returns `RETURNerror`, the cause is unchanged, and
neither a decoder, nor `lowerlayer_data_ind`, nor a handler is called. -/
theorem data_ind_routes_by_discriminator (K : Codes) (E : Env) (msg : emm_as_data_t)
    (emm_cause : Int) (hd : data_ind_decrypts E msg)
    (hok : ¬ ((data_ind_decrypt E msg).bytes < 0 ∧
      (data_ind_decrypt E msg).bytes ≠ K.TLV_DECODE_MAC_MISMATCH)) :
    ((data_ind_decrypt E msg).header.protocol_discriminator =
        K.EPS_MOBILITY_MANAGEMENT_MESSAGE →
      _emm_as_data_ind K E msg (St.init emm_cause) =
        Option.map (fun p => (p.1, p.2.log Event.free))
          (_emm_as_recv K E msg.ueid (data_ind_decrypt E msg).plain_msg
            (data_ind_decrypt E msg).bytes (some (data_ind_decrypt E msg).decode_status)
            (data_ind_decrypted_state E msg (St.init emm_cause))) ∧
      ∀ rc s, _emm_as_data_ind K E msg (St.init emm_cause) = some (rc, s) →
        decode_calls s.trace =
          [((data_ind_decrypt E msg).plain_msg, (data_ind_decrypt E msg).bytes)] ∧
        lowerlayer_data_ind_calls s.trace = []) ∧
    ((data_ind_decrypt E msg).header.protocol_discriminator ≠
        K.EPS_MOBILITY_MANAGEMENT_MESSAGE →
      (data_ind_decrypt E msg).header.protocol_discriminator =
        K.EPS_SESSION_MANAGEMENT_MESSAGE →
      ∃ s, _emm_as_data_ind K E msg (St.init emm_cause) =
          some (E.lowerlayer_data_ind msg.ueid (data_ind_esm_data E msg), s) ∧
        lowerlayer_data_ind_calls s.trace = [(msg.ueid, data_ind_esm_data E msg)] ∧
        decode_calls s.trace = [] ∧ handler_calls s.trace = [] ∧
        s.emm_cause = emm_cause) ∧
    ((data_ind_decrypt E msg).header.protocol_discriminator ≠
        K.EPS_MOBILITY_MANAGEMENT_MESSAGE →
      (data_ind_decrypt E msg).header.protocol_discriminator ≠
        K.EPS_SESSION_MANAGEMENT_MESSAGE →
      ∃ s, _emm_as_data_ind K E msg (St.init emm_cause) = some (K.RETURNerror, s) ∧
        lowerlayer_data_ind_calls s.trace = [] ∧
        decode_calls s.trace = [] ∧ handler_calls s.trace = [] ∧
        s.emm_cause = emm_cause) := by
  have hf : ¬ data_ind_hard_failure K E msg := hok
  rw [data_ind_decrypts_eq K E msg _ hd, if_neg hf]
  refine ⟨?_, ?_, ?_⟩
  · intro hpd
    rw [if_pos hpd]
    refine ⟨rfl, ?_⟩
    intro rc s hrun
    cases hrecv : _emm_as_recv K E msg.ueid (data_ind_decrypt E msg).plain_msg
        (data_ind_decrypt E msg).bytes (some (data_ind_decrypt E msg).decode_status)
        (data_ind_decrypted_state E msg (St.init emm_cause)) with
    | none => rw [hrecv] at hrun; cases hrun
    | some p =>
      rw [hrecv] at hrun
      cases hrun
      have hdc := recv_decode_calls K E _ _ _ _ _ _ _ hrecv
      simp only [St.log, decode_calls_append, lowerlayer_data_ind_calls_append, hdc.1, hdc.2]
      simp [data_ind_decrypted_state, St.init, St.log, decode_calls, lowerlayer_data_ind_calls]
  · intro hpd hesm
    rw [if_neg hpd, if_pos hesm]
    refine ⟨_, rfl, ?_⟩
    simp [data_ind_decrypted_state, St.init, St.log, decode_calls, lowerlayer_data_ind_calls,
      handler_calls]
  · intro hpd hesm
    rw [if_neg hpd, if_neg hesm]
    refine ⟨_, rfl, ?_⟩
    simp [data_ind_decrypted_state, St.init, St.log, decode_calls, lowerlayer_data_ind_calls,
      handler_calls]

/-- Witness of the amended C17: the discriminator 2 of session management
sends the two cleartext bytes of subscriber 3 to `lowerlayer_data_ind`, whose
result 5 is returned; the discriminator 3 is routed nowhere. -/
theorem data_ind_routes_by_discriminator_witness :
    (∃ s, _emm_as_data_ind sampleCodes (sampleEnvDecrypting 2 2) sampleData (St.init (-1)) =
        some (5, s) ∧
      lowerlayer_data_ind_calls s.trace = [(3, { length := 2, value := [7, 69] })] ∧
      decode_calls s.trace = [] ∧ handler_calls s.trace = [] ∧ s.emm_cause = -1) ∧
    (∃ s, _emm_as_data_ind sampleCodes (sampleEnvDecrypting 2 3) sampleData (St.init (-1)) =
        some (-1, s) ∧
      lowerlayer_data_ind_calls s.trace = [] ∧
      decode_calls s.trace = [] ∧ handler_calls s.trace = [] ∧ s.emm_cause = -1) :=
  ⟨(data_ind_routes_by_discriminator sampleCodes (sampleEnvDecrypting 2 2) sampleData (-1)
      (by unfold data_ind_decrypts; decide) (by decide)).2.1 (by decide) (by decide),
    (data_ind_routes_by_discriminator sampleCodes (sampleEnvDecrypting 2 3) sampleData (-1)
      (by unfold data_ind_decrypts; decide) (by decide)).2.2 (by decide) (by decide)⟩

/-- C18: in `_emm_as_data_ind`, `nas_message_decrypt` and `nas_message_decode`
(the first action of `_emm_as_recv`) are called only if `delivered` is true
and `NASmsg.length > 0`.  If `delivered` is false the function calls
`lowerlayer_failure (ueid)`, and nothing else, and returns its result; if
`delivered` is true and the length is not positive it calls
`lowerlayer_success (ueid)`, and nothing else, and returns its result.  In
both cases the cause is unchanged, and `emm_as_send` on such a data
indication returns that result without a status report. -/
theorem data_ind_without_payload (K : Codes) (E : Env) (msg : emm_as_data_t)
    (emm_cause : Int) :
    (∀ rc s, _emm_as_data_ind K E msg (St.init emm_cause) = some (rc, s) →
      (decrypt_calls s.trace ≠ [] ∨ decode_calls s.trace ≠ []) →
      msg.delivered ≠ 0 ∧ msg.NASmsg.length > 0) ∧
    (msg.delivered = 0 →
      _emm_as_data_ind K E msg (St.init emm_cause) =
        some (E.lowerlayer_failure msg.ueid,
          { emm_cause := emm_cause, trace := [Event.lowerlayer_failure msg.ueid] })) ∧
    (msg.delivered ≠ 0 → ¬ msg.NASmsg.length > 0 →
      _emm_as_data_ind K E msg (St.init emm_cause) =
        some (E.lowerlayer_success msg.ueid,
          { emm_cause := emm_cause, trace := [Event.lowerlayer_success msg.ueid] })) ∧
    (∀ m : emm_as_t, m.primitive = emm_as_primitive_t._EMMAS_DATA_IND → m.u.data = msg →
      (msg.delivered = 0 →
        emm_as_send K E m =
          some (E.lowerlayer_failure msg.ueid, [Event.lowerlayer_failure msg.ueid])) ∧
      (msg.delivered ≠ 0 → ¬ msg.NASmsg.length > 0 →
        emm_as_send K E m =
          some (E.lowerlayer_success msg.ueid, [Event.lowerlayer_success msg.ueid]))) := by
  have hfail : msg.delivered = 0 →
      _emm_as_data_ind K E msg (St.init emm_cause) =
        some (E.lowerlayer_failure msg.ueid,
          { emm_cause := emm_cause, trace := [Event.lowerlayer_failure msg.ueid] }) := by
    intro h
    unfold _emm_as_data_ind
    simp [h, St.init, St.log]
  have hsucc : msg.delivered ≠ 0 → ¬ msg.NASmsg.length > 0 →
      _emm_as_data_ind K E msg (St.init emm_cause) =
        some (E.lowerlayer_success msg.ueid,
          { emm_cause := emm_cause, trace := [Event.lowerlayer_success msg.ueid] }) := by
    intro h1 h2
    unfold _emm_as_data_ind
    simp only [h1, h2, ne_eq, not_false_eq_true, if_true, if_false]
    simp [St.init, St.log]
  refine ⟨?_, hfail, hsucc, ?_⟩
  · intro rc s hrun hcalls
    by_cases h1 : msg.delivered = 0
    · rw [hfail h1] at hrun
      cases hrun
      simp [decrypt_calls, decode_calls] at hcalls
    · by_cases h2 : msg.NASmsg.length > 0
      · exact ⟨h1, h2⟩
      · rw [hsucc h1 h2] at hrun
        cases hrun
        simp [decrypt_calls, decode_calls] at hcalls
  · intro m hp hm
    subst hm
    refine ⟨?_, ?_⟩
    · intro h1
      have e : _emm_as_data_ind K E m.u.data
          { emm_cause := K.EMM_CAUSE_SUCCESS, trace := [] } =
          some (E.lowerlayer_failure m.u.data.ueid,
            { emm_cause := K.EMM_CAUSE_SUCCESS,
              trace := [Event.lowerlayer_failure m.u.data.ueid] }) := by
        unfold _emm_as_data_ind
        simp [h1, St.log]
      unfold emm_as_send
      simp only [hp, e]
      simp [emm_as_send_report]
    · intro h1 h2
      have e : _emm_as_data_ind K E m.u.data
          { emm_cause := K.EMM_CAUSE_SUCCESS, trace := [] } =
          some (E.lowerlayer_success m.u.data.ueid,
            { emm_cause := K.EMM_CAUSE_SUCCESS,
              trace := [Event.lowerlayer_success m.u.data.ueid] }) := by
        unfold _emm_as_data_ind
        simp only [h1, h2, ne_eq, not_false_eq_true, if_true, if_false]
        simp [St.log]
      unfold emm_as_send
      simp only [hp, e]
      simp [emm_as_send_report]

/-- Witness of C18: `sampleDataInd` with `delivered` cleared makes
`emm_as_send` return the result 8 of `lowerlayer_failure`, with that call
only; the data indication itself has called neither decoder. -/
theorem data_ind_without_payload_witness :
    emm_as_send sampleCodes (sampleEnvDecrypting 2 7)
        { sampleDataInd with u := { sampleDataInd.u with
                                      data := { sampleData with delivered := 0 } } } =
      some (8, [Event.lowerlayer_failure 3]) :=
  ((data_ind_without_payload sampleCodes (sampleEnvDecrypting 2 7)
      { sampleData with delivered := 0 } (-1)).2.2.2
    { sampleDataInd with u := { sampleDataInd.u with
                                  data := { sampleData with delivered := 0 } } }
    rfl rfl).1 rfl

/-! ## Negative decoder results -/

/-- C19: in `_emm_as_recv`, whenever `nas_message_decode` returns a negative
result, whatever message type the decoded message holds: the function returns
that result, the cause is `EMM_CAUSE_PROTOCOL_ERROR` (its only store) and no
handler is called. -/
theorem recv_decode_failure (K : Codes) (E : Env) (ueid : Nat) (msg : Bytes) (len : Int)
    (decode_status : Option nas_message_decode_status_t) (emm_cause : Int)
    (hrc : (recv_decode E ueid msg len decode_status).rc < 0) :
    ∃ s, _emm_as_recv K E ueid msg len decode_status (St.init emm_cause) =
        some ((recv_decode E ueid msg len decode_status).rc, s) ∧
      s.emm_cause = K.EMM_CAUSE_PROTOCOL_ERROR ∧
      cause_stores s.trace = [K.EMM_CAUSE_PROTOCOL_ERROR] ∧
      handler_calls s.trace = [] := by
  unfold recv_decode at hrc ⊢
  unfold _emm_as_recv
  simp only [hrc, if_true]
  refine ⟨_, rfl, ?_⟩
  simp [St.init, St.log, St.set_emm_cause, cause_stores, handler_calls]

/-- Witness of C19: the decoder returns -2 on a message left with the type
`ATTACH_REQUEST`. -/
theorem recv_decode_failure_witness :
    ∃ s, _emm_as_recv sampleCodes
        (sampleEnvDecoding (-2) emm_message_type.ATTACH_REQUEST statusUnprotected) 3 [7, 65] 2
        none (St.init (-1)) = some (-2, s) ∧
      s.emm_cause = 111 ∧ cause_stores s.trace = [111] ∧ handler_calls s.trace = [] :=
  recv_decode_failure sampleCodes
    (sampleEnvDecoding (-2) emm_message_type.ATTACH_REQUEST statusUnprotected) 3 [7, 65] 2
    none (-1) (by decide)

/-- C20, as stated, fails: with `TLV_DECODE_FATAL_ERROR` = -3 and
`TLV_DECODE_UNEXPECTED_IEI` = -1 as in `sampleCodes`, an establish request
whose `ATTACH_REQUEST` decodes with the negative result -1 is not stopped:
`emm_recv_attach_request` is called. -/
theorem establish_req_negative_decode_counterexample :
    (establish_req_decode
      (sampleEnvDecoding (-1) emm_message_type.ATTACH_REQUEST statusUnprotected)
      sampleEstablishReq.u.establish).rc < 0 ∧
    ∃ rc s, _emm_as_establish_req sampleCodes
        (sampleEnvDecoding (-1) emm_message_type.ATTACH_REQUEST statusUnprotected)
        sampleEstablishReq.u.establish (St.init (-1)) = some (rc, s) ∧
      handler_calls s.trace = [(emm_recv_handler.emm_recv_attach_request, 4)] := by
  refine ⟨by decide, _, _, rfl, ?_⟩
  decide

/-- C20, amended: in `_emm_as_establish_req` the decode rule has a threshold.
Whenever `nas_message_decode` returns a result below `TLV_DECODE_FATAL_ERROR`,
the cause is `EMM_CAUSE_PROTOCOL_ERROR` (the only store), that result is
returned and processing stops: no handler is called and no stub branch is
reached.  A negative result that is not below `TLV_DECODE_FATAL_ERROR` only
sets the cause, to `EMM_CAUSE_IE_NOT_IMPLEMENTED` for
`TLV_DECODE_UNEXPECTED_IEI` and to `EMM_CAUSE_PROTOCOL_ERROR` otherwise, and
the message goes through the switch: an `ATTACH_REQUEST` reaches
`emm_recv_attach_request` with that cause. -/
theorem establish_req_decode_threshold (K : Codes) (E : Env) (msg : emm_as_establish_t)
    (emm_cause : Int) :
    ((establish_req_decode E msg).rc < K.TLV_DECODE_FATAL_ERROR →
      ∃ s, _emm_as_establish_req K E msg (St.init emm_cause) =
          some ((establish_req_decode E msg).rc, s) ∧
        s.emm_cause = K.EMM_CAUSE_PROTOCOL_ERROR ∧
        cause_stores s.trace = [K.EMM_CAUSE_PROTOCOL_ERROR] ∧
        handler_calls s.trace = []) ∧
    (¬ (establish_req_decode E msg).rc < K.TLV_DECODE_FATAL_ERROR →
      (establish_req_decode E msg).rc < 0 →
      (∀ rc s, _emm_as_establish_req K E msg (St.init emm_cause) = some (rc, s) →
        (cause_stores s.trace).head? =
          some (if (establish_req_decode E msg).rc = K.TLV_DECODE_UNEXPECTED_IEI then
            K.EMM_CAUSE_IE_NOT_IMPLEMENTED else K.EMM_CAUSE_PROTOCOL_ERROR)) ∧
      ((establish_req_decode E msg).nas_msg.plain.emm.header.message_type =
          emm_message_type.ATTACH_REQUEST →
        ∃ s, _emm_as_establish_req K E msg (St.init emm_cause) =
            some ((E.emm_recv emm_recv_handler.emm_recv_attach_request msg.ueid
              (establish_req_decode E msg).nas_msg.plain.emm
              (if (establish_req_decode E msg).rc = K.TLV_DECODE_UNEXPECTED_IEI then
                K.EMM_CAUSE_IE_NOT_IMPLEMENTED else K.EMM_CAUSE_PROTOCOL_ERROR)
              (establish_req_decode E msg).decode_status).rc, s) ∧
          handler_calls s.trace = [(emm_recv_handler.emm_recv_attach_request, msg.ueid)])) := by
  unfold establish_req_decode
  refine ⟨?_, ?_⟩
  · intro hrc
    unfold _emm_as_establish_req
    simp only [hrc, if_true]
    refine ⟨_, rfl, ?_⟩
    simp [St.init, St.log, St.set_emm_cause, cause_stores, handler_calls]
  · intro hnf hneg
    refine ⟨?_, ?_⟩
    · intro rc s hrun
      unfold _emm_as_establish_req at hrun
      simp only [hnf, hneg, if_true, if_false] at hrun
      split at hrun <;> (try split at hrun) <;> (try cases hrun) <;> split_ifs <;>
        simp_all [St.init, St.log, St.set_emm_cause, call_emm_recv, cause_stores]
    · intro hty
      unfold _emm_as_establish_req
      simp only [hnf, hneg, hty, if_true, if_false, call_emm_recv]
      split_ifs <;> refine ⟨_, rfl, ?_⟩ <;>
        simp [St.init, St.log, St.set_emm_cause, handler_calls]

/-- Witness of the amended C20: decoder results -4 (below the threshold -3 of
`sampleCodes`) and -1 (not below it) on an `ATTACH_REQUEST`. -/
theorem establish_req_decode_threshold_witness :
    (∃ s, _emm_as_establish_req sampleCodes
        (sampleEnvDecoding (-4) emm_message_type.ATTACH_REQUEST statusUnprotected)
        sampleEstablishReq.u.establish (St.init (-1)) = some (-4, s) ∧
      s.emm_cause = 111 ∧ cause_stores s.trace = [111] ∧ handler_calls s.trace = []) ∧
    (∃ s, _emm_as_establish_req sampleCodes
        (sampleEnvDecoding (-1) emm_message_type.ATTACH_REQUEST statusUnprotected)
        sampleEstablishReq.u.establish (St.init (-1)) = some (0, s) ∧
      handler_calls s.trace = [(emm_recv_handler.emm_recv_attach_request, 4)]) :=
  ⟨(establish_req_decode_threshold sampleCodes
      (sampleEnvDecoding (-4) emm_message_type.ATTACH_REQUEST statusUnprotected)
      sampleEstablishReq.u.establish (-1)).1 (by decide),
    ((establish_req_decode_threshold sampleCodes
      (sampleEnvDecoding (-1) emm_message_type.ATTACH_REQUEST statusUnprotected)
      sampleEstablishReq.u.establish (-1)).2 (by decide) (by decide)).2 (by decide)⟩

/-! ## Properties of the status report of the dispatcher -/

/-- The cause that `emm_as_send` reports for the result `rc` and the cause
`emm_cause` left by the routed function. -/
theorem send_report_status_reports (K : Codes) (E : Env) (rc : Int) (s : St) (ueid : Nat) :
    status_reports (emm_as_send_report K E rc s ueid).2 =
      status_reports s.trace ++
        (if s.emm_cause ≠ K.EMM_CAUSE_SUCCESS ∧ rc ≠ K.TLV_DECODE_BUFFER_TOO_SHORT ∧
            rc ≠ K.TLV_DECODE_PROTOCOL_NOT_SUPPORTED then
          [(ueid, if rc = K.TLV_DECODE_WRONG_MESSAGE_TYPE then
            K.EMM_CAUSE_MESSAGE_TYPE_NOT_IMPLEMENTED else s.emm_cause)]
        else []) := by
  unfold emm_as_send_report
  split_ifs <;> simp_all [status_reports, List.filterMap_append]

/-- The result of the reporting part of `emm_as_send`. -/
theorem send_report_result (K : Codes) (E : Env) (rc : Int) (s : St) (ueid : Nat) :
    (emm_as_send_report K E rc s ueid).1 =
      (if s.emm_cause ≠ K.EMM_CAUSE_SUCCESS then
        (if rc = K.TLV_DECODE_BUFFER_TOO_SHORT ∨ rc = K.TLV_DECODE_PROTOCOL_NOT_SUPPORTED then
          K.RETURNok
        else E.emm_proc_status ueid (if rc = K.TLV_DECODE_WRONG_MESSAGE_TYPE then
          K.EMM_CAUSE_MESSAGE_TYPE_NOT_IMPLEMENTED else s.emm_cause))
      else rc) := by
  unfold emm_as_send_report
  split_ifs <;> simp_all

/-- The reporting part of `emm_as_send` adds no event of the send pipeline and
no event of the receive pipeline. -/
theorem send_report_frame (K : Codes) (E : Env) (rc : Int) (s : St) (ueid : Nat) :
    events_of_kind EventKind.send (emm_as_send_report K E rc s ueid).2 =
      events_of_kind EventKind.send s.trace ∧
    events_of_kind EventKind.receive (emm_as_send_report K E rc s ueid).2 =
      events_of_kind EventKind.receive s.trace := by
  unfold emm_as_send_report
  split_ifs <;> simp [events_of_kind, Event.kind, List.filter_append]

/-- Shape of `emm_as_send` on a data indication. -/
theorem emm_as_send_data_ind_eq (K : Codes) (E : Env) (msg : emm_as_t)
    (hp : msg.primitive = emm_as_primitive_t._EMMAS_DATA_IND) :
    emm_as_send K E msg =
      Option.map (fun p => emm_as_send_report K E p.1 p.2 msg.u.data.ueid)
        (_emm_as_data_ind K E msg.u.data (St.init K.EMM_CAUSE_SUCCESS)) := by
  unfold emm_as_send St.init
  simp only [hp]
  cases _emm_as_data_ind K E msg.u.data { emm_cause := K.EMM_CAUSE_SUCCESS, trace := [] } <;>
    rfl

/-- Shape of `emm_as_send` on an establish request. -/
theorem emm_as_send_establish_req_eq (K : Codes) (E : Env) (msg : emm_as_t)
    (hp : msg.primitive = emm_as_primitive_t._EMMAS_ESTABLISH_REQ) :
    emm_as_send K E msg =
      Option.map (fun p => emm_as_send_report K E p.1 p.2 msg.u.establish.ueid)
        (_emm_as_establish_req K E msg.u.establish (St.init K.EMM_CAUSE_SUCCESS)) := by
  unfold emm_as_send St.init
  simp only [hp]
  cases _emm_as_establish_req K E msg.u.establish
    { emm_cause := K.EMM_CAUSE_SUCCESS, trace := [] } <;> rfl

/-- Shape of `emm_as_send` on the two cell information primitives: the result
of the handler, and an empty trace. -/
theorem emm_as_send_cell_info_eq (K : Codes) (E : Env) (msg : emm_as_t) :
    (msg.primitive = emm_as_primitive_t._EMMAS_CELL_INFO_RES →
      emm_as_send K E msg = some (_emm_as_cell_info_res K msg.u.cell_info, [])) ∧
    (msg.primitive = emm_as_primitive_t._EMMAS_CELL_INFO_IND →
      emm_as_send K E msg = some (_emm_as_cell_info_ind K msg.u.cell_info, [])) := by
  refine ⟨?_, ?_⟩ <;> intro hp <;> unfold emm_as_send <;> simp only [hp] <;>
    simp [emm_as_send_report]

/-- Shape of `emm_as_send` on the primitives of the default branch: the
result of `_emm_as_send` when it is `RETURNok`, `RETURNerror` otherwise, and
the trace of `_emm_as_send`. -/
theorem emm_as_send_default_eq (K : Codes) (E : Env) (msg : emm_as_t)
    (h1 : msg.primitive ≠ emm_as_primitive_t._EMMAS_DATA_IND)
    (h2 : msg.primitive ≠ emm_as_primitive_t._EMMAS_ESTABLISH_REQ)
    (h3 : msg.primitive ≠ emm_as_primitive_t._EMMAS_CELL_INFO_RES)
    (h4 : msg.primitive ≠ emm_as_primitive_t._EMMAS_CELL_INFO_IND) :
    emm_as_send K E msg =
      Option.map (fun p => (if p.1 ≠ K.RETURNok then K.RETURNerror else p.1, p.2))
        (_emm_as_send K E msg []) := by
  unfold emm_as_send
  cases hp : msg.primitive <;> simp only [hp] at h1 h2 h3 h4 ⊢ <;>
    first
    | contradiction
    | (cases _emm_as_send K E msg [] with
       | none => rfl
       | some p =>
         obtain ⟨rc, t⟩ := p
         by_cases hrc : rc = K.RETURNok <;> simp [hrc, emm_as_send_report])

/-- C11: for a data indication or an establish request whose routed function
returns `rc` and leaves the cause of `s`, with `ueid` the subscriber of the
primitive: `emm_as_send` returns, and it calls `emm_proc_status` if and only
if the cause differs from `EMM_CAUSE_SUCCESS` and `rc` is neither
`TLV_DECODE_BUFFER_TOO_SHORT` nor `TLV_DECODE_PROTOCOL_NOT_SUPPORTED`.  In the
two ignored cases it returns `RETURNok` without a status report; when the
report is sent it is the only one, it is addressed to `ueid`, it carries the
cause, and `emm_as_send` returns the result of `emm_proc_status`. -/
theorem send_status_report_iff (K : Codes) (E : Env) (msg : emm_as_t) (ueid : Nat)
    (rc : Int) (s : St)
    (h : (msg.primitive = emm_as_primitive_t._EMMAS_DATA_IND ∧ ueid = msg.u.data.ueid ∧
          _emm_as_data_ind K E msg.u.data (St.init K.EMM_CAUSE_SUCCESS) = some (rc, s)) ∨
        (msg.primitive = emm_as_primitive_t._EMMAS_ESTABLISH_REQ ∧
          ueid = msg.u.establish.ueid ∧
          _emm_as_establish_req K E msg.u.establish (St.init K.EMM_CAUSE_SUCCESS) =
            some (rc, s))) :
    ∃ r t, emm_as_send K E msg = some (r, t) ∧
      (status_reports t ≠ [] ↔
        (s.emm_cause ≠ K.EMM_CAUSE_SUCCESS ∧ rc ≠ K.TLV_DECODE_BUFFER_TOO_SHORT ∧
          rc ≠ K.TLV_DECODE_PROTOCOL_NOT_SUPPORTED)) ∧
      (s.emm_cause ≠ K.EMM_CAUSE_SUCCESS →
        rc = K.TLV_DECODE_BUFFER_TOO_SHORT ∨ rc = K.TLV_DECODE_PROTOCOL_NOT_SUPPORTED →
        r = K.RETURNok ∧ status_reports t = []) ∧
      (s.emm_cause ≠ K.EMM_CAUSE_SUCCESS → rc ≠ K.TLV_DECODE_BUFFER_TOO_SHORT →
        rc ≠ K.TLV_DECODE_PROTOCOL_NOT_SUPPORTED →
        status_reports t =
          [(ueid, if rc = K.TLV_DECODE_WRONG_MESSAGE_TYPE then
            K.EMM_CAUSE_MESSAGE_TYPE_NOT_IMPLEMENTED else s.emm_cause)] ∧
        r = E.emm_proc_status ueid (if rc = K.TLV_DECODE_WRONG_MESSAGE_TYPE then
            K.EMM_CAUSE_MESSAGE_TYPE_NOT_IMPLEMENTED else s.emm_cause)) := by
  have hsend : emm_as_send K E msg = some (emm_as_send_report K E rc s ueid) ∧
      status_reports s.trace = [] := by
    rcases h with ⟨hp, hu, hrun⟩ | ⟨hp, hu, hrun⟩
    · rw [emm_as_send_data_ind_eq K E msg hp, hrun, hu]
      exact ⟨rfl, (data_ind_frame K E _ _ _ _ hrun).1⟩
    · rw [emm_as_send_establish_req_eq K E msg hp, hrun, hu]
      exact ⟨rfl, (establish_req_frame K E _ _ _ _ hrun).1⟩
  refine ⟨(emm_as_send_report K E rc s ueid).1, (emm_as_send_report K E rc s ueid).2,
    hsend.1, ?_, ?_, ?_⟩
  · rw [send_report_status_reports, hsend.2]
    split_ifs with hc <;> simp [hc]
  · intro hc hrc
    rw [send_report_status_reports, send_report_result, hsend.2]
    rcases hrc with hrc | hrc <;> simp [hc, hrc]
  · intro hc h1 h2
    rw [send_report_status_reports, send_report_result, hsend.2]
    simp [hc, h1, h2]

/-- Witness of C11: an establish request of subscriber 4 whose decoder
returns -4, below the fatal threshold, leaves the cause 111; `emm_as_send`
reports it to subscriber 4. -/
theorem send_status_report_iff_witness :
    ∃ r t, emm_as_send sampleCodes
        (sampleEnvDecoding (-4) emm_message_type.ATTACH_REQUEST statusUnprotected)
        sampleEstablishReq = some (r, t) ∧
      status_reports t = [(4, 111)] ∧
      r = (sampleEnvDecoding (-4) emm_message_type.ATTACH_REQUEST
        statusUnprotected).emm_proc_status 4 111 := by
  obtain ⟨r, t, hrun, _, _, hrep⟩ := send_status_report_iff sampleCodes
    (sampleEnvDecoding (-4) emm_message_type.ATTACH_REQUEST statusUnprotected)
    sampleEstablishReq 4 (-4)
    { emm_cause := 111,
      trace := [Event.nas_message_decode [7, 69] 2 (some sampleContext),
        Event.set_emm_cause 111] }
    (Or.inr ⟨rfl, rfl, by decide⟩)
  exact ⟨r, t, hrun, by simpa [sampleCodes] using hrep (by decide) (by decide) (by decide)⟩

/-- C12: for a data indication or an establish request whose routed function
leaves a cause other than `EMM_CAUSE_SUCCESS`, with
`TLV_DECODE_WRONG_MESSAGE_TYPE` distinct from the two ignored codes: when the
function returns `TLV_DECODE_WRONG_MESSAGE_TYPE`, the cause passed to
`emm_proc_status` is `EMM_CAUSE_MESSAGE_TYPE_NOT_IMPLEMENTED`, whatever the
cause left; for every other result that is not ignored the cause left is
passed unchanged. -/
theorem send_cause_translation (K : Codes) (E : Env) (msg : emm_as_t) (ueid : Nat)
    (rc : Int) (s : St)
    (h : (msg.primitive = emm_as_primitive_t._EMMAS_DATA_IND ∧ ueid = msg.u.data.ueid ∧
          _emm_as_data_ind K E msg.u.data (St.init K.EMM_CAUSE_SUCCESS) = some (rc, s)) ∨
        (msg.primitive = emm_as_primitive_t._EMMAS_ESTABLISH_REQ ∧
          ueid = msg.u.establish.ueid ∧
          _emm_as_establish_req K E msg.u.establish (St.init K.EMM_CAUSE_SUCCESS) =
            some (rc, s)))
    (hcause : s.emm_cause ≠ K.EMM_CAUSE_SUCCESS)
    (hshort : K.TLV_DECODE_WRONG_MESSAGE_TYPE ≠ K.TLV_DECODE_BUFFER_TOO_SHORT)
    (hproto : K.TLV_DECODE_WRONG_MESSAGE_TYPE ≠ K.TLV_DECODE_PROTOCOL_NOT_SUPPORTED) :
    ∃ r t, emm_as_send K E msg = some (r, t) ∧
      (rc = K.TLV_DECODE_WRONG_MESSAGE_TYPE →
        status_reports t = [(ueid, K.EMM_CAUSE_MESSAGE_TYPE_NOT_IMPLEMENTED)]) ∧
      (rc ≠ K.TLV_DECODE_WRONG_MESSAGE_TYPE → rc ≠ K.TLV_DECODE_BUFFER_TOO_SHORT →
        rc ≠ K.TLV_DECODE_PROTOCOL_NOT_SUPPORTED →
        status_reports t = [(ueid, s.emm_cause)]) := by
  have hsend : emm_as_send K E msg = some (emm_as_send_report K E rc s ueid) ∧
      status_reports s.trace = [] := by
    rcases h with ⟨hp, hu, hrun⟩ | ⟨hp, hu, hrun⟩
    · rw [emm_as_send_data_ind_eq K E msg hp, hrun, hu]
      exact ⟨rfl, (data_ind_frame K E _ _ _ _ hrun).1⟩
    · rw [emm_as_send_establish_req_eq K E msg hp, hrun, hu]
      exact ⟨rfl, (establish_req_frame K E _ _ _ _ hrun).1⟩
  refine ⟨(emm_as_send_report K E rc s ueid).1, (emm_as_send_report K E rc s ueid).2,
    hsend.1, ?_, ?_⟩
  · intro hrc
    rw [send_report_status_reports, hsend.2]
    simp [hcause, hrc, hshort, hproto]
  · intro h0 h1 h2
    rw [send_report_status_reports, hsend.2]
    simp [hcause, h0, h1, h2]

/-- Witness of C12: an establish request of subscriber 4 whose decoder
returns -10, the wrong message type code of `sampleCodes`, leaves the cause
111; the cause reported is 97, message type not implemented. -/
theorem send_cause_translation_witness :
    ∃ r t, emm_as_send sampleCodes
        (sampleEnvDecoding (-10) emm_message_type.ATTACH_REQUEST statusUnprotected)
        sampleEstablishReq = some (r, t) ∧
      status_reports t = [(4, 97)] := by
  obtain ⟨r, t, hrun, hwrong, _⟩ := send_cause_translation sampleCodes
    (sampleEnvDecoding (-10) emm_message_type.ATTACH_REQUEST statusUnprotected)
    sampleEstablishReq 4 (-10)
    { emm_cause := 111,
      trace := [Event.nas_message_decode [7, 69] 2 (some sampleContext),
        Event.set_emm_cause 111] }
    (Or.inr ⟨rfl, rfl, by decide⟩) (by decide) (by decide) (by decide)
  exact ⟨r, t, hrun, hwrong (by decide)⟩

/-- The trace of every returned `emm_as_send` holds at most one status report,
and on a primitive of the default branch none. -/
theorem emm_as_send_status_reports (K : Codes) (E : Env) (msg : emm_as_t) (r : Int)
    (t : List Event) (h : emm_as_send K E msg = some (r, t)) :
    (status_reports t).length ≤ 1 ∧
    (msg.primitive ≠ emm_as_primitive_t._EMMAS_DATA_IND →
      msg.primitive ≠ emm_as_primitive_t._EMMAS_ESTABLISH_REQ → status_reports t = []) := by
  by_cases h1 : msg.primitive = emm_as_primitive_t._EMMAS_DATA_IND
  · rw [emm_as_send_data_ind_eq K E msg h1] at h
    cases hrun : _emm_as_data_ind K E msg.u.data (St.init K.EMM_CAUSE_SUCCESS) with
    | none => rw [hrun] at h; cases h
    | some p =>
      obtain ⟨rc, s⟩ := p
      rw [hrun] at h
      have h3 : emm_as_send_report K E rc s msg.u.data.ueid = (r, t) := Option.some.inj h
      have ht : t = (emm_as_send_report K E rc s msg.u.data.ueid).2 := by rw [h3]
      have hf := (data_ind_frame K E _ _ _ _ hrun).1
      refine ⟨?_, fun hne => absurd h1 hne⟩
      rw [ht, send_report_status_reports, hf]
      split_ifs <;> simp [St.init, status_reports]
  · by_cases h2 : msg.primitive = emm_as_primitive_t._EMMAS_ESTABLISH_REQ
    · rw [emm_as_send_establish_req_eq K E msg h2] at h
      cases hrun : _emm_as_establish_req K E msg.u.establish
          (St.init K.EMM_CAUSE_SUCCESS) with
      | none => rw [hrun] at h; cases h
      | some p =>
        obtain ⟨rc, s⟩ := p
        rw [hrun] at h
        have h3 : emm_as_send_report K E rc s msg.u.establish.ueid = (r, t) :=
          Option.some.inj h
        have ht : t = (emm_as_send_report K E rc s msg.u.establish.ueid).2 := by rw [h3]
        have hf := (establish_req_frame K E _ _ _ _ hrun).1
        refine ⟨?_, fun _ hne => absurd h2 hne⟩
        rw [ht, send_report_status_reports, hf]
        split_ifs <;> simp [St.init, status_reports]
    · have hnil : status_reports t = [] := by
        by_cases h3 : msg.primitive = emm_as_primitive_t._EMMAS_CELL_INFO_RES
        · rw [(emm_as_send_cell_info_eq K E msg).1 h3] at h
          cases h
          rfl
        · by_cases h4 : msg.primitive = emm_as_primitive_t._EMMAS_CELL_INFO_IND
          · rw [(emm_as_send_cell_info_eq K E msg).2 h4] at h
            cases h
            rfl
          · rw [emm_as_send_default_eq K E msg h1 h2 h3 h4] at h
            cases hrun : _emm_as_send K E msg [] with
            | none => rw [hrun] at h; cases h
            | some p =>
              obtain ⟨rc, t1⟩ := p
              rw [hrun] at h
              cases h
              exact (send_frame K E msg _ _ _ hrun).1
      exact ⟨by simp [hnil], fun _ _ => hnil⟩

/-- C13: one call of `emm_as_send` that returns has called `emm_proc_status`
at most once, for every primitive and all collaborators; `_emm_as_recv`,
`_emm_as_data_ind`, `_emm_as_establish_req` and `_emm_as_send`, with all the
functions they call, add no status report to a trace; and when `_emm_as_send`
returns a result other than `RETURNok` on a primitive of the default branch,
`emm_as_send` returns `RETURNerror` and its trace holds no status report. -/
theorem send_single_status_report (K : Codes) (E : Env) (msg : emm_as_t) :
    (∀ r t, emm_as_send K E msg = some (r, t) → (status_reports t).length ≤ 1) ∧
    (∀ ueid buf len ds s rc s1, _emm_as_recv K E ueid buf len ds s = some (rc, s1) →
      status_reports s1.trace = status_reports s.trace) ∧
    (∀ s rc s1, _emm_as_data_ind K E msg.u.data s = some (rc, s1) →
      status_reports s1.trace = status_reports s.trace) ∧
    (∀ s rc s1, _emm_as_establish_req K E msg.u.establish s = some (rc, s1) →
      status_reports s1.trace = status_reports s.trace) ∧
    (∀ t rc t1, _emm_as_send K E msg t = some (rc, t1) →
      status_reports t1 = status_reports t) ∧
    (∀ rc t, msg.primitive ≠ emm_as_primitive_t._EMMAS_DATA_IND →
      msg.primitive ≠ emm_as_primitive_t._EMMAS_ESTABLISH_REQ →
      msg.primitive ≠ emm_as_primitive_t._EMMAS_CELL_INFO_RES →
      msg.primitive ≠ emm_as_primitive_t._EMMAS_CELL_INFO_IND →
      _emm_as_send K E msg [] = some (rc, t) → rc ≠ K.RETURNok →
      emm_as_send K E msg = some (K.RETURNerror, t) ∧ status_reports t = []) := by
  refine ⟨?_, ?_, ?_, ?_, ?_, ?_⟩
  · intro r t h
    exact (emm_as_send_status_reports K E msg r t h).1
  · intro ueid buf len ds s rc s1 h
    exact (recv_frame K E ueid buf len ds s s1 rc h).1
  · intro s rc s1 h
    exact (data_ind_frame K E _ s s1 rc h).1
  · intro s rc s1 h
    exact (establish_req_frame K E _ s s1 rc h).1
  · intro t rc t1 h
    exact (send_frame K E msg t t1 rc h).1
  · intro rc t h1 h2 h3 h4 hrun hrc
    rw [emm_as_send_default_eq K E msg h1 h2 h3 h4, hrun]
    refine ⟨by simp [hrc], ?_⟩
    exact (send_frame K E msg _ _ _ hrun).1

/-- Witness of C13: paging is not implemented, so `_emm_as_send` fails on
`samplePageInd`; `emm_as_send` returns -1, the `RETURNerror` of `sampleCodes`,
with an empty trace. -/
theorem send_single_status_report_witness :
    emm_as_send sampleCodes sampleEnv samplePageInd = some (-1, []) ∧
    status_reports ([] : List Event) = [] :=
  (send_single_status_report sampleCodes sampleEnv samplePageInd).2.2.2.2.2 (-1) []
    (by decide) (by decide) (by decide) (by decide) (by decide) (by decide)

/-! ## Routing of the primitives -/

/-- The events of the send pipeline in the trace of `emm_as_send` on a
primitive of the receive side, and the subscribers of its status reports. -/
theorem emm_as_send_receive_side (K : Codes) (E : Env) (msg : emm_as_t) (r : Int)
    (t : List Event) (h : emm_as_send K E msg = some (r, t)) :
    (msg.primitive = emm_as_primitive_t._EMMAS_DATA_IND →
      events_of_kind EventKind.send t = [] ∧
      ∀ q ∈ status_reports t, q.1 = msg.u.data.ueid) ∧
    (msg.primitive = emm_as_primitive_t._EMMAS_ESTABLISH_REQ →
      events_of_kind EventKind.send t = [] ∧
      ∀ q ∈ status_reports t, q.1 = msg.u.establish.ueid) ∧
    (msg.primitive = emm_as_primitive_t._EMMAS_CELL_INFO_RES ∨
        msg.primitive = emm_as_primitive_t._EMMAS_CELL_INFO_IND →
      events_of_kind EventKind.send t = []) := by
  refine ⟨?_, ?_, ?_⟩
  · intro hp
    rw [emm_as_send_data_ind_eq K E msg hp] at h
    cases hrun : _emm_as_data_ind K E msg.u.data (St.init K.EMM_CAUSE_SUCCESS) with
    | none => rw [hrun] at h; cases h
    | some p =>
      obtain ⟨rc, s⟩ := p
      rw [hrun] at h
      have h3 : emm_as_send_report K E rc s msg.u.data.ueid = (r, t) := Option.some.inj h
      have ht : t = (emm_as_send_report K E rc s msg.u.data.ueid).2 := by rw [h3]
      have hf := data_ind_frame K E _ _ _ _ hrun
      have hnil : status_reports (St.init K.EMM_CAUSE_SUCCESS).trace = [] := rfl
      have hnone : events_of_kind EventKind.send (St.init K.EMM_CAUSE_SUCCESS).trace = [] :=
        rfl
      rw [ht, (send_report_frame K E rc s _).1, send_report_status_reports, hf.1, hf.2,
        hnil, hnone]
      refine ⟨rfl, ?_⟩
      intro q hq
      split_ifs at hq
      all_goals first
        | (simp only [List.nil_append, List.mem_singleton] at hq
           rw [hq])
        | simp at hq
  · intro hp
    rw [emm_as_send_establish_req_eq K E msg hp] at h
    cases hrun : _emm_as_establish_req K E msg.u.establish (St.init K.EMM_CAUSE_SUCCESS) with
    | none => rw [hrun] at h; cases h
    | some p =>
      obtain ⟨rc, s⟩ := p
      rw [hrun] at h
      have h3 : emm_as_send_report K E rc s msg.u.establish.ueid = (r, t) :=
        Option.some.inj h
      have ht : t = (emm_as_send_report K E rc s msg.u.establish.ueid).2 := by rw [h3]
      have hf := establish_req_frame K E _ _ _ _ hrun
      have hnil : status_reports (St.init K.EMM_CAUSE_SUCCESS).trace = [] := rfl
      have hnone : events_of_kind EventKind.send (St.init K.EMM_CAUSE_SUCCESS).trace = [] :=
        rfl
      rw [ht, (send_report_frame K E rc s _).1, send_report_status_reports, hf.1, hf.2,
        hnil, hnone]
      refine ⟨rfl, ?_⟩
      intro q hq
      split_ifs at hq
      all_goals first
        | (simp only [List.nil_append, List.mem_singleton] at hq
           rw [hq])
        | simp at hq
  · intro hp
    rcases hp with hp | hp
    · rw [(emm_as_send_cell_info_eq K E msg).1 hp] at h
      cases h
      rfl
    · rw [(emm_as_send_cell_info_eq K E msg).2 hp] at h
      cases h
      rfl

/-- C14: `emm_as_send` routes `_EMMAS_DATA_IND` to `_emm_as_data_ind`,
`_EMMAS_ESTABLISH_REQ` to `_emm_as_establish_req`, `_EMMAS_CELL_INFO_RES` to
`_emm_as_cell_info_res` and `_EMMAS_CELL_INFO_IND` to `_emm_as_cell_info_ind`,
and the trace of such a call holds no event of the send pipeline; it routes
every other primitive to `_emm_as_send`, and the trace of such a call holds
no event of the receive pipeline and no status report.  A status report is
addressed to `data.ueid` for a data indication and to `establish.ueid` for an
establish request. -/
theorem send_routes_by_primitive (K : Codes) (E : Env) (msg : emm_as_t) :
    (msg.primitive = emm_as_primitive_t._EMMAS_DATA_IND →
      emm_as_send K E msg =
        Option.map (fun p => emm_as_send_report K E p.1 p.2 msg.u.data.ueid)
          (_emm_as_data_ind K E msg.u.data (St.init K.EMM_CAUSE_SUCCESS)) ∧
      ∀ r t, emm_as_send K E msg = some (r, t) →
        events_of_kind EventKind.send t = [] ∧
        ∀ q ∈ status_reports t, q.1 = msg.u.data.ueid) ∧
    (msg.primitive = emm_as_primitive_t._EMMAS_ESTABLISH_REQ →
      emm_as_send K E msg =
        Option.map (fun p => emm_as_send_report K E p.1 p.2 msg.u.establish.ueid)
          (_emm_as_establish_req K E msg.u.establish (St.init K.EMM_CAUSE_SUCCESS)) ∧
      ∀ r t, emm_as_send K E msg = some (r, t) →
        events_of_kind EventKind.send t = [] ∧
        ∀ q ∈ status_reports t, q.1 = msg.u.establish.ueid) ∧
    (msg.primitive = emm_as_primitive_t._EMMAS_CELL_INFO_RES →
      emm_as_send K E msg = some (_emm_as_cell_info_res K msg.u.cell_info, [])) ∧
    (msg.primitive = emm_as_primitive_t._EMMAS_CELL_INFO_IND →
      emm_as_send K E msg = some (_emm_as_cell_info_ind K msg.u.cell_info, [])) ∧
    (msg.primitive ≠ emm_as_primitive_t._EMMAS_DATA_IND →
      msg.primitive ≠ emm_as_primitive_t._EMMAS_ESTABLISH_REQ →
      msg.primitive ≠ emm_as_primitive_t._EMMAS_CELL_INFO_RES →
      msg.primitive ≠ emm_as_primitive_t._EMMAS_CELL_INFO_IND →
      emm_as_send K E msg =
        Option.map (fun p => (if p.1 ≠ K.RETURNok then K.RETURNerror else p.1, p.2))
          (_emm_as_send K E msg []) ∧
      ∀ r t, emm_as_send K E msg = some (r, t) →
        events_of_kind EventKind.receive t = [] ∧ status_reports t = []) := by
  refine ⟨?_, ?_, ?_, ?_, ?_⟩
  · intro hp
    refine ⟨emm_as_send_data_ind_eq K E msg hp, ?_⟩
    intro r t h
    exact (emm_as_send_receive_side K E msg r t h).1 hp
  · intro hp
    refine ⟨emm_as_send_establish_req_eq K E msg hp, ?_⟩
    intro r t h
    exact (emm_as_send_receive_side K E msg r t h).2.1 hp
  · exact (emm_as_send_cell_info_eq K E msg).1
  · exact (emm_as_send_cell_info_eq K E msg).2
  · intro h1 h2 h3 h4
    refine ⟨emm_as_send_default_eq K E msg h1 h2 h3 h4, ?_⟩
    intro r t h
    refine ⟨?_, (emm_as_send_status_reports K E msg r t h).2 h1 h2⟩
    rw [emm_as_send_default_eq K E msg h1 h2 h3 h4] at h
    cases hrun : _emm_as_send K E msg [] with
    | none => rw [hrun] at h; cases h
    | some p =>
      obtain ⟨rc, t1⟩ := p
      rw [hrun] at h
      cases h
      exact (send_frame K E msg _ _ _ hrun).2

/-- Witness of C14: the data indication `sampleDataInd` is routed to
`_emm_as_data_ind` with the subscriber 3 for the report, and the paging
indication `samplePageInd` to `_emm_as_send`. -/
theorem send_routes_by_primitive_witness :
    emm_as_send sampleCodes sampleEnv sampleDataInd =
      Option.map (fun p => emm_as_send_report sampleCodes sampleEnv p.1 p.2 3)
        (_emm_as_data_ind sampleCodes sampleEnv sampleData (St.init (-1))) ∧
    emm_as_send sampleCodes sampleEnv samplePageInd =
      Option.map (fun p => (if p.1 ≠ 0 then -1 else p.1, p.2))
        (_emm_as_send sampleCodes sampleEnv samplePageInd []) :=
  ⟨((send_routes_by_primitive sampleCodes sampleEnv sampleDataInd).1 rfl).1,
    ((send_routes_by_primitive sampleCodes sampleEnv samplePageInd).2.2.2.2
      (by decide) (by decide) (by decide) (by decide)).1⟩

/-! ## Shape of `_emm_as_establish_req` on a decoded message -/

/-- Shape of `_emm_as_establish_req` on a message whose decoder result is not
negative, the decoder codes `TLV_DECODE_FATAL_ERROR` and
`TLV_DECODE_UNEXPECTED_IEI` being error codes: nothing is stored through
`emm_cause` before the switch. -/
theorem establish_req_decoded_eq (K : Codes) (E : Env) (msg : emm_as_establish_t) (s : St)
    (hrc : 0 ≤ (establish_req_decode E msg).rc) (hfatal : K.TLV_DECODE_FATAL_ERROR ≤ 0)
    (hiei : K.TLV_DECODE_UNEXPECTED_IEI < 0) :
    _emm_as_establish_req K E msg s =
      match (establish_req_decode E msg).nas_msg.plain.emm.header.message_type with
      | emm_message_type.ATTACH_REQUEST =>
        some (call_emm_recv E emm_recv_handler.emm_recv_attach_request msg.ueid
          (establish_req_decode E msg).nas_msg.plain.emm
          (establish_req_decode E msg).decode_status (establish_req_decoded_state E msg s))
      | emm_message_type.DETACH_REQUEST =>
        match detach_check_violated (establish_req_decode E msg).decode_status
            (lookup_security E msg.ueid) with
        | none => none
        | some true =>
          some ((establish_req_decode E msg).rc,
            (establish_req_decoded_state E msg s).set_emm_cause K.EMM_CAUSE_PROTOCOL_ERROR)
        | some false =>
          some (K.RETURNok, (establish_req_decoded_state E msg s).set_emm_cause
            K.EMM_CAUSE_MESSAGE_TYPE_NOT_IMPLEMENTED)
      | emm_message_type.TRACKING_AREA_UPDATE_REQUEST =>
        some ((E.emm_recv_tracking_area_update_request msg.ueid
            (establish_req_decode E msg).nas_msg.plain.emm s.emm_cause).rc,
          { emm_cause := (E.emm_recv_tracking_area_update_request msg.ueid
              (establish_req_decode E msg).nas_msg.plain.emm s.emm_cause).emm_cause,
            trace := (establish_req_decoded_state E msg s).trace ++
              [Event.emm_recv emm_recv_handler.emm_recv_tracking_area_update_request
                msg.ueid] })
      | emm_message_type.SERVICE_REQUEST =>
        if integrity_check_violated (establish_req_decode E msg).decode_status then
          some ((establish_req_decode E msg).rc,
            (establish_req_decoded_state E msg s).set_emm_cause K.EMM_CAUSE_PROTOCOL_ERROR)
        else
          some (K.RETURNok, (establish_req_decoded_state E msg s).set_emm_cause
            K.EMM_CAUSE_MESSAGE_TYPE_NOT_IMPLEMENTED)
      | emm_message_type.EXTENDED_SERVICE_REQUEST =>
        if integrity_check_violated (establish_req_decode E msg).decode_status then
          some ((establish_req_decode E msg).rc,
            (establish_req_decoded_state E msg s).set_emm_cause K.EMM_CAUSE_PROTOCOL_ERROR)
        else
          some (K.RETURNok, (establish_req_decoded_state E msg s).set_emm_cause
            K.EMM_CAUSE_MESSAGE_TYPE_NOT_IMPLEMENTED)
      | _ =>
        some (K.RETURNerror, (establish_req_decoded_state E msg s).set_emm_cause
          K.EMM_CAUSE_MESSAGE_TYPE_NOT_COMPATIBLE) := by
  unfold establish_req_decode at hrc ⊢
  have h1 : ¬ (E.nas_message_decode msg.NASmsg.value (int_of_uint32 msg.NASmsg.length)
      (lookup_security E msg.ueid) nas_message_decode_status_t.zero).rc <
      K.TLV_DECODE_FATAL_ERROR := by omega
  have h2 : ¬ (E.nas_message_decode msg.NASmsg.value (int_of_uint32 msg.NASmsg.length)
      (lookup_security E msg.ueid) nas_message_decode_status_t.zero).rc =
      K.TLV_DECODE_UNEXPECTED_IEI := by omega
  have h3 : ¬ (E.nas_message_decode msg.NASmsg.value (int_of_uint32 msg.NASmsg.length)
      (lookup_security E msg.ueid) nas_message_decode_status_t.zero).rc < 0 := by omega
  unfold _emm_as_establish_req establish_req_decoded_state
  simp only [h1, h2, h3, if_false]
  rfl

/-! ## Message types without a handler -/

/-- C21: a successfully decoded message (decoder result not negative) whose
type is outside the recognised set of its entry point is answered with
`EMM_CAUSE_MESSAGE_TYPE_NOT_COMPATIBLE`: in `_emm_as_recv` for every type
that is none of the twelve of its switch, and in `_emm_as_establish_req`
(the decoder codes `TLV_DECODE_FATAL_ERROR` and `TLV_DECODE_UNEXPECTED_IEI`
being error codes) for every type that is none of the five of its switch,
the function returns `RETURNerror`, the cause is
`EMM_CAUSE_MESSAGE_TYPE_NOT_COMPATIBLE` (its only store) and no handler is
called. -/
theorem unrecognised_type_not_compatible (K : Codes) (E : Env) :
    (∀ (ueid : Nat) (msg : Bytes) (len : Int)
        (decode_status : Option nas_message_decode_status_t) (emm_cause : Int),
      0 ≤ (recv_decode E ueid msg len decode_status).rc →
      (recv_decode E ueid msg len decode_status).nas_msg.plain.emm.header.message_type ∉
        recv_recognised_types →
      ∃ s, _emm_as_recv K E ueid msg len decode_status (St.init emm_cause) =
          some (K.RETURNerror, s) ∧
        s.emm_cause = K.EMM_CAUSE_MESSAGE_TYPE_NOT_COMPATIBLE ∧
        cause_stores s.trace = [K.EMM_CAUSE_MESSAGE_TYPE_NOT_COMPATIBLE] ∧
        handler_calls s.trace = []) ∧
    (∀ (msg : emm_as_establish_t) (emm_cause : Int),
      0 ≤ (establish_req_decode E msg).rc →
      K.TLV_DECODE_FATAL_ERROR ≤ 0 → K.TLV_DECODE_UNEXPECTED_IEI < 0 →
      (establish_req_decode E msg).nas_msg.plain.emm.header.message_type ∉
        establish_req_recognised_types →
      ∃ s, _emm_as_establish_req K E msg (St.init emm_cause) = some (K.RETURNerror, s) ∧
        s.emm_cause = K.EMM_CAUSE_MESSAGE_TYPE_NOT_COMPATIBLE ∧
        cause_stores s.trace = [K.EMM_CAUSE_MESSAGE_TYPE_NOT_COMPATIBLE] ∧
        handler_calls s.trace = []) := by
  refine ⟨?_, ?_⟩
  · intro ueid msg len decode_status emm_cause hrc hty
    unfold recv_decode at hrc hty
    unfold _emm_as_recv
    simp only [not_lt.mpr hrc, if_false]
    cases hm : (E.nas_message_decode msg len (lookup_security E ueid)
        (decode_status.getD nas_message_decode_status_t.zero)).nas_msg.plain.emm.header.message_type
    all_goals first
      | (exfalso
         apply hty
         rw [hm]
         decide)
      | (refine ⟨_, rfl, ?_⟩
         simp [St.init, St.log, St.set_emm_cause, cause_stores, handler_calls])
  · intro msg emm_cause hrc hfatal hiei hty
    rw [establish_req_decoded_eq K E msg _ hrc hfatal hiei]
    cases hm : (establish_req_decode E msg).nas_msg.plain.emm.header.message_type
    all_goals first
      | (exfalso
         apply hty
         rw [hm]
         decide)
      | (refine ⟨_, rfl, ?_⟩
         simp [establish_req_decoded_state, St.init, St.log, St.set_emm_cause, cause_stores,
           handler_calls])

/-- Witness of C21: a `SERVICE_REQUEST` in a data transfer, and an
`IDENTITY_RESPONSE` in an establish request, are answered with the cause 98,
message type not compatible, and the result -1. -/
theorem unrecognised_type_not_compatible_witness :
    (∃ s, _emm_as_recv sampleCodes
        (sampleEnvDecoding 0 emm_message_type.SERVICE_REQUEST statusProtected) 3 [7, 77] 2
        none (St.init (-1)) = some (-1, s) ∧
      s.emm_cause = 98 ∧ cause_stores s.trace = [98] ∧ handler_calls s.trace = []) ∧
    (∃ s, _emm_as_establish_req sampleCodes
        (sampleEnvDecoding 0 emm_message_type.IDENTITY_RESPONSE statusProtected)
        sampleEstablishReq.u.establish (St.init (-1)) = some (-1, s) ∧
      s.emm_cause = 98 ∧ cause_stores s.trace = [98] ∧ handler_calls s.trace = []) :=
  ⟨(unrecognised_type_not_compatible sampleCodes
      (sampleEnvDecoding 0 emm_message_type.SERVICE_REQUEST statusProtected)).1 3 [7, 77] 2
      none (-1) (by decide) (by decide),
    (unrecognised_type_not_compatible sampleCodes
      (sampleEnvDecoding 0 emm_message_type.IDENTITY_RESPONSE statusProtected)).2
      sampleEstablishReq.u.establish (-1) (by decide) (by decide) (by decide) (by decide)⟩

/-! ## Accepted messages of `_emm_as_recv` -/

/-- C22, as stated, fails: a `TRACKING_AREA_UPDATE_COMPLETE` that decodes
with result 0 and passes the integrity test (context available, integrity
protected, MAC matched) is forwarded to no handler; `_emm_as_recv` returns
-1, the `RETURNerror` of `sampleCodes`, with the cause unchanged. -/
theorem recv_todo_type_counterexample :
    recv_security_check_passes
      (recv_decode
        (sampleEnvDecoding 0 emm_message_type.TRACKING_AREA_UPDATE_COMPLETE statusProtected)
        3 [7, 73] 2 none) (some sampleContext) ∧
    _emm_as_recv sampleCodes
        (sampleEnvDecoding 0 emm_message_type.TRACKING_AREA_UPDATE_COMPLETE statusProtected)
        3 [7, 73] 2 none (St.init (-1)) =
      some (-1, { emm_cause := -1,
                  trace := [Event.nas_message_decode [7, 73] 2 (some sampleContext)] }) := by
  refine ⟨?_, by decide⟩
  unfold recv_security_check_passes
  decide

/-- C22, amended: in `_emm_as_recv`, a successfully decoded message of one of
the twelve recognised types that passes the mandatory-security check of its
type is forwarded to the handler of its type, when it has one: for
`EMM_STATUS`, `ATTACH_REQUEST`, `IDENTITY_RESPONSE`,
`AUTHENTICATION_RESPONSE`, `AUTHENTICATION_FAILURE`,
`SECURITY_MODE_COMPLETE`, `SECURITY_MODE_REJECT`, `ATTACH_COMPLETE` and
`DETACH_REQUEST` that handler is the one handler call, and its result code
and cause are handed back.  `TRACKING_AREA_UPDATE_COMPLETE`,
`GUTI_REALLOCATION_COMPLETE` and `UPLINK_NAS_TRANSPORT` have no handler: the
function returns `RETURNerror`, calls no handler and leaves the cause
unchanged. -/
theorem recv_accepted_forwarded (K : Codes) (E : Env) (ueid : Nat) (msg : Bytes) (len : Int)
    (decode_status : Option nas_message_decode_status_t) (emm_cause : Int)
    (hrc : 0 ≤ (recv_decode E ueid msg len decode_status).rc)
    (hty : (recv_decode E ueid msg len decode_status).nas_msg.plain.emm.header.message_type ∈
      recv_recognised_types)
    (hpass : recv_security_check_passes (recv_decode E ueid msg len decode_status)
      (lookup_security E ueid)) :
    (∀ h, recv_handler
        (recv_decode E ueid msg len decode_status).nas_msg.plain.emm.header.message_type =
          some h →
      ∃ s, _emm_as_recv K E ueid msg len decode_status (St.init emm_cause) =
          some ((E.emm_recv h ueid (recv_decode E ueid msg len decode_status).nas_msg.plain.emm
            emm_cause (recv_decode E ueid msg len decode_status).decode_status).rc, s) ∧
        handler_calls s.trace = [(h, ueid)] ∧
        cause_stores s.trace = [] ∧
        s.emm_cause = (E.emm_recv h ueid
          (recv_decode E ueid msg len decode_status).nas_msg.plain.emm emm_cause
          (recv_decode E ueid msg len decode_status).decode_status).emm_cause) ∧
    ((recv_decode E ueid msg len decode_status).nas_msg.plain.emm.header.message_type ∈
        [emm_message_type.TRACKING_AREA_UPDATE_COMPLETE,
          emm_message_type.GUTI_REALLOCATION_COMPLETE, emm_message_type.UPLINK_NAS_TRANSPORT] →
      ∃ s, _emm_as_recv K E ueid msg len decode_status (St.init emm_cause) =
          some (K.RETURNerror, s) ∧
        handler_calls s.trace = [] ∧ cause_stores s.trace = [] ∧ s.emm_cause = emm_cause) ∧
    (recv_handler
        (recv_decode E ueid msg len decode_status).nas_msg.plain.emm.header.message_type =
          none ↔
      (recv_decode E ueid msg len decode_status).nas_msg.plain.emm.header.message_type ∈
        [emm_message_type.TRACKING_AREA_UPDATE_COMPLETE,
          emm_message_type.GUTI_REALLOCATION_COMPLETE,
          emm_message_type.UPLINK_NAS_TRANSPORT]) := by
  unfold recv_decode at hrc hty hpass ⊢
  unfold _emm_as_recv
  simp only [not_lt.mpr hrc, if_false]
  generalize E.nas_message_decode msg len (lookup_security E ueid)
    (decode_status.getD nas_message_decode_status_t.zero) = d at hty hpass ⊢
  obtain ⟨hint, hdet⟩ := hpass
  cases hm : d.nas_msg.plain.emm.header.message_type
  all_goals first
    | (exfalso
       rw [hm] at hty
       simp [recv_recognised_types] at hty
       done)
    | skip
  all_goals simp only [hm] at hint hdet
  all_goals simp only [List.mem_cons, List.mem_singleton, List.not_mem_nil, or_false,
    or_true, true_or, true_implies, false_implies, reduceCtorEq, or_self] at hint hdet
  all_goals try simp only [hint, hdet, if_false]
  all_goals refine ⟨?_, ?_, ?_⟩
  all_goals simp [recv_handler, call_emm_recv, St.init, St.log, cause_stores, handler_calls]

/-- Witness of the amended C22: an `ATTACH_COMPLETE` that passes the integrity
test goes to `emm_recv_attach_complete`, whose result 0 and cause 42 are
handed back. -/
theorem recv_accepted_forwarded_witness :
    ∃ s, _emm_as_recv sampleCodes
        (sampleEnvDecoding 0 emm_message_type.ATTACH_COMPLETE statusProtected) 3 [7, 67] 2
        none (St.init (-1)) = some (0, s) ∧
      handler_calls s.trace = [(emm_recv_handler.emm_recv_attach_complete, 3)] ∧
      cause_stores s.trace = [] ∧ s.emm_cause = 42 :=
  (recv_accepted_forwarded sampleCodes
    (sampleEnvDecoding 0 emm_message_type.ATTACH_COMPLETE statusProtected) 3 [7, 67] 2 none
    (-1) (by decide) (by decide) (by unfold recv_security_check_passes; decide)).1
    emm_recv_handler.emm_recv_attach_complete rfl

/-! ## Initial messages of `_emm_as_establish_req` -/

/-- C23: in `_emm_as_establish_req`, a successfully decoded `DETACH_REQUEST`,
`SERVICE_REQUEST` or `EXTENDED_SERVICE_REQUEST` (decoder result not negative,
the decoder codes `TLV_DECODE_FATAL_ERROR` and `TLV_DECODE_UNEXPECTED_IEI`
being error codes) that passes the security check of its type is stubbed:
the function returns `RETURNok`, the cause is
`EMM_CAUSE_MESSAGE_TYPE_NOT_IMPLEMENTED` (its only store) and no handler is
called. -/
theorem establish_req_stubbed_not_implemented (K : Codes) (E : Env)
    (msg : emm_as_establish_t) (emm_cause : Int)
    (hrc : 0 ≤ (establish_req_decode E msg).rc) (hfatal : K.TLV_DECODE_FATAL_ERROR ≤ 0)
    (hiei : K.TLV_DECODE_UNEXPECTED_IEI < 0)
    (hty : (establish_req_decode E msg).nas_msg.plain.emm.header.message_type ∈
      establish_req_stubbed_types)
    (hpass : establish_req_security_check_passes (establish_req_decode E msg)
      (lookup_security E msg.ueid)) :
    ∃ s, _emm_as_establish_req K E msg (St.init emm_cause) = some (K.RETURNok, s) ∧
      s.emm_cause = K.EMM_CAUSE_MESSAGE_TYPE_NOT_IMPLEMENTED ∧
      cause_stores s.trace = [K.EMM_CAUSE_MESSAGE_TYPE_NOT_IMPLEMENTED] ∧
      handler_calls s.trace = [] := by
  rw [establish_req_decoded_eq K E msg _ hrc hfatal hiei]
  obtain ⟨hint, hdet⟩ := hpass
  simp only [establish_req_stubbed_types, List.mem_cons, List.mem_singleton, List.not_mem_nil,
    or_false] at hty
  rcases hty with hm | hm | hm
  · simp only [hm, hdet hm]
    refine ⟨_, rfl, ?_⟩
    simp [establish_req_decoded_state, St.init, St.log, St.set_emm_cause, cause_stores,
      handler_calls]
  · have hv := hint (by rw [hm]; decide)
    simp only [hm, hv, if_false]
    refine ⟨_, rfl, ?_⟩
    simp [establish_req_decoded_state, St.init, St.log, St.set_emm_cause, cause_stores,
      handler_calls]
  · have hv := hint (by rw [hm]; decide)
    simp only [hm, hv, if_false]
    refine ⟨_, rfl, ?_⟩
    simp [establish_req_decoded_state, St.init, St.log, St.set_emm_cause, cause_stores,
      handler_calls]

/-- Witness of C23: a `SERVICE_REQUEST` that passes the integrity test is
answered with the result 0 and the cause 97, message type not implemented. -/
theorem establish_req_stubbed_not_implemented_witness :
    ∃ s, _emm_as_establish_req sampleCodes
        (sampleEnvDecoding 0 emm_message_type.SERVICE_REQUEST statusProtected)
        sampleEstablishReq.u.establish (St.init (-1)) = some (0, s) ∧
      s.emm_cause = 97 ∧ cause_stores s.trace = [97] ∧ handler_calls s.trace = [] :=
  establish_req_stubbed_not_implemented sampleCodes
    (sampleEnvDecoding 0 emm_message_type.SERVICE_REQUEST statusProtected)
    sampleEstablishReq.u.establish (-1) (by decide) (by decide) (by decide) (by decide)
    (by unfold establish_req_security_check_passes; decide)

/-- C24, as stated, fails: a `SERVICE_REQUEST` that decodes with result 0 but
is not integrity protected is answered with the cause 111, protocol error,
not with 97, message type not implemented: the integrity test of its case is
applied before the stub. -/
theorem establish_req_stub_unconditional_counterexample :
    _emm_as_establish_req sampleCodes
        (sampleEnvDecoding 0 emm_message_type.SERVICE_REQUEST statusUnprotected)
        sampleEstablishReq.u.establish (St.init (-1)) =
      some (0, { emm_cause := 111,
                 trace := [Event.nas_message_decode [7, 69] 2 (some sampleContext),
                   Event.set_emm_cause 111] }) ∧
    sampleCodes.EMM_CAUSE_MESSAGE_TYPE_NOT_IMPLEMENTED = 97 := by
  decide

/-- C24, amended: in `_emm_as_establish_req` the stubbed initial message
types are answered with `EMM_CAUSE_MESSAGE_TYPE_NOT_IMPLEMENTED` only after
the mandatory-security check of their type.  For a successfully decoded
`DETACH_REQUEST`, `SERVICE_REQUEST` or `EXTENDED_SERVICE_REQUEST` (decoder
result not negative, the decoder codes `TLV_DECODE_FATAL_ERROR` and
`TLV_DECODE_UNEXPECTED_IEI` being error codes): a message that its check
rejects is answered with `EMM_CAUSE_PROTOCOL_ERROR` (the only store) and the
decoder result is returned; a message that passes its check is answered with
`EMM_CAUSE_MESSAGE_TYPE_NOT_IMPLEMENTED` and `RETURNok`; no handler is called
in either case.  The check of a `SERVICE_REQUEST` or an
`EXTENDED_SERVICE_REQUEST` is the integrity test, so for these two types the
answer is `EMM_CAUSE_MESSAGE_TYPE_NOT_IMPLEMENTED` exactly when the test is not
violated, the two causes being distinct. -/
theorem establish_req_stub_after_check (K : Codes) (E : Env)
    (msg : emm_as_establish_t) (emm_cause : Int)
    (hrc : 0 ≤ (establish_req_decode E msg).rc) (hfatal : K.TLV_DECODE_FATAL_ERROR ≤ 0)
    (hiei : K.TLV_DECODE_UNEXPECTED_IEI < 0)
    (hty : (establish_req_decode E msg).nas_msg.plain.emm.header.message_type ∈
      establish_req_stubbed_types) :
    (establish_req_security_check_rejects (establish_req_decode E msg)
        (lookup_security E msg.ueid) →
      ∃ s, _emm_as_establish_req K E msg (St.init emm_cause) =
          some ((establish_req_decode E msg).rc, s) ∧
        s.emm_cause = K.EMM_CAUSE_PROTOCOL_ERROR ∧
        cause_stores s.trace = [K.EMM_CAUSE_PROTOCOL_ERROR] ∧
        handler_calls s.trace = []) ∧
    (establish_req_security_check_passes (establish_req_decode E msg)
        (lookup_security E msg.ueid) →
      ∃ s, _emm_as_establish_req K E msg (St.init emm_cause) = some (K.RETURNok, s) ∧
        s.emm_cause = K.EMM_CAUSE_MESSAGE_TYPE_NOT_IMPLEMENTED ∧
        cause_stores s.trace = [K.EMM_CAUSE_MESSAGE_TYPE_NOT_IMPLEMENTED] ∧
        handler_calls s.trace = []) ∧
    ((establish_req_decode E msg).nas_msg.plain.emm.header.message_type ∈
        [emm_message_type.SERVICE_REQUEST, emm_message_type.EXTENDED_SERVICE_REQUEST] →
      K.EMM_CAUSE_MESSAGE_TYPE_NOT_IMPLEMENTED ≠ K.EMM_CAUSE_PROTOCOL_ERROR →
      ∃ rc s, _emm_as_establish_req K E msg (St.init emm_cause) = some (rc, s) ∧
        (s.emm_cause = K.EMM_CAUSE_MESSAGE_TYPE_NOT_IMPLEMENTED ↔
          ¬ integrity_check_violated (establish_req_decode E msg).decode_status)) := by
  rw [establish_req_decoded_eq K E msg _ hrc hfatal hiei]
  simp only [establish_req_stubbed_types, List.mem_cons, List.mem_singleton, List.not_mem_nil,
    or_false] at hty
  refine ⟨?_, ?_, ?_⟩
  · intro hrej
    rcases hrej with ⟨hm, hviol⟩ | ⟨hm, hdet⟩
    · simp only [List.mem_cons, List.mem_singleton, List.not_mem_nil, or_false] at hm
      rcases hm with hm | hm <;> simp only [hm, hviol, if_true] <;> refine ⟨_, rfl, ?_⟩ <;>
        simp [establish_req_decoded_state, St.init, St.log, St.set_emm_cause, cause_stores,
          handler_calls]
    · simp only [hm, hdet]
      refine ⟨_, rfl, ?_⟩
      simp [establish_req_decoded_state, St.init, St.log, St.set_emm_cause, cause_stores,
        handler_calls]
  · intro hpass
    obtain ⟨hint, hdet⟩ := hpass
    rcases hty with hm | hm | hm
    · simp only [hm, hdet hm]
      refine ⟨_, rfl, ?_⟩
      simp [establish_req_decoded_state, St.init, St.log, St.set_emm_cause, cause_stores,
        handler_calls]
    · have hv := hint (by rw [hm]; decide)
      simp only [hm, hv, if_false]
      refine ⟨_, rfl, ?_⟩
      simp [establish_req_decoded_state, St.init, St.log, St.set_emm_cause, cause_stores,
        handler_calls]
    · have hv := hint (by rw [hm]; decide)
      simp only [hm, hv, if_false]
      refine ⟨_, rfl, ?_⟩
      simp [establish_req_decoded_state, St.init, St.log, St.set_emm_cause, cause_stores,
        handler_calls]
  · intro hm hne
    simp only [List.mem_cons, List.mem_singleton, List.not_mem_nil, or_false] at hm
    by_cases hviol : integrity_check_violated (establish_req_decode E msg).decode_status
    · rcases hm with hm | hm <;> simp only [hm, hviol, if_true] <;>
        refine ⟨_, _, rfl, ?_⟩ <;>
        simp [St.set_emm_cause, hne.symm]
    · rcases hm with hm | hm <;> simp only [hm, hviol, if_false] <;>
        refine ⟨_, _, rfl, ?_⟩ <;>
        simp [St.set_emm_cause]

/-- Witness of the amended C24: a `SERVICE_REQUEST` that is not integrity
protected is rejected by its check and answered with the cause 111. -/
theorem establish_req_stub_after_check_witness :
    ∃ s, _emm_as_establish_req sampleCodes
        (sampleEnvDecoding 0 emm_message_type.SERVICE_REQUEST statusUnprotected)
        sampleEstablishReq.u.establish (St.init (-1)) = some (0, s) ∧
      s.emm_cause = 111 ∧ cause_stores s.trace = [111] ∧ handler_calls s.trace = [] :=
  (establish_req_stub_after_check sampleCodes
    (sampleEnvDecoding 0 emm_message_type.SERVICE_REQUEST statusUnprotected)
    sampleEstablishReq.u.establish (-1) (by decide) (by decide) (by decide) (by decide)).1
    (Or.inl ⟨by decide, by decide⟩)

/-- The reporting part of `emm_as_send` adds no handler call. -/
theorem send_report_handler_calls (K : Codes) (E : Env) (rc : Int) (s : St) (ueid : Nat) :
    handler_calls (emm_as_send_report K E rc s ueid).2 = handler_calls s.trace := by
  unfold emm_as_send_report
  split_ifs <;> simp [handler_calls, List.filterMap_append]

/-- C25: for every establish request whose NAS message decodes successfully
(decoder result not negative, the decoder codes `TLV_DECODE_FATAL_ERROR` and
`TLV_DECODE_UNEXPECTED_IEI` being error codes) as an `ATTACH_REQUEST`,
whatever the collaborators answer for the subscriber's context and whatever
the decode status is: `emm_as_send` returns, and
`emm_recv_attach_request` is called exactly once, with the `ueid` of the
primitive, and is the only handler call; if it returns `RETURNok` and leaves
the cause at `EMM_CAUSE_SUCCESS`, `emm_as_send` returns `RETURNok` and its
trace holds no status report. -/
theorem establish_req_attach_request_forwarded (K : Codes) (E : Env) (msg : emm_as_t)
    (hp : msg.primitive = emm_as_primitive_t._EMMAS_ESTABLISH_REQ)
    (hrc : 0 ≤ (establish_req_decode E msg.u.establish).rc)
    (hfatal : K.TLV_DECODE_FATAL_ERROR ≤ 0) (hiei : K.TLV_DECODE_UNEXPECTED_IEI < 0)
    (hty : (establish_req_decode E msg.u.establish).nas_msg.plain.emm.header.message_type =
      emm_message_type.ATTACH_REQUEST) :
    ∃ r t, emm_as_send K E msg = some (r, t) ∧
      handler_calls t = [(emm_recv_handler.emm_recv_attach_request, msg.u.establish.ueid)] ∧
      ((E.emm_recv emm_recv_handler.emm_recv_attach_request msg.u.establish.ueid
          (establish_req_decode E msg.u.establish).nas_msg.plain.emm K.EMM_CAUSE_SUCCESS
          (establish_req_decode E msg.u.establish).decode_status).rc = K.RETURNok →
        (E.emm_recv emm_recv_handler.emm_recv_attach_request msg.u.establish.ueid
          (establish_req_decode E msg.u.establish).nas_msg.plain.emm K.EMM_CAUSE_SUCCESS
          (establish_req_decode E msg.u.establish).decode_status).emm_cause =
            K.EMM_CAUSE_SUCCESS →
        r = K.RETURNok ∧ status_reports t = []) := by
  have hrun : _emm_as_establish_req K E msg.u.establish (St.init K.EMM_CAUSE_SUCCESS) =
      some (call_emm_recv E emm_recv_handler.emm_recv_attach_request msg.u.establish.ueid
        (establish_req_decode E msg.u.establish).nas_msg.plain.emm
        (establish_req_decode E msg.u.establish).decode_status
        (establish_req_decoded_state E msg.u.establish (St.init K.EMM_CAUSE_SUCCESS))) := by
    rw [establish_req_decoded_eq K E msg.u.establish _ hrc hfatal hiei]
    simp only [hty]
  rw [emm_as_send_establish_req_eq K E msg hp, hrun]
  refine ⟨(emm_as_send_report K E _ _ msg.u.establish.ueid).1,
    (emm_as_send_report K E _ _ msg.u.establish.ueid).2, rfl, ?_, ?_⟩
  · rw [send_report_handler_calls]
    simp [call_emm_recv, establish_req_decoded_state, St.init, St.log, handler_calls]
  · intro hok hcause
    rw [send_report_result, send_report_status_reports]
    have hc : (call_emm_recv E emm_recv_handler.emm_recv_attach_request msg.u.establish.ueid
        (establish_req_decode E msg.u.establish).nas_msg.plain.emm
        (establish_req_decode E msg.u.establish).decode_status
        (establish_req_decoded_state E msg.u.establish
          (St.init K.EMM_CAUSE_SUCCESS))).2.emm_cause = K.EMM_CAUSE_SUCCESS := hcause
    have hr : (call_emm_recv E emm_recv_handler.emm_recv_attach_request msg.u.establish.ueid
        (establish_req_decode E msg.u.establish).nas_msg.plain.emm
        (establish_req_decode E msg.u.establish).decode_status
        (establish_req_decoded_state E msg.u.establish
          (St.init K.EMM_CAUSE_SUCCESS))).1 = K.RETURNok := hok
    simp only [hc, hr, ne_eq, not_true_eq_false, false_and, if_false, List.append_nil]
    refine ⟨trivial, ?_⟩
    simp [call_emm_recv, establish_req_decoded_state, St.init, St.log, status_reports]

/-- Witness of C25: an `ATTACH_REQUEST` of subscriber 4, who has no context,
that is not integrity protected: the handler is called once, and as it
returns 0 and leaves the cause at -1, `emm_as_send` returns 0 without a
status report. -/
theorem establish_req_attach_request_forwarded_witness :
    ∃ r t, emm_as_send sampleCodes sampleEnvAttachRequest sampleEstablishReq = some (r, t) ∧
      handler_calls t = [(emm_recv_handler.emm_recv_attach_request, 4)] ∧
      r = 0 ∧ status_reports t = [] := by
  obtain ⟨r, t, hrun, hcalls, hok⟩ :=
    establish_req_attach_request_forwarded sampleCodes sampleEnvAttachRequest
      sampleEstablishReq rfl (by decide) (by decide) (by decide) (by decide)
  exact ⟨r, t, hrun, hcalls, hok (by decide) (by decide)⟩

/-! ## The send functions when the selector denies -/

/-- The selector denies on a snapshot with a valid key set identifier that is
marked new and has no integrity key. -/
theorem set_header_snapshot_denied (K : Codes) (msg : nas_message_t)
    (sctx : emm_as_security_data_t) (h : snapshot_denied K sctx) :
    (_emm_as_set_header K msg (some sctx)).2 = none := by
  obtain ⟨h1, h2, h3⟩ := h
  unfold _emm_as_set_header
  simp [h1, h2, h3]

/-- The send functions that build a payload, on a snapshot on which the
selector denies: each returns 0 and adds nothing to the trace. -/
theorem send_functions_denied (K : Codes) (E : Env) (t : List Event) :
    (∀ (m : emm_as_data_t) (as_msg : info_transfer_req_t), snapshot_denied K m.sctx →
      (_emm_as_data_req K E m as_msg t).1 = 0 ∧ (_emm_as_data_req K E m as_msg t).2.2 = t) ∧
    (∀ (m : emm_as_status_t) (as_msg : info_transfer_req_t), snapshot_denied K m.sctx →
      (_emm_as_status_ind K E m as_msg t).1 = 0 ∧
      (_emm_as_status_ind K E m as_msg t).2.2 = t) ∧
    (∀ (m : emm_as_security_t) (as_msg : info_transfer_req_t), snapshot_denied K m.sctx →
      (_emm_as_security_req K E m as_msg t).1 = 0 ∧
      (_emm_as_security_req K E m as_msg t).2.2 = t) ∧
    (∀ (m : emm_as_security_t) (as_msg : info_transfer_req_t), snapshot_denied K m.sctx →
      (_emm_as_security_rej K E m as_msg t).1 = 0 ∧
      (_emm_as_security_rej K E m as_msg t).2.2 = t) ∧
    (∀ (m : emm_as_establish_t) (as_msg : nas_establish_rsp_t), snapshot_denied K m.sctx →
      ∃ as_msg1, _emm_as_establish_cnf K E m as_msg t = some (0, as_msg1, t)) ∧
    (∀ (m : emm_as_establish_t) (as_msg : nas_establish_rsp_t), snapshot_denied K m.sctx →
      (_emm_as_establish_rej K E m as_msg t).1 = 0 ∧
      (_emm_as_establish_rej K E m as_msg t).2.2 = t) := by
  refine ⟨?_, ?_, ?_, ?_, ?_, ?_⟩
  · intro m as_msg hd
    unfold _emm_as_data_req
    simp only [set_header_snapshot_denied K _ _ hd]
    simp
  · intro m as_msg hd
    unfold _emm_as_status_ind encode_info_transfer
    simp only [set_header_snapshot_denied K _ _ hd]
    simp
  · intro m as_msg hd
    unfold _emm_as_security_req encode_info_transfer
    simp only [set_header_snapshot_denied K _ _ hd]
    simp
  · intro m as_msg hd
    unfold _emm_as_security_rej encode_info_transfer
    simp only [set_header_snapshot_denied K _ _ hd]
    simp
  · intro m as_msg hd
    unfold _emm_as_establish_cnf
    simp only [set_header_snapshot_denied K _ _ hd]
    cases m.UEid_guti <;> simp
  · intro m as_msg hd
    unfold _emm_as_establish_rej
    simp only [set_header_snapshot_denied K _ _ hd]
    simp

/-- On a snapshot on which the selector denies, `_emm_as_send` hands nothing
to the transport and returns `RETURNerror`. -/
theorem send_denied_aux (K : Codes) (E : Env) (msg : emm_as_t)
    (sctx : emm_as_security_data_t) (hs : send_snapshot msg = some sctx)
    (hd : snapshot_denied K sctx) :
    _emm_as_send K E msg [] = some (K.RETURNerror, []) := by
  obtain ⟨h1, h2, h3, h4, h5, h6⟩ := send_functions_denied K E []
  unfold send_snapshot at hs
  unfold _emm_as_send
  cases hp : msg.primitive <;> simp only [hp] at hs <;> try cases hs
  · simp [h3 msg.u.security _ hd]
  · simp [h4 msg.u.security _ hd]
  · obtain ⟨a, ha⟩ := h5 msg.u.establish as_message_t.zero.nas_establish_rsp hd
    simp [ha]
  · simp [h6 msg.u.establish _ hd]
  · simp [h1 msg.u.data _ hd]
  · simp [h2 msg.u.status _ hd]

/-- C26: for every outbound primitive handled by a send function that builds
a payload, whose security snapshot has a valid key set identifier, is marked
new and has no integrity key: the selector returns `NULL`; the send function
returns 0 and adds nothing to the trace, so that no payload builder and no
codec function is called; `_emm_as_send` hands nothing to the transport; and
`emm_as_send` returns `RETURNerror` with an empty trace, hence without a
status report. -/
theorem send_denied_snapshot (K : Codes) (E : Env) (msg : emm_as_t)
    (sctx : emm_as_security_data_t) (hs : send_snapshot msg = some sctx)
    (hd : snapshot_denied K sctx) :
    (_emm_as_set_header K nas_message_t.zero (some sctx)).2 = none ∧
    (msg.primitive = emm_as_primitive_t._EMMAS_DATA_REQ →
      ∀ as_msg t, (_emm_as_data_req K E msg.u.data as_msg t).1 = 0 ∧
        (_emm_as_data_req K E msg.u.data as_msg t).2.2 = t) ∧
    (msg.primitive = emm_as_primitive_t._EMMAS_STATUS_IND →
      ∀ as_msg t, (_emm_as_status_ind K E msg.u.status as_msg t).1 = 0 ∧
        (_emm_as_status_ind K E msg.u.status as_msg t).2.2 = t) ∧
    (msg.primitive = emm_as_primitive_t._EMMAS_SECURITY_REQ →
      ∀ as_msg t, (_emm_as_security_req K E msg.u.security as_msg t).1 = 0 ∧
        (_emm_as_security_req K E msg.u.security as_msg t).2.2 = t) ∧
    (msg.primitive = emm_as_primitive_t._EMMAS_SECURITY_REJ →
      ∀ as_msg t, (_emm_as_security_rej K E msg.u.security as_msg t).1 = 0 ∧
        (_emm_as_security_rej K E msg.u.security as_msg t).2.2 = t) ∧
    (msg.primitive = emm_as_primitive_t._EMMAS_ESTABLISH_CNF →
      ∀ as_msg t, ∃ as_msg1,
        _emm_as_establish_cnf K E msg.u.establish as_msg t = some (0, as_msg1, t)) ∧
    (msg.primitive = emm_as_primitive_t._EMMAS_ESTABLISH_REJ →
      ∀ as_msg t, (_emm_as_establish_rej K E msg.u.establish as_msg t).1 = 0 ∧
        (_emm_as_establish_rej K E msg.u.establish as_msg t).2.2 = t) ∧
    _emm_as_send K E msg [] = some (K.RETURNerror, []) ∧
    emm_as_send K E msg = some (K.RETURNerror, []) ∧
    status_reports ([] : List Event) = [] := by
  have hsend := send_denied_aux K E msg sctx hs hd
  have hprim : msg.primitive ≠ emm_as_primitive_t._EMMAS_DATA_IND ∧
      msg.primitive ≠ emm_as_primitive_t._EMMAS_ESTABLISH_REQ ∧
      msg.primitive ≠ emm_as_primitive_t._EMMAS_CELL_INFO_RES ∧
      msg.primitive ≠ emm_as_primitive_t._EMMAS_CELL_INFO_IND := by
    unfold send_snapshot at hs
    cases hp : msg.primitive <;> simp only [hp] at hs <;> (try cases hs) <;> simp
  have htop : emm_as_send K E msg = some (K.RETURNerror, []) := by
    rw [emm_as_send_default_eq K E msg hprim.1 hprim.2.1 hprim.2.2.1 hprim.2.2.2, hsend]
    simp
  unfold send_snapshot at hs
  refine ⟨set_header_snapshot_denied K _ _ hd, ?_, ?_, ?_, ?_, ?_, ?_, hsend, htop, rfl⟩
  all_goals intro hp as_msg t
  all_goals simp only [hp] at hs
  all_goals cases hs
  · exact (send_functions_denied K E t).1 _ _ hd
  · exact (send_functions_denied K E t).2.1 _ _ hd
  · exact (send_functions_denied K E t).2.2.1 _ _ hd
  · exact (send_functions_denied K E t).2.2.2.1 _ _ hd
  · exact (send_functions_denied K E t).2.2.2.2.1 _ _ hd
  · exact (send_functions_denied K E t).2.2.2.2.2 _ _ hd

/-- Witness of C26: a security request with a snapshot that is new and has no
integrity key is not sent; `emm_as_send` returns -1. -/
theorem send_denied_snapshot_witness :
    _emm_as_send sampleCodes sampleEnv sampleSecurityReqDenied [] = some (-1, []) ∧
    emm_as_send sampleCodes sampleEnv sampleSecurityReqDenied = some (-1, []) ∧
    status_reports ([] : List Event) = [] :=
  (send_denied_snapshot sampleCodes sampleEnv sampleSecurityReqDenied sampleSecurityDenied rfl
    (by unfold snapshot_denied; decide)).2.2.2.2.2.2.2

/-! ## The send functions without a payload -/

/-- The codec adapter events of a trace extended by events. -/
theorem codec_adapter_events_append (t l : List Event) :
    codec_adapter_events (t ++ l) = codec_adapter_events t ++ codec_adapter_events l := by
  simp [codec_adapter_events, List.filter_append]

/-- C27: for each send function that builds a payload and every outcome of
the header selection: if the payload size obtained (from the payload builder,
from `NASmsg.length` for data that is already encoded, or 0 when the selector
denies or no builder applies) is not positive, the function returns 0, the
trace gains no event of the codec adapter (no buffer is allocated, neither
`nas_message_encode` nor `nas_message_encrypt` is called), and the outbound
`nasMsg` is the one received. -/
theorem send_without_payload (K : Codes) (E : Env) (t : List Event) :
    (∀ (m : emm_as_data_t) (as_msg : info_transfer_req_t),
      (data_req_payload K E m t).1 ≤ 0 →
      (_emm_as_data_req K E m as_msg t).1 = 0 ∧
      (_emm_as_data_req K E m as_msg t).2.1.nasMsg = as_msg.nasMsg ∧
      codec_adapter_events (_emm_as_data_req K E m as_msg t).2.2 = codec_adapter_events t) ∧
    (∀ (m : emm_as_status_t) (as_msg : info_transfer_req_t),
      (status_ind_payload K E m t).1 ≤ 0 →
      (_emm_as_status_ind K E m as_msg t).1 = 0 ∧
      (_emm_as_status_ind K E m as_msg t).2.1.nasMsg = as_msg.nasMsg ∧
      codec_adapter_events (_emm_as_status_ind K E m as_msg t).2.2 =
        codec_adapter_events t) ∧
    (∀ (m : emm_as_security_t) (as_msg : info_transfer_req_t),
      (security_req_payload K E m t).1 ≤ 0 →
      (_emm_as_security_req K E m as_msg t).1 = 0 ∧
      (_emm_as_security_req K E m as_msg t).2.1.nasMsg = as_msg.nasMsg ∧
      codec_adapter_events (_emm_as_security_req K E m as_msg t).2.2 =
        codec_adapter_events t) ∧
    (∀ (m : emm_as_security_t) (as_msg : info_transfer_req_t),
      (security_rej_payload K E m t).1 ≤ 0 →
      (_emm_as_security_rej K E m as_msg t).1 = 0 ∧
      (_emm_as_security_rej K E m as_msg t).2.1.nasMsg = as_msg.nasMsg ∧
      codec_adapter_events (_emm_as_security_rej K E m as_msg t).2.2 =
        codec_adapter_events t) ∧
    (∀ (m : emm_as_establish_t) (as_msg : nas_establish_rsp_t),
      (establish_cnf_payload K E m t).1 ≤ 0 →
      ∃ r, _emm_as_establish_cnf K E m as_msg t = some r ∧ r.1 = 0 ∧
        r.2.1.nasMsg = as_msg.nasMsg ∧ codec_adapter_events r.2.2 = codec_adapter_events t) ∧
    (∀ (m : emm_as_establish_t) (as_msg : nas_establish_rsp_t),
      (establish_rej_payload K E m t).1 ≤ 0 →
      (_emm_as_establish_rej K E m as_msg t).1 = 0 ∧
      (_emm_as_establish_rej K E m as_msg t).2.1.nasMsg = as_msg.nasMsg ∧
      codec_adapter_events (_emm_as_establish_rej K E m as_msg t).2.2 =
        codec_adapter_events t) := by
  refine ⟨?_, ?_, ?_, ?_, ?_, ?_⟩
  · intro m as_msg hsize
    unfold data_req_payload at hsize
    unfold _emm_as_data_req
    simp only [] at hsize ⊢
    cases hh : (_emm_as_set_header K nas_message_t.zero (some m.sctx)).2 <;>
      cases hn : m.NASinfo <;> cases hg : m.guti <;>
      simp only [hh, hn, call_emm_send] at hsize ⊢ <;>
      simp [not_lt.mpr hsize, codec_adapter_events]
  · intro m as_msg hsize
    unfold status_ind_payload at hsize
    unfold _emm_as_status_ind encode_info_transfer
    simp only [] at hsize ⊢
    cases hh : (_emm_as_set_header K nas_message_t.zero (some m.sctx)).2 <;>
      cases hg : m.guti <;>
      simp only [hh, call_emm_send] at hsize ⊢ <;>
      simp [not_lt.mpr hsize, codec_adapter_events]
  · intro m as_msg hsize
    unfold security_req_payload at hsize
    unfold _emm_as_security_req encode_info_transfer
    simp only [] at hsize ⊢
    cases hh : (_emm_as_set_header K nas_message_t.zero (some m.sctx)).2 <;>
      cases hn : m.msgType <;> cases hg : m.guti <;>
      simp only [hh, hn, call_emm_send] at hsize ⊢ <;>
      simp [not_lt.mpr hsize, codec_adapter_events]
  · intro m as_msg hsize
    unfold security_rej_payload at hsize
    unfold _emm_as_security_rej encode_info_transfer
    simp only [] at hsize ⊢
    cases hh : (_emm_as_set_header K nas_message_t.zero (some m.sctx)).2 <;>
      cases hn : m.msgType <;> cases hg : m.guti <;>
      simp only [hh, hn, call_emm_send] at hsize ⊢ <;>
      simp [not_lt.mpr hsize, codec_adapter_events]
  · intro m as_msg hsize
    unfold establish_cnf_payload at hsize
    unfold _emm_as_establish_cnf
    simp only [] at hsize ⊢
    cases hg : m.UEid_guti with
    | none => simp
    | some g =>
      cases hh : (_emm_as_set_header K nas_message_t.zero (some m.sctx)).2 <;>
        cases hn : m.NASinfo <;>
        simp only [hg, hh, hn, call_emm_send] at hsize ⊢ <;>
        simp [not_lt.mpr hsize, codec_adapter_events]
  · intro m as_msg hsize
    unfold establish_rej_payload at hsize
    unfold _emm_as_establish_rej
    simp only [] at hsize ⊢
    cases hh : (_emm_as_set_header K nas_message_t.zero (some m.sctx)).2 <;>
      cases hn : m.NASinfo <;> cases hg : m.UEid_guti <;>
      simp only [hh, hn, call_emm_send] at hsize ⊢ <;>
      simp [not_lt.mpr hsize, codec_adapter_events]

/-- Witness of C27: the status indication of `sampleU` passes the header
selection, but `emm_send_status` reports the size 0: the function returns 0,
allocates nothing and leaves `nasMsg` as it is. -/
theorem send_without_payload_witness :
    (_emm_as_status_ind sampleCodes sampleEnv sampleU.status
        as_message_t.zero.info_transfer_req []).1 = 0 ∧
    (_emm_as_status_ind sampleCodes sampleEnv sampleU.status
        as_message_t.zero.info_transfer_req []).2.1.nasMsg =
      as_message_t.zero.info_transfer_req.nasMsg ∧
    codec_adapter_events (_emm_as_status_ind sampleCodes sampleEnv sampleU.status
        as_message_t.zero.info_transfer_req []).2.2 = codec_adapter_events [] :=
  (send_without_payload sampleCodes sampleEnv []).2.1 sampleU.status
    as_message_t.zero.info_transfer_req (by decide)

/-! ## The identifier returned by the send functions -/

/-- The codec results of a trace extended by events. -/
theorem codec_results_append (E : Env) (t l : List Event) :
    codec_results E (t ++ l) = codec_results E t ++ codec_results E l := by
  simp [codec_results, List.filterMap_append]

/-- A positive codec result in a trace extended by events. -/
theorem codec_positive_append (E : Env) (t l : List Event) :
    codec_positive E (t ++ l) ↔ codec_positive E t ∨ codec_positive E l := by
  unfold codec_positive
  rw [codec_results_append]
  simp only [List.mem_append]
  constructor
  · rintro ⟨b, hb | hb, hpos⟩
    · exact Or.inl ⟨b, hb, hpos⟩
    · exact Or.inr ⟨b, hb, hpos⟩
  · rintro (⟨b, hb, hpos⟩ | ⟨b, hb, hpos⟩)
    · exact ⟨b, Or.inl hb, hpos⟩
    · exact ⟨b, Or.inr hb, hpos⟩

/-- The byte count of `_emm_as_encode` is positive exactly when its call of
`nas_message_encode` returns a positive byte count. -/
theorem encode_codec_positive (K : Codes) (E : Env) (info : as_nas_info_t)
    (msg : nas_message_t) (length : Int) (ctx : Option emm_security_context_t)
    (t : List Event) :
    codec_positive E (_emm_as_encode K E info msg length ctx t).2.2.2 ↔
      codec_positive E t ∨ 0 < (_emm_as_encode K E info msg length ctx t).1 := by
  unfold _emm_as_encode
  simp only []
  split_ifs with h1 h2 h3 <;>
    simp only [codec_positive_append] <;>
    simp [codec_positive, codec_results]

/-- The byte count of `_emm_as_encrypt` is positive exactly when its call of
`nas_message_encrypt` returns a positive byte count. -/
theorem encrypt_codec_positive (K : Codes) (E : Env) (info : as_nas_info_t)
    (header : nas_message_security_header_t) (msg : Bytes)
    (length : Int) (ctx : Option emm_security_context_t) (t : List Event) :
    codec_positive E (_emm_as_encrypt K E info header msg length ctx t).2.2 ↔
      codec_positive E t ∨ 0 < (_emm_as_encrypt K E info header msg length ctx t).1 := by
  unfold _emm_as_encrypt
  simp only []
  split_ifs with h1 h2 h3 <;>
    simp only [codec_positive_append] <;>
    simp [codec_positive, codec_results]

/-- The identifier returned by the send functions: each send function that
builds a payload, entered with a trace without a positive codec result (and,
for the establish confirm, when it returns), returns its access stratum message
identifier when the codec adapter produced a positive byte count (a call of
`nas_message_encode` or `nas_message_encrypt` of the function returned one)
and 0 otherwise; the identifiers being different from 0, the result is not 0
exactly in that case.  The identifier is `AS_DL_INFO_TRANSFER_REQ` for the
data request, the status indication, the security request and the security
reject, `AS_NAS_ESTABLISH_CNF` with `errCode = AS_SUCCESS` for the establish
confirm, and `AS_NAS_ESTABLISH_RSP` with `errCode = AS_TERMINATED_NAS` for
the establish reject. -/
theorem send_identifier_iff_bytes (K : Codes) (E : Env) (t : List Event)
    (hpre : ¬ codec_positive E t)
    (hdl : K.AS_DL_INFO_TRANSFER_REQ ≠ 0) (hcnf : K.AS_NAS_ESTABLISH_CNF ≠ 0)
    (hrsp : K.AS_NAS_ESTABLISH_RSP ≠ 0) :
    (∀ (m : emm_as_data_t) (as_msg : info_transfer_req_t) r,
      r = _emm_as_data_req K E m as_msg t →
      (codec_positive E r.2.2 → r.1 = K.AS_DL_INFO_TRANSFER_REQ) ∧
      (¬ codec_positive E r.2.2 → r.1 = 0) ∧ (r.1 ≠ 0 ↔ codec_positive E r.2.2)) ∧
    (∀ (m : emm_as_status_t) (as_msg : info_transfer_req_t) r,
      r = _emm_as_status_ind K E m as_msg t →
      (codec_positive E r.2.2 → r.1 = K.AS_DL_INFO_TRANSFER_REQ) ∧
      (¬ codec_positive E r.2.2 → r.1 = 0) ∧ (r.1 ≠ 0 ↔ codec_positive E r.2.2)) ∧
    (∀ (m : emm_as_security_t) (as_msg : info_transfer_req_t) r,
      r = _emm_as_security_req K E m as_msg t →
      (codec_positive E r.2.2 → r.1 = K.AS_DL_INFO_TRANSFER_REQ) ∧
      (¬ codec_positive E r.2.2 → r.1 = 0) ∧ (r.1 ≠ 0 ↔ codec_positive E r.2.2)) ∧
    (∀ (m : emm_as_security_t) (as_msg : info_transfer_req_t) r,
      r = _emm_as_security_rej K E m as_msg t →
      (codec_positive E r.2.2 → r.1 = K.AS_DL_INFO_TRANSFER_REQ) ∧
      (¬ codec_positive E r.2.2 → r.1 = 0) ∧ (r.1 ≠ 0 ↔ codec_positive E r.2.2)) ∧
    (∀ (m : emm_as_establish_t) (as_msg : nas_establish_rsp_t) r,
      _emm_as_establish_cnf K E m as_msg t = some r →
      (codec_positive E r.2.2 →
        r.1 = K.AS_NAS_ESTABLISH_CNF ∧ r.2.1.errCode = K.AS_SUCCESS) ∧
      (¬ codec_positive E r.2.2 → r.1 = 0) ∧ (r.1 ≠ 0 ↔ codec_positive E r.2.2)) ∧
    (∀ (m : emm_as_establish_t) (as_msg : nas_establish_rsp_t) r,
      r = _emm_as_establish_rej K E m as_msg t →
      (codec_positive E r.2.2 →
        r.1 = K.AS_NAS_ESTABLISH_RSP ∧ r.2.1.errCode = K.AS_TERMINATED_NAS) ∧
      (¬ codec_positive E r.2.2 → r.1 = 0) ∧ (r.1 ≠ 0 ↔ codec_positive E r.2.2)) := by
  have hb : ∀ b, ¬ codec_positive E [Event.emm_send b] := by
    intro b
    simp [codec_positive, codec_results]
  refine ⟨?_, ?_, ?_, ?_, ?_, ?_⟩
  · intro m as_msg r hr
    subst hr
    unfold _emm_as_data_req
    simp only []
    cases hh : (_emm_as_set_header K nas_message_t.zero (some m.sctx)).2 <;>
      cases hn : m.NASinfo <;>
      simp only [hh, hn, call_emm_send] <;>
      split_ifs <;>
      simp only [encode_codec_positive, encrypt_codec_positive, codec_positive_append] <;>
      simp_all
  · intro m as_msg r hr
    subst hr
    unfold _emm_as_status_ind encode_info_transfer
    simp only []
    cases hh : (_emm_as_set_header K nas_message_t.zero (some m.sctx)).2 <;>
      simp only [hh, call_emm_send] <;>
      split_ifs <;>
      simp only [encode_codec_positive, codec_positive_append] <;>
      simp_all
  · intro m as_msg r hr
    subst hr
    unfold _emm_as_security_req encode_info_transfer
    simp only []
    cases hh : (_emm_as_set_header K nas_message_t.zero (some m.sctx)).2 <;>
      cases hn : m.msgType <;>
      simp only [hh, hn, call_emm_send] <;>
      split_ifs <;>
      simp only [encode_codec_positive, codec_positive_append] <;>
      simp_all
  · intro m as_msg r hr
    subst hr
    unfold _emm_as_security_rej encode_info_transfer
    simp only []
    cases hh : (_emm_as_set_header K nas_message_t.zero (some m.sctx)).2 <;>
      cases hn : m.msgType <;>
      simp only [hh, hn, call_emm_send] <;>
      split_ifs <;>
      simp only [encode_codec_positive, codec_positive_append] <;>
      simp_all
  · intro m as_msg r hr
    unfold _emm_as_establish_cnf at hr
    simp only [] at hr
    cases hg : m.UEid_guti with
    | none =>
      simp only [hg] at hr
      cases hr
      simp_all
    | some g =>
      cases hh : (_emm_as_set_header K nas_message_t.zero (some m.sctx)).2 <;>
        cases hn : m.NASinfo <;>
        simp only [hg, hh, hn, call_emm_send] at hr <;>
        (repeat' split at hr) <;>
        (try cases hr) <;>
        simp only [encode_codec_positive, codec_positive_append] <;>
        simp_all
  · intro m as_msg r hr
    subst hr
    unfold _emm_as_establish_rej
    simp only []
    cases hh : (_emm_as_set_header K nas_message_t.zero (some m.sctx)).2 <;>
      cases hn : m.NASinfo <;>
      simp only [hh, hn, call_emm_send] <;>
      split_ifs <;>
      simp only [encode_codec_positive, codec_positive_append] <;>
      simp_all

/-- On a sample: the status indication of `sampleU`, whose payload the codec
encodes into three bytes, returns 1, the `AS_DL_INFO_TRANSFER_REQ` of
`sampleCodes`. -/
theorem send_identifier_iff_bytes_witness :
    (_emm_as_status_ind sampleCodes sampleEnvSending sampleU.status
      as_message_t.zero.info_transfer_req []).1 = 1 :=
  ((send_identifier_iff_bytes sampleCodes sampleEnvSending []
      (by unfold codec_positive; decide) (by decide) (by decide) (by decide)).2.1
    sampleU.status as_message_t.zero.info_transfer_req _ rfl).1
    (by unfold codec_positive; decide)

/-! ## The establish confirm -/

/-- C29: for every establish confirm whose GUTI is `NULL`,
`_emm_as_establish_cnf` returns 0, whatever the security snapshot, `NASinfo`
and the collaborators (among them the subscriber contexts) are: it only
writes `UEid`, and the trace is the one received, so that neither
`emm_send_attach_accept` nor the codec adapter is called; and its result does
not depend on the snapshot, the input of the header selector. -/
theorem establish_cnf_null_guti (K : Codes) (E : Env) (m : emm_as_establish_t)
    (as_msg : nas_establish_rsp_t) (t : List Event) (h : m.UEid_guti = none) :
    _emm_as_establish_cnf K E m as_msg t = some (0, { as_msg with UEid := m.ueid }, t) ∧
    (∀ (E1 : Env) (sctx : emm_as_security_data_t) (info : emm_as_nas_info),
      _emm_as_establish_cnf K E1 { m with sctx := sctx, NASinfo := info } as_msg t =
        _emm_as_establish_cnf K E m as_msg t) := by
  have key : ∀ (E1 : Env) (m1 : emm_as_establish_t), m1.UEid_guti = none →
      _emm_as_establish_cnf K E1 m1 as_msg t = some (0, { as_msg with UEid := m1.ueid }, t) := by
    intro E1 m1 h1
    unfold _emm_as_establish_cnf
    simp only [h1]
  refine ⟨key E m h, ?_⟩
  intro E1 sctx info
  rw [key E m h, key E1 { m with sctx := sctx, NASinfo := info } h]

/-- Witness of C29: the establish confirm data of `sampleU` has no GUTI; even
with collaborators that would build and encode a payload, the function
returns 0 and calls nothing. -/
theorem establish_cnf_null_guti_witness :
    _emm_as_establish_cnf sampleCodes sampleEnvSending sampleU.establish
        as_message_t.zero.nas_establish_rsp [] =
      some (0, as_message_t.zero.nas_establish_rsp, []) :=
  (establish_cnf_null_guti sampleCodes sampleEnvSending sampleU.establish
    as_message_t.zero.nas_establish_rsp [] rfl).1

/-- C30, evaluated: an establish confirm for subscriber 4, whose EMM context
exists but holds no security context.  The payload size is 3, positive, and
the lookup finds no security context; instead of passing the sequence number
0 and an absent context to the codec adapter, `_emm_as_establish_cnf` reads
`dl_count.seq_num` through the `NULL` security context, and neither it nor
`emm_as_send` returns.  On the same subscriber `_emm_as_establish_rej`
completes. -/
theorem establish_cnf_sequence_number_null :
    lookup_security sampleEnvNoSecurity 4 = none ∧
    (establish_cnf_payload sampleCodes sampleEnvNoSecurity sampleEstablishCnfData []).1 = 3 ∧
    _emm_as_establish_cnf sampleCodes sampleEnvNoSecurity sampleEstablishCnfData
      as_message_t.zero.nas_establish_rsp [] = none ∧
    emm_as_send sampleCodes sampleEnvNoSecurity sampleEstablishCnf = none ∧
    (_emm_as_establish_rej sampleCodes sampleEnvNoSecurity sampleEstablishCnfData
      as_message_t.zero.nas_establish_rsp []).1 = 2 := by
  decide

/-! ## Transport addressing of the send functions -/

/-- C31: in `_emm_as_data_req`, `_emm_as_status_ind`, `_emm_as_release_req`,
`_emm_as_security_req`, `_emm_as_security_rej` and `_emm_as_establish_rej`,
whatever else the function does: when a GUTI is supplied, `s_tmsi.MMEcode`
and `s_tmsi.m_tmsi` of the outbound message are the MME code and the M-TMSI
of the GUTI and `UEid` is the one received; otherwise `UEid` is the `ueid` of
the primitive and `s_tmsi` is the one received. -/
theorem send_transport_addressing (K : Codes) (E : Env) (t : List Event) :
    (∀ (m : emm_as_data_t) (as_msg : info_transfer_req_t),
      (∀ g, m.guti = some g →
        (_emm_as_data_req K E m as_msg t).2.1.s_tmsi =
          { MMEcode := g.MMEcode, m_tmsi := g.m_tmsi } ∧
        (_emm_as_data_req K E m as_msg t).2.1.UEid = as_msg.UEid) ∧
      (m.guti = none →
        (_emm_as_data_req K E m as_msg t).2.1.UEid = m.ueid ∧
        (_emm_as_data_req K E m as_msg t).2.1.s_tmsi = as_msg.s_tmsi)) ∧
    (∀ (m : emm_as_status_t) (as_msg : info_transfer_req_t),
      (∀ g, m.guti = some g →
        (_emm_as_status_ind K E m as_msg t).2.1.s_tmsi =
          { MMEcode := g.MMEcode, m_tmsi := g.m_tmsi } ∧
        (_emm_as_status_ind K E m as_msg t).2.1.UEid = as_msg.UEid) ∧
      (m.guti = none →
        (_emm_as_status_ind K E m as_msg t).2.1.UEid = m.ueid ∧
        (_emm_as_status_ind K E m as_msg t).2.1.s_tmsi = as_msg.s_tmsi)) ∧
    (∀ (m : emm_as_release_t) (as_msg : nas_release_req_t),
      (∀ g, m.guti = some g →
        (_emm_as_release_req K m as_msg).2.s_tmsi =
          { MMEcode := g.MMEcode, m_tmsi := g.m_tmsi } ∧
        (_emm_as_release_req K m as_msg).2.UEid = as_msg.UEid) ∧
      (m.guti = none →
        (_emm_as_release_req K m as_msg).2.UEid = m.ueid ∧
        (_emm_as_release_req K m as_msg).2.s_tmsi = as_msg.s_tmsi)) ∧
    (∀ (m : emm_as_security_t) (as_msg : info_transfer_req_t),
      (∀ g, m.guti = some g →
        (_emm_as_security_req K E m as_msg t).2.1.s_tmsi =
          { MMEcode := g.MMEcode, m_tmsi := g.m_tmsi } ∧
        (_emm_as_security_req K E m as_msg t).2.1.UEid = as_msg.UEid) ∧
      (m.guti = none →
        (_emm_as_security_req K E m as_msg t).2.1.UEid = m.ueid ∧
        (_emm_as_security_req K E m as_msg t).2.1.s_tmsi = as_msg.s_tmsi)) ∧
    (∀ (m : emm_as_security_t) (as_msg : info_transfer_req_t),
      (∀ g, m.guti = some g →
        (_emm_as_security_rej K E m as_msg t).2.1.s_tmsi =
          { MMEcode := g.MMEcode, m_tmsi := g.m_tmsi } ∧
        (_emm_as_security_rej K E m as_msg t).2.1.UEid = as_msg.UEid) ∧
      (m.guti = none →
        (_emm_as_security_rej K E m as_msg t).2.1.UEid = m.ueid ∧
        (_emm_as_security_rej K E m as_msg t).2.1.s_tmsi = as_msg.s_tmsi)) ∧
    (∀ (m : emm_as_establish_t) (as_msg : nas_establish_rsp_t),
      (∀ g, m.UEid_guti = some g →
        (_emm_as_establish_rej K E m as_msg t).2.1.s_tmsi =
          { MMEcode := g.MMEcode, m_tmsi := g.m_tmsi } ∧
        (_emm_as_establish_rej K E m as_msg t).2.1.UEid = as_msg.UEid) ∧
      (m.UEid_guti = none →
        (_emm_as_establish_rej K E m as_msg t).2.1.UEid = m.ueid ∧
        (_emm_as_establish_rej K E m as_msg t).2.1.s_tmsi = as_msg.s_tmsi)) := by
  refine ⟨?_, ?_, ?_, ?_, ?_, ?_⟩
  · intro m as_msg
    unfold _emm_as_data_req
    simp only []
    refine ⟨?_, ?_⟩
    · intro g hg
      simp only [hg]
      repeat' split
      all_goals simp
    · intro hg
      simp only [hg]
      repeat' split
      all_goals simp
  · intro m as_msg
    unfold _emm_as_status_ind encode_info_transfer
    simp only []
    refine ⟨?_, ?_⟩
    · intro g hg
      simp only [hg]
      repeat' split
      all_goals simp
    · intro hg
      simp only [hg]
      repeat' split
      all_goals simp
  · intro m as_msg
    unfold _emm_as_release_req
    simp only []
    refine ⟨?_, ?_⟩
    · intro g hg
      simp only [hg]
      repeat' split
      all_goals simp
    · intro hg
      simp only [hg]
      repeat' split
      all_goals simp
  · intro m as_msg
    unfold _emm_as_security_req encode_info_transfer
    simp only []
    refine ⟨?_, ?_⟩
    · intro g hg
      simp only [hg]
      repeat' split
      all_goals simp
    · intro hg
      simp only [hg]
      repeat' split
      all_goals simp
  · intro m as_msg
    unfold _emm_as_security_rej encode_info_transfer
    simp only []
    refine ⟨?_, ?_⟩
    · intro g hg
      simp only [hg]
      repeat' split
      all_goals simp
    · intro hg
      simp only [hg]
      repeat' split
      all_goals simp
  · intro m as_msg
    unfold _emm_as_establish_rej
    simp only []
    refine ⟨?_, ?_⟩
    · intro g hg
      simp only [hg]
      repeat' split
      all_goals simp
    · intro hg
      simp only [hg]
      repeat' split
      all_goals simp

/-- Witness of C31: a release request that supplies the GUTI (1, 9) fills
`s_tmsi` with it and leaves `UEid` at 0, the value received. -/
theorem send_transport_addressing_witness :
    (_emm_as_release_req sampleCodes sampleReleaseData
        as_message_t.zero.nas_release_req).2.s_tmsi = { MMEcode := 1, m_tmsi := 9 } ∧
    (_emm_as_release_req sampleCodes sampleReleaseData
        as_message_t.zero.nas_release_req).2.UEid = 0 :=
  ((send_transport_addressing sampleCodes sampleEnv []).2.2.1 sampleReleaseData
    as_message_t.zero.nas_release_req).1 sampleGuti rfl

/-! ## The fields reported by a successful establish confirm -/

/-- A successful `_emm_as_establish_cnf` (result not 0) for a subscriber whose
security context is `ctx`: the fields of the response taken from the
context. -/
theorem establish_cnf_success_fields (K : Codes) (E : Env) (m : emm_as_establish_t)
    (as_msg : nas_establish_rsp_t) (t : List Event)
    (r : Int × nas_establish_rsp_t × List Event) (ctx : emm_security_context_t)
    (hrun : _emm_as_establish_cnf K E m as_msg t = some r) (hok : r.1 ≠ 0)
    (hctx : lookup_security E m.ueid = some ctx) :
    r.1 = K.AS_NAS_ESTABLISH_CNF ∧ r.2.1.errCode = K.AS_SUCCESS ∧
    r.2.1.nas_ul_count =
      (ctx.ul_count.overflow <<< 8 ||| ctx.ul_count.seq_num) % 4294967296 ∧
    r.2.1.selected_encryption_algorithm =
      htons (65536 >>> ctx.selected_algorithms.encryption) ∧
    r.2.1.selected_integrity_algorithm =
      htons (65536 >>> ctx.selected_algorithms.integrity) := by
  unfold lookup_security at hctx
  unfold _emm_as_establish_cnf at hrun
  simp only [] at hrun
  cases hc : E.emm_data_context_get m.ueid with
  | none => simp [hc] at hctx
  | some c =>
    simp only [hc] at hctx hrun
    simp only [hctx] at hrun
    repeat' split at hrun
    all_goals first
      | (cases hrun
         simp at hok
         done)
      | (have hr := Option.some.inj hrun
         subst hr
         simp_all)

/-- The packing `(overflow << 8) | seq_num` of a sequence number below 256 is
`overflow * 256 + seq_num`. -/
theorem shift_or_eq_add (o s : Nat) (hs : s < 256) : o <<< 8 ||| s = o * 256 + s := by
  have h := Nat.mul_add_lt_is_or (show s < 2 ^ 8 by omega) o
  rw [Nat.shiftLeft_eq, Nat.mul_comm o (2 ^ 8), ← h, Nat.mul_comm]

/-- C32: when `_emm_as_establish_cnf` succeeds (its result is not 0) for a
subscriber whose security context is `ctx`, the reported `nas_ul_count` is
`(ul_count.overflow << 8) | ul_count.seq_num` as a 32-bit value.  For every
`seq_num` below 256 its low 8 bits are `seq_num` and its remaining 24 bits are
the overflow counter modulo 2^24: the overflow counter itself when it fits 24
bits, so that the pair is read back from the field. -/
theorem establish_cnf_nas_ul_count (K : Codes) (E : Env) (m : emm_as_establish_t)
    (as_msg : nas_establish_rsp_t) (t : List Event)
    (r : Int × nas_establish_rsp_t × List Event) (ctx : emm_security_context_t)
    (hrun : _emm_as_establish_cnf K E m as_msg t = some r) (hok : r.1 ≠ 0)
    (hctx : lookup_security E m.ueid = some ctx) :
    r.2.1.nas_ul_count =
      (ctx.ul_count.overflow <<< 8 ||| ctx.ul_count.seq_num) % 4294967296 ∧
    (ctx.ul_count.seq_num < 256 →
      r.2.1.nas_ul_count % 256 = ctx.ul_count.seq_num ∧
      r.2.1.nas_ul_count / 256 = ctx.ul_count.overflow % 16777216 ∧
      (ctx.ul_count.overflow < 16777216 →
        r.2.1.nas_ul_count / 256 = ctx.ul_count.overflow ∧
        r.2.1.nas_ul_count = ctx.ul_count.overflow * 256 + ctx.ul_count.seq_num)) := by
  have h := (establish_cnf_success_fields K E m as_msg t r ctx hrun hok hctx).2.2.1
  refine ⟨h, ?_⟩
  intro hs
  rw [h, shift_or_eq_add _ _ hs]
  omega

/-- Witness of C32: for `sampleContext`, whose uplink count has the overflow
counter 1 and the sequence number 2, a successful establish confirm reports
`nas_ul_count` = 258. -/
theorem establish_cnf_nas_ul_count_witness :
    ∃ r, _emm_as_establish_cnf sampleCodes sampleEnvSendingContext sampleEstablishCnfData
        as_message_t.zero.nas_establish_rsp [] = some r ∧
      r.1 = 3 ∧ r.2.1.nas_ul_count = 258 := by
  refine ⟨_, rfl, by decide, ?_⟩
  exact (establish_cnf_nas_ul_count sampleCodes sampleEnvSendingContext sampleEstablishCnfData
    as_message_t.zero.nas_establish_rsp [] _ sampleContext rfl (by decide) rfl).1

/-- C33: when `_emm_as_establish_cnf` succeeds (its result is not 0) for a
subscriber whose security context is `ctx`, `selected_encryption_algorithm`
and `selected_integrity_algorithm` are `htons` applied to `0x10000 >> id`,
where `id` is the identifier of the algorithm in the context; `htons` reads
its argument modulo 2^16 and its value is below 2^16.  The identifier 0 is
reported as 0; an identifier `k` from 1 to 7 gives the single bit `2^(16-k)`,
which lies in the high byte, and is reported byte-swapped, as `2^(8-k)`; and
the eight identifiers 0 to 7 are reported as eight pairwise distinct
values. -/
theorem establish_cnf_selected_algorithms (K : Codes) (E : Env) (m : emm_as_establish_t)
    (as_msg : nas_establish_rsp_t) (t : List Event)
    (r : Int × nas_establish_rsp_t × List Event) (ctx : emm_security_context_t)
    (hrun : _emm_as_establish_cnf K E m as_msg t = some r) (hok : r.1 ≠ 0)
    (hctx : lookup_security E m.ueid = some ctx) :
    r.2.1.selected_encryption_algorithm =
      htons (65536 >>> ctx.selected_algorithms.encryption) ∧
    r.2.1.selected_integrity_algorithm =
      htons (65536 >>> ctx.selected_algorithms.integrity) ∧
    (∀ x, htons x = htons (x % 65536) ∧ htons x < 65536) ∧
    htons (65536 >>> 0) = 0 ∧
    (∀ k, 1 ≤ k → k ≤ 7 →
      65536 >>> k = 2 ^ (16 - k) ∧ 2 ^ (16 - k) % 256 = 0 ∧
      htons (65536 >>> k) = 2 ^ (16 - k) / 256 ∧ htons (65536 >>> k) = 2 ^ (8 - k)) ∧
    (∀ i j, i ≤ 7 → j ≤ 7 → htons (65536 >>> i) = htons (65536 >>> j) → i = j) := by
  have h := establish_cnf_success_fields K E m as_msg t r ctx hrun hok hctx
  refine ⟨h.2.2.2.1, h.2.2.2.2, ?_, by decide, ?_, ?_⟩
  · intro x
    unfold htons
    refine ⟨by simp, ?_⟩
    omega
  · intro k h1 h2
    interval_cases k <;> decide
  · intro i j hi hj hij
    interval_cases i <;> interval_cases j <;> first
      | rfl
      | (exfalso
         revert hij
         decide)

/-- Witness of C33: for `sampleContext`, whose selected algorithms are 1 for
encryption and 2 for integrity, a successful establish confirm reports 128
and 64, the byte-swapped 0x8000 and 0x4000. -/
theorem establish_cnf_selected_algorithms_witness :
    ∃ r, _emm_as_establish_cnf sampleCodes sampleEnvSendingContext sampleEstablishCnfData
        as_message_t.zero.nas_establish_rsp [] = some r ∧
      r.2.1.selected_encryption_algorithm = 128 ∧ r.2.1.selected_integrity_algorithm = 64 := by
  have h := establish_cnf_selected_algorithms sampleCodes sampleEnvSendingContext
    sampleEstablishCnfData as_message_t.zero.nas_establish_rsp [] _ sampleContext rfl
    (by decide) rfl
  exact ⟨_, rfl, h.1, h.2.1⟩

/-! ## The codec adapter -/

/-- The `int` addition is the sum when the sum is an `int`. -/
theorem int_add_eq (a b : Int) (h1 : -2147483648 ≤ a + b) (h2 : a + b ≤ 2147483647) :
    int_add a b = a + b := by
  unfold int_add
  omega

/-- The `int` addition gives an `int`, congruent to the sum modulo 2^32; past
`INT_MAX` it is the sum less 2^32, a negative value when the sum is below
2^32. -/
theorem int_add_wraps (a b : Int) :
    -2147483648 ≤ int_add a b ∧ int_add a b ≤ 2147483647 ∧
    (int_add a b - (a + b)) % 4294967296 = 0 ∧
    (2147483647 < a + b → a + b < 4294967296 →
      int_add a b = a + b - 4294967296 ∧ int_add a b < 0) := by
  unfold int_add
  omega

/-- Shape of `_emm_as_encode`: the three ways it ends. -/
theorem encode_eq (K : Codes) (E : Env) (info : as_nas_info_t) (msg : nas_message_t)
    (length : Int) (ctx : Option emm_security_context_t) (t : List Event) :
    _emm_as_encode K E info msg length ctx t =
      if E.malloc (encode_length K msg length) = true then
        if 0 < (E.nas_message_encode (encode_message K msg) (encode_length K msg length) ctx).1
        then
          ((E.nas_message_encode (encode_message K msg) (encode_length K msg length) ctx).1,
            { length := (E.nas_message_encode (encode_message K msg)
                (encode_length K msg length) ctx).1.toNat,
              data := some (E.nas_message_encode (encode_message K msg)
                (encode_length K msg length) ctx).2 },
            encode_message K msg,
            t ++ [Event.malloc (encode_length K msg length),
              Event.nas_message_encode (encode_message K msg) (encode_length K msg length) ctx])
        else
          ((E.nas_message_encode (encode_message K msg) (encode_length K msg length) ctx).1,
            { length := 0, data := none }, encode_message K msg,
            t ++ [Event.malloc (encode_length K msg length),
              Event.nas_message_encode (encode_message K msg) (encode_length K msg length) ctx,
              Event.free])
      else
        (0, { info with data := none }, encode_message K msg,
          t ++ [Event.malloc (encode_length K msg length)]) := by
  unfold _emm_as_encode encode_length encode_message
  simp only []
  split_ifs <;> simp_all

/-- Shape of `_emm_as_encrypt`: the three ways it ends. -/
theorem encrypt_eq (K : Codes) (E : Env) (info : as_nas_info_t)
    (header : nas_message_security_header_t) (msg : Bytes) (length : Int)
    (ctx : Option emm_security_context_t) (t : List Event) :
    _emm_as_encrypt K E info header msg length ctx t =
      if E.malloc (encrypt_length K header length) = true then
        if 0 < (E.nas_message_encrypt msg header (encrypt_length K header length) ctx).1 then
          ((E.nas_message_encrypt msg header (encrypt_length K header length) ctx).1,
            { length := (E.nas_message_encrypt msg header
                (encrypt_length K header length) ctx).1.toNat,
              data := some (E.nas_message_encrypt msg header
                (encrypt_length K header length) ctx).2 },
            t ++ [Event.malloc (encrypt_length K header length),
              Event.nas_message_encrypt msg header (encrypt_length K header length) ctx])
        else
          ((E.nas_message_encrypt msg header (encrypt_length K header length) ctx).1,
            { length := 0, data := none },
            t ++ [Event.malloc (encrypt_length K header length),
              Event.nas_message_encrypt msg header (encrypt_length K header length) ctx,
              Event.free])
      else
        (0, { info with data := none }, t ++ [Event.malloc (encrypt_length K header length)]) := by
  unfold _emm_as_encrypt encrypt_length
  simp only []
  split_ifs <;> simp_all

/-- The byte budget of the codec adapter.  When `header.security_header_type`
differs from `SECURITY_HEADER_TYPE_NOT_PROTECTED`, `_emm_as_encode` and
`_emm_as_encrypt` request a buffer of `length +
NAS_MESSAGE_SECURITY_HEADER_SIZE`, the sum being the `int` addition
`int_add`, and, when they get it, pass that same value as the maximum length
to the codec; otherwise they request, and pass, exactly `length`.  In the
protected case `_emm_as_encode` also sets the header of the nested plain
message to `EPS_MOBILITY_MANAGEMENT_MESSAGE` and
`SECURITY_HEADER_TYPE_NOT_PROTECTED`, and nothing else of the message; in the
other case the message is unchanged. -/
theorem codec_adapter_byte_budget (K : Codes) (E : Env) (info : as_nas_info_t)
    (length : Int) (ctx : Option emm_security_context_t) (t : List Event) :
    (∀ msg : nas_message_t,
      (msg.header.security_header_type ≠ K.SECURITY_HEADER_TYPE_NOT_PROTECTED →
        (∃ l, (_emm_as_encode K E info msg length ctx t).2.2.2 =
            t ++ Event.malloc (int_add length K.NAS_MESSAGE_SECURITY_HEADER_SIZE) :: l ∧
          (E.malloc (int_add length K.NAS_MESSAGE_SECURITY_HEADER_SIZE) = true →
            ∃ l1, l = Event.nas_message_encode (_emm_as_encode K E info msg length ctx t).2.2.1
              (int_add length K.NAS_MESSAGE_SECURITY_HEADER_SIZE) ctx :: l1) ∧
          (E.malloc (int_add length K.NAS_MESSAGE_SECURITY_HEADER_SIZE) = false → l = [])) ∧
        (_emm_as_encode K E info msg length ctx t).2.2.1.security_protected.plain.emm.header =
          { protocol_discriminator := K.EPS_MOBILITY_MANAGEMENT_MESSAGE,
            security_header_type := K.SECURITY_HEADER_TYPE_NOT_PROTECTED,
            message_type := msg.security_protected.plain.emm.header.message_type } ∧
        (_emm_as_encode K E info msg length ctx t).2.2.1.security_protected.plain.emm.body =
          msg.security_protected.plain.emm.body ∧
        (_emm_as_encode K E info msg length ctx t).2.2.1.security_protected.header =
          msg.security_protected.header ∧
        (_emm_as_encode K E info msg length ctx t).2.2.1.header = msg.header ∧
        (_emm_as_encode K E info msg length ctx t).2.2.1.plain = msg.plain) ∧
      (msg.header.security_header_type = K.SECURITY_HEADER_TYPE_NOT_PROTECTED →
        (∃ l, (_emm_as_encode K E info msg length ctx t).2.2.2 =
            t ++ Event.malloc length :: l ∧
          (E.malloc length = true →
            ∃ l1, l = Event.nas_message_encode msg length ctx :: l1) ∧
          (E.malloc length = false → l = [])) ∧
        (_emm_as_encode K E info msg length ctx t).2.2.1 = msg)) ∧
    (∀ (header : nas_message_security_header_t) (msg : Bytes),
      (header.security_header_type ≠ K.SECURITY_HEADER_TYPE_NOT_PROTECTED →
        ∃ l, (_emm_as_encrypt K E info header msg length ctx t).2.2 =
            t ++ Event.malloc (int_add length K.NAS_MESSAGE_SECURITY_HEADER_SIZE) :: l ∧
          (E.malloc (int_add length K.NAS_MESSAGE_SECURITY_HEADER_SIZE) = true →
            ∃ l1, l = Event.nas_message_encrypt msg header
              (int_add length K.NAS_MESSAGE_SECURITY_HEADER_SIZE) ctx :: l1) ∧
          (E.malloc (int_add length K.NAS_MESSAGE_SECURITY_HEADER_SIZE) = false → l = [])) ∧
      (header.security_header_type = K.SECURITY_HEADER_TYPE_NOT_PROTECTED →
        ∃ l, (_emm_as_encrypt K E info header msg length ctx t).2.2 =
            t ++ Event.malloc length :: l ∧
          (E.malloc length = true →
            ∃ l1, l = Event.nas_message_encrypt msg header length ctx :: l1) ∧
          (E.malloc length = false → l = []))) := by
  refine ⟨?_, ?_⟩
  · intro msg
    rw [encode_eq]
    unfold encode_length encode_message
    refine ⟨?_, ?_⟩
    · intro hp
      simp only [hp, ne_eq, not_false_eq_true, if_true]
      split_ifs with h1 h2 <;> simp [h1]
    · intro hp
      simp only [hp, ne_eq, not_true_eq_false, if_false]
      split_ifs with h1 h2 <;> simp [h1]
  · intro header msg
    rw [encrypt_eq]
    unfold encrypt_length
    refine ⟨?_, ?_⟩
    · intro hp
      simp only [hp, ne_eq, not_false_eq_true, if_true]
      split_ifs with h1 h2 <;> simp [h1]
    · intro hp
      simp only [hp, ne_eq, not_true_eq_false, if_false]
      split_ifs with h1 h2 <;> simp [h1]

/-- The byte budget on a sample: for a header of type 1, integrity protected,
and 6 bytes of security header, `_emm_as_encrypt` asked to produce 2 bytes
requests a buffer of 2 + 6 bytes and passes 2 + 6 to `nas_message_encrypt`. -/
theorem codec_adapter_byte_budget_witness :
    ∃ l, (_emm_as_encrypt sampleCodes sampleEnvSending { length := 0, data := none }
        sampleHeaderProtected [7, 69] 2 none []).2.2 =
        [] ++ Event.malloc (int_add 2 sampleCodes.NAS_MESSAGE_SECURITY_HEADER_SIZE) :: l ∧
      (sampleEnvSending.malloc (int_add 2 sampleCodes.NAS_MESSAGE_SECURITY_HEADER_SIZE) = true →
        ∃ l1, l = Event.nas_message_encrypt [7, 69] sampleHeaderProtected
          (int_add 2 sampleCodes.NAS_MESSAGE_SECURITY_HEADER_SIZE) none :: l1) ∧
      (sampleEnvSending.malloc (int_add 2 sampleCodes.NAS_MESSAGE_SECURITY_HEADER_SIZE) = false →
        l = []) :=
  ((codec_adapter_byte_budget sampleCodes sampleEnvSending { length := 0, data := none } 2
    none []).2 sampleHeaderProtected [7, 69]).1 (by decide)

/-- C36: postcondition of `_emm_as_encode` and `_emm_as_encrypt`.  If the
allocation fails the function returns 0, `info.data` is `NULL` and the codec
is not called.  If the codec returns a positive byte count the function
returns it, `info.length` is that count and `info.data` is the buffer; if
the codec returns a byte count that is not positive the function returns it,
`info.length` is 0, `info.data` is `NULL` and the buffer has been freed.
Hence the result is positive if and only if `info` holds a buffer whose
length is the result. -/
theorem codec_adapter_postcondition (K : Codes) (E : Env) (info : as_nas_info_t)
    (length : Int) (ctx : Option emm_security_context_t) (t : List Event) :
    (∀ msg : nas_message_t,
      (E.malloc (encode_length K msg length) = false →
        (_emm_as_encode K E info msg length ctx t).1 = 0 ∧
        (_emm_as_encode K E info msg length ctx t).2.1.data = none ∧
        (_emm_as_encode K E info msg length ctx t).2.2.2 =
          t ++ [Event.malloc (encode_length K msg length)]) ∧
      (E.malloc (encode_length K msg length) = true →
        0 < (E.nas_message_encode (encode_message K msg) (encode_length K msg length) ctx).1 →
        (_emm_as_encode K E info msg length ctx t).1 =
          (E.nas_message_encode (encode_message K msg) (encode_length K msg length) ctx).1 ∧
        ((_emm_as_encode K E info msg length ctx t).2.1.length : Int) =
          (E.nas_message_encode (encode_message K msg) (encode_length K msg length) ctx).1 ∧
        (_emm_as_encode K E info msg length ctx t).2.1.data =
          some (E.nas_message_encode (encode_message K msg)
            (encode_length K msg length) ctx).2 ∧
        (_emm_as_encode K E info msg length ctx t).2.2.2 =
          t ++ [Event.malloc (encode_length K msg length),
            Event.nas_message_encode (encode_message K msg) (encode_length K msg length) ctx]) ∧
      (E.malloc (encode_length K msg length) = true →
        (E.nas_message_encode (encode_message K msg) (encode_length K msg length) ctx).1 ≤ 0 →
        (_emm_as_encode K E info msg length ctx t).1 =
          (E.nas_message_encode (encode_message K msg) (encode_length K msg length) ctx).1 ∧
        (_emm_as_encode K E info msg length ctx t).2.1.length = 0 ∧
        (_emm_as_encode K E info msg length ctx t).2.1.data = none ∧
        (_emm_as_encode K E info msg length ctx t).2.2.2 =
          t ++ [Event.malloc (encode_length K msg length),
            Event.nas_message_encode (encode_message K msg) (encode_length K msg length) ctx,
            Event.free]) ∧
      (0 < (_emm_as_encode K E info msg length ctx t).1 ↔
        ∃ buf, (_emm_as_encode K E info msg length ctx t).2.1.data = some buf ∧
          ((_emm_as_encode K E info msg length ctx t).2.1.length : Int) =
            (_emm_as_encode K E info msg length ctx t).1)) ∧
    (∀ (header : nas_message_security_header_t) (msg : Bytes),
      (E.malloc (encrypt_length K header length) = false →
        (_emm_as_encrypt K E info header msg length ctx t).1 = 0 ∧
        (_emm_as_encrypt K E info header msg length ctx t).2.1.data = none ∧
        (_emm_as_encrypt K E info header msg length ctx t).2.2 =
          t ++ [Event.malloc (encrypt_length K header length)]) ∧
      (E.malloc (encrypt_length K header length) = true →
        0 < (E.nas_message_encrypt msg header (encrypt_length K header length) ctx).1 →
        (_emm_as_encrypt K E info header msg length ctx t).1 =
          (E.nas_message_encrypt msg header (encrypt_length K header length) ctx).1 ∧
        ((_emm_as_encrypt K E info header msg length ctx t).2.1.length : Int) =
          (E.nas_message_encrypt msg header (encrypt_length K header length) ctx).1 ∧
        (_emm_as_encrypt K E info header msg length ctx t).2.1.data =
          some (E.nas_message_encrypt msg header (encrypt_length K header length) ctx).2 ∧
        (_emm_as_encrypt K E info header msg length ctx t).2.2 =
          t ++ [Event.malloc (encrypt_length K header length),
            Event.nas_message_encrypt msg header (encrypt_length K header length) ctx]) ∧
      (E.malloc (encrypt_length K header length) = true →
        (E.nas_message_encrypt msg header (encrypt_length K header length) ctx).1 ≤ 0 →
        (_emm_as_encrypt K E info header msg length ctx t).1 =
          (E.nas_message_encrypt msg header (encrypt_length K header length) ctx).1 ∧
        (_emm_as_encrypt K E info header msg length ctx t).2.1.length = 0 ∧
        (_emm_as_encrypt K E info header msg length ctx t).2.1.data = none ∧
        (_emm_as_encrypt K E info header msg length ctx t).2.2 =
          t ++ [Event.malloc (encrypt_length K header length),
            Event.nas_message_encrypt msg header (encrypt_length K header length) ctx,
            Event.free]) ∧
      (0 < (_emm_as_encrypt K E info header msg length ctx t).1 ↔
        ∃ buf, (_emm_as_encrypt K E info header msg length ctx t).2.1.data = some buf ∧
          ((_emm_as_encrypt K E info header msg length ctx t).2.1.length : Int) =
            (_emm_as_encrypt K E info header msg length ctx t).1)) := by
  refine ⟨?_, ?_⟩
  · intro msg
    rw [encode_eq]
    refine ⟨?_, ?_, ?_, ?_⟩
    · intro h1
      simp [h1]
    · intro h1 h2
      simp [h1, h2, Int.toNat_of_nonneg (le_of_lt h2)]
    · intro h1 h2
      simp [h1, not_lt.mpr h2]
    · split_ifs with h1 h2
      · simp [h2, Int.toNat_of_nonneg (le_of_lt h2)]
      · simp [h2]
      · simp
  · intro header msg
    rw [encrypt_eq]
    refine ⟨?_, ?_, ?_, ?_⟩
    · intro h1
      simp [h1]
    · intro h1 h2
      simp [h1, h2, Int.toNat_of_nonneg (le_of_lt h2)]
    · intro h1 h2
      simp [h1, not_lt.mpr h2]
    · split_ifs with h1 h2
      · simp [h2, Int.toNat_of_nonneg (le_of_lt h2)]
      · simp [h2]
      · simp

/-- Witness of C36: a codec that writes three bytes makes `_emm_as_encrypt`
return 3 with a buffer of length 3. -/
theorem codec_adapter_postcondition_witness :
    (_emm_as_encrypt sampleCodes sampleEnvSending { length := 0, data := none }
      sampleHeaderProtected [7, 69] 2 none []).1 = 3 ∧
    (_emm_as_encrypt sampleCodes sampleEnvSending { length := 0, data := none }
      sampleHeaderProtected [7, 69] 2 none []).2.1 = { length := 3, data := some [7, 96, 111] } := by
  have h := ((codec_adapter_postcondition sampleCodes sampleEnvSending
    { length := 0, data := none } 2 none []).2 sampleHeaderProtected [7, 69]).2.1
    (by decide) (by decide)
  exact ⟨h.1, by decide⟩

/-! ## The cleartext buffer of `_emm_as_data_ind` -/

/-- The buffer events of a trace extended by events. -/
theorem buffer_events_append (t l : List Event) :
    buffer_events (t ++ l) = buffer_events t ++ buffer_events l := by
  simp [buffer_events, List.filter_append]

/-- The function `_emm_as_recv` allocates and frees nothing. -/
theorem recv_buffer_events (K : Codes) (E : Env) (ueid : Nat) (msg : Bytes) (len : Int)
    (decode_status : Option nas_message_decode_status_t) (s s' : St) (rc : Int)
    (h : _emm_as_recv K E ueid msg len decode_status s = some (rc, s')) :
    buffer_events s'.trace = buffer_events s.trace := by
  unfold _emm_as_recv at h
  simp only [] at h
  split at h
  · cases h
    simp [St.log, St.set_emm_cause, buffer_events_append, buffer_events]
  · split at h <;> (try split at h) <;> (try cases h) <;>
      simp [St.log, St.set_emm_cause, call_emm_recv, buffer_events_append, buffer_events]

/-- The buffer events of a data indication that allocates its cleartext
buffer and returns: the buffer is freed on every path but the early return
taken on a hard decrypt failure. -/
theorem data_ind_buffer_events (K : Codes) (E : Env) (msg : emm_as_data_t)
    (emm_cause : Int) (rc : Int) (s : St) (hd : data_ind_decrypts E msg)
    (hrun : _emm_as_data_ind K E msg (St.init emm_cause) = some (rc, s)) :
    buffer_events s.trace =
      if data_ind_hard_failure K E msg then [Event.malloc msg.NASmsg.length]
      else [Event.malloc msg.NASmsg.length, Event.free] := by
  rw [data_ind_decrypts_eq K E msg _ hd] at hrun
  split_ifs at hrun with h1 h2 h3
  · cases hrun
    simp [h1, data_ind_decrypted_state, St.init, St.log, St.set_emm_cause, buffer_events]
  · cases hrecv : _emm_as_recv K E msg.ueid (data_ind_decrypt E msg).plain_msg
        (data_ind_decrypt E msg).bytes (some (data_ind_decrypt E msg).decode_status)
        (data_ind_decrypted_state E msg (St.init emm_cause)) with
    | none => rw [hrecv] at hrun; cases hrun
    | some p =>
      obtain ⟨rc1, s1⟩ := p
      rw [hrecv] at hrun
      cases hrun
      have hb := recv_buffer_events K E _ _ _ _ _ _ _ hrecv
      simp only [St.log, buffer_events_append, hb, h1, if_false]
      simp [data_ind_decrypted_state, St.init, St.log, buffer_events]
  · cases hrun
    simp [h1, data_ind_decrypted_state, St.init, St.log, buffer_events]
  · cases hrun
    simp [h1, data_ind_decrypted_state, St.init, St.log, buffer_events]

/-- C37, evaluated: a delivered data indication of two bytes whose cleartext
buffer is allocated and whose decryption fails with -13, a hard failure.
`_emm_as_data_ind` stores the cause 111 and returns -13 at once: the trace
holds the allocation of the buffer and no `free`. -/
theorem data_ind_hard_failure_keeps_buffer :
    data_ind_decrypts (sampleEnvDecrypting (-13) 7) sampleData ∧
    data_ind_hard_failure sampleCodes (sampleEnvDecrypting (-13) 7) sampleData ∧
    _emm_as_data_ind sampleCodes (sampleEnvDecrypting (-13) 7) sampleData (St.init (-1)) =
      some (-13, { emm_cause := 111,
                   trace := [Event.malloc 2, Event.nas_message_decrypt [7, 69] 2 none,
                     Event.set_emm_cause 111] }) ∧
    buffer_events [Event.malloc 2, Event.nas_message_decrypt [7, 69] 2 none,
      Event.set_emm_cause 111] = [Event.malloc 2] := by
  refine ⟨by unfold data_ind_decrypts; decide, by unfold data_ind_hard_failure; decide,
    by decide, by decide⟩

/-! ## The hand-over to the transport -/

/-- Shape of `_emm_as_send`: its switch, then the hand-over of the message to
the transport. -/
theorem send_eq_transport (K : Codes) (E : Env) (msg : emm_as_t) (t : List Event) :
    _emm_as_send K E msg t =
      match send_function_result K E msg t with
      | none => none
      | some (as_msg, t) =>
        if as_msg.msgID > 0 then
          if as_msg.msgID = K.AS_DL_INFO_TRANSFER_REQ then
            some (K.RETURNok,
              t ++ [Event.nas_itti_dl_data_req as_msg.info_transfer_req.UEid
                      as_msg.info_transfer_req.nasMsg.data
                      as_msg.info_transfer_req.nasMsg.length])
          else if as_msg.msgID = K.AS_NAS_ESTABLISH_RSP ∨
              as_msg.msgID = K.AS_NAS_ESTABLISH_CNF then
            if as_msg.nas_establish_rsp.errCode ≠ K.AS_SUCCESS then
              some (K.RETURNok,
                t ++ [Event.nas_itti_dl_data_req as_msg.nas_establish_rsp.UEid
                        as_msg.nas_establish_rsp.nasMsg.data
                        as_msg.nas_establish_rsp.nasMsg.length])
            else
              some (K.RETURNok,
                t ++ [Event.nas_itti_establish_cnf as_msg.nas_establish_rsp.UEid
                        as_msg.nas_establish_rsp.errCode as_msg.nas_establish_rsp.nasMsg.data
                        as_msg.nas_establish_rsp.nasMsg.length
                        as_msg.nas_establish_rsp.selected_encryption_algorithm
                        as_msg.nas_establish_rsp.selected_integrity_algorithm])
          else
            some (K.RETURNerror, t)
        else
          some (K.RETURNerror, t) := by
  unfold _emm_as_send send_function_result
  cases hp : msg.primitive <;> simp only [hp]

/-- C38: `_emm_as_send` returns `RETURNok` if and only if the selected send
function returned `AS_DL_INFO_TRANSFER_REQ`, `AS_NAS_ESTABLISH_RSP` or
`AS_NAS_ESTABLISH_CNF` (three positive identifiers, `RETURNok` and
`RETURNerror` being distinct), and otherwise returns `RETURNerror`.  In
exactly the first case the trace gains one call of the transport:
`nas_itti_dl_data_req` for `AS_DL_INFO_TRANSFER_REQ`, and for the two other
identifiers `nas_itti_establish_cnf` when `errCode` is `AS_SUCCESS` and
`nas_itti_dl_data_req` otherwise; in the second case the trace gains nothing.
Consequently, for a release request, a cell information request (their
identifiers being none of the three) and a paging indication, and for every
primitive outside the nine kinds of the switch, `_emm_as_send` returns
`RETURNerror` without a call of the transport, and so does `emm_as_send` for
the primitives it forwards to `_emm_as_send`. -/
theorem send_transport_iff_identifier (K : Codes) (E : Env) (msg : emm_as_t)
    (hdl : 0 < K.AS_DL_INFO_TRANSFER_REQ) (hrsp : 0 < K.AS_NAS_ESTABLISH_RSP)
    (hcnf : 0 < K.AS_NAS_ESTABLISH_CNF) (hne : K.RETURNok ≠ K.RETURNerror) :
    (∀ t as_msg t1, send_function_result K E msg t = some (as_msg, t1) →
      ∃ rc t2, _emm_as_send K E msg t = some (rc, t2) ∧
        (rc = K.RETURNok ↔
          (as_msg.msgID = K.AS_DL_INFO_TRANSFER_REQ ∨ as_msg.msgID = K.AS_NAS_ESTABLISH_RSP ∨
            as_msg.msgID = K.AS_NAS_ESTABLISH_CNF)) ∧
        (rc ≠ K.RETURNok →
          rc = K.RETURNerror ∧ t2 = t1 ∧ transport_calls t2 = transport_calls t1) ∧
        (rc = K.RETURNok →
          ∃ e, t2 = t1 ++ [e] ∧ transport_calls t2 = transport_calls t1 ++ [e]) ∧
        (as_msg.msgID = K.AS_DL_INFO_TRANSFER_REQ →
          t2 = t1 ++ [Event.nas_itti_dl_data_req as_msg.info_transfer_req.UEid
            as_msg.info_transfer_req.nasMsg.data as_msg.info_transfer_req.nasMsg.length]) ∧
        (as_msg.msgID ≠ K.AS_DL_INFO_TRANSFER_REQ →
          as_msg.msgID = K.AS_NAS_ESTABLISH_RSP ∨ as_msg.msgID = K.AS_NAS_ESTABLISH_CNF →
          as_msg.nas_establish_rsp.errCode = K.AS_SUCCESS →
          t2 = t1 ++ [Event.nas_itti_establish_cnf as_msg.nas_establish_rsp.UEid
            as_msg.nas_establish_rsp.errCode as_msg.nas_establish_rsp.nasMsg.data
            as_msg.nas_establish_rsp.nasMsg.length
            as_msg.nas_establish_rsp.selected_encryption_algorithm
            as_msg.nas_establish_rsp.selected_integrity_algorithm]) ∧
        (as_msg.msgID ≠ K.AS_DL_INFO_TRANSFER_REQ →
          as_msg.msgID = K.AS_NAS_ESTABLISH_RSP ∨ as_msg.msgID = K.AS_NAS_ESTABLISH_CNF →
          as_msg.nas_establish_rsp.errCode ≠ K.AS_SUCCESS →
          t2 = t1 ++ [Event.nas_itti_dl_data_req as_msg.nas_establish_rsp.UEid
            as_msg.nas_establish_rsp.nasMsg.data as_msg.nas_establish_rsp.nasMsg.length])) ∧
    (msg.primitive ∉
        [emm_as_primitive_t._EMMAS_DATA_REQ, emm_as_primitive_t._EMMAS_STATUS_IND,
          emm_as_primitive_t._EMMAS_SECURITY_REQ, emm_as_primitive_t._EMMAS_SECURITY_REJ,
          emm_as_primitive_t._EMMAS_ESTABLISH_CNF, emm_as_primitive_t._EMMAS_ESTABLISH_REJ] →
      K.AS_NAS_RELEASE_REQ ∉
        [K.AS_DL_INFO_TRANSFER_REQ, K.AS_NAS_ESTABLISH_RSP, K.AS_NAS_ESTABLISH_CNF] →
      K.AS_CELL_INFO_REQ ∉
        [K.AS_DL_INFO_TRANSFER_REQ, K.AS_NAS_ESTABLISH_RSP, K.AS_NAS_ESTABLISH_CNF] →
      (∀ t, _emm_as_send K E msg t = some (K.RETURNerror, t)) ∧
      (msg.primitive ∉
          [emm_as_primitive_t._EMMAS_DATA_IND, emm_as_primitive_t._EMMAS_ESTABLISH_REQ,
            emm_as_primitive_t._EMMAS_CELL_INFO_RES, emm_as_primitive_t._EMMAS_CELL_INFO_IND] →
        emm_as_send K E msg = some (K.RETURNerror, []))) := by
  refine ⟨?_, ?_⟩
  · intro t as_msg t1 hsel
    rw [send_eq_transport, hsel]
    simp only []
    by_cases h2 : as_msg.msgID = K.AS_DL_INFO_TRANSFER_REQ
    · have h1 : as_msg.msgID > 0 := by
        rw [h2]
        exact hdl
      rw [if_pos h1, if_pos h2]
      refine ⟨_, _, rfl, ?_⟩
      simp [h2, transport_calls, List.filter_append]
    · by_cases h3 : as_msg.msgID = K.AS_NAS_ESTABLISH_RSP ∨
          as_msg.msgID = K.AS_NAS_ESTABLISH_CNF
      · have h1 : as_msg.msgID > 0 := by
          rcases h3 with h | h <;> rw [h] <;> assumption
        rw [if_pos h1, if_neg h2, if_pos h3]
        by_cases h4 : as_msg.nas_establish_rsp.errCode = K.AS_SUCCESS
        · rw [if_neg (not_not.mpr h4)]
          refine ⟨_, _, rfl, ?_⟩
          simp [h2, h3, h4, transport_calls, List.filter_append]
        · rw [if_pos h4]
          refine ⟨_, _, rfl, ?_⟩
          simp [h2, h3, h4, transport_calls, List.filter_append]
      · have h5 : ¬ as_msg.msgID = K.AS_NAS_ESTABLISH_RSP := fun h => h3 (Or.inl h)
        have h6 : ¬ as_msg.msgID = K.AS_NAS_ESTABLISH_CNF := fun h => h3 (Or.inr h)
        by_cases h1 : as_msg.msgID > 0
        · rw [if_pos h1, if_neg h2, if_neg h3]
          refine ⟨_, _, rfl, ?_⟩
          simp [h2, h5, h6, hne.symm]
        · rw [if_neg h1]
          refine ⟨_, _, rfl, ?_⟩
          simp [h2, h5, h6, hne.symm]
  · intro hprim hrel hcell
    simp only [List.mem_cons, List.mem_singleton, List.not_mem_nil, or_false, not_or] at hrel
    simp only [List.mem_cons, List.mem_singleton, List.not_mem_nil, or_false, not_or] at hcell
    have hsend : ∀ t, _emm_as_send K E msg t = some (K.RETURNerror, t) := by
      intro t
      rw [send_eq_transport]
      unfold send_function_result
      cases hp : msg.primitive <;> simp only [hp] at hprim ⊢ <;>
        simp [_emm_as_release_req, _emm_as_page_ind, _emm_as_cell_info_req, hrel, hcell]
          at hprim ⊢
    refine ⟨hsend, ?_⟩
    intro hrecv
    simp only [List.mem_cons, List.mem_singleton, List.not_mem_nil, or_false, not_or] at hrecv
    rw [emm_as_send_default_eq K E msg hrecv.1 hrecv.2.1 hrecv.2.2.1 hrecv.2.2.2, hsend]
    simp

/-- Witness of C38: a release request of the sample builds a message of
identifier `AS_NAS_RELEASE_REQ` and is reported as `RETURNerror`, with no call
recorded. -/
theorem send_transport_iff_identifier_witness :
    (∀ t, _emm_as_send sampleCodes sampleEnvSending sampleReleaseReq t = some (-1, t)) ∧
    emm_as_send sampleCodes sampleEnvSending sampleReleaseReq = some (-1, []) := by
  obtain ⟨h1, h2⟩ :=
    (send_transport_iff_identifier sampleCodes sampleEnvSending sampleReleaseReq
      (by decide) (by decide) (by decide) (by decide)).2
      (by decide) (by decide) (by decide)
  exact ⟨h1, h2 (by decide)⟩

/-- C38, counterexample to the last clause read over all primitives: a cell
information response is outside the nine kinds of the switch of
`_emm_as_send`, and `emm_as_send` handles it itself and returns `RETURNok`. -/
theorem send_outside_nine_kinds_counterexample :
    sampleCellInfoRes.primitive ∉
      [emm_as_primitive_t._EMMAS_DATA_REQ, emm_as_primitive_t._EMMAS_STATUS_IND,
        emm_as_primitive_t._EMMAS_RELEASE_REQ, emm_as_primitive_t._EMMAS_SECURITY_REQ,
        emm_as_primitive_t._EMMAS_SECURITY_REJ, emm_as_primitive_t._EMMAS_ESTABLISH_CNF,
        emm_as_primitive_t._EMMAS_ESTABLISH_REJ, emm_as_primitive_t._EMMAS_PAGE_IND,
        emm_as_primitive_t._EMMAS_CELL_INFO_REQ] ∧
    emm_as_send sampleCodes sampleEnvSending sampleCellInfoRes = some (0, []) ∧
    sampleCodes.RETURNok = 0 ∧ sampleCodes.RETURNerror = -1 := by
  decide

/-! ## Reads through the security context -/

/-- The inputs on which `_emm_as_establish_cnf` reads through a `NULL`
security context: a payload of positive size was built (so the GUTI is not
`NULL` and the selector did not deny) and the EMM context of the subscriber
exists without a security context. -/
theorem establish_cnf_none_iff (K : Codes) (E : Env) (msg : emm_as_establish_t)
    (as_msg : nas_establish_rsp_t) (t : List Event) :
    _emm_as_establish_cnf K E msg as_msg t = none ↔
      (0 < (establish_cnf_payload K E msg t).1 ∧
        ∃ emm_ctx, E.emm_data_context_get msg.ueid = some emm_ctx ∧ emm_ctx.security = none) := by
  unfold _emm_as_establish_cnf establish_cnf_payload
  cases hg : msg.UEid_guti with
  | none => simp
  | some g =>
    simp only []
    cases hc : E.emm_data_context_get msg.ueid with
    | none =>
      simp only [false_and, exists_false, and_false, iff_false]
      split_ifs <;> simp
    | some c =>
      cases hs : c.security with
      | none => simp [hs]
      | some ctx =>
        simp only [Option.some.injEq, exists_eq_left', hs, and_false, iff_false]
        split_ifs <;> simp

/-- C39, evaluated: subscriber 4, whose EMM context exists but holds no
security context, every payload builder reporting the size 3.
`_emm_as_data_req`, `_emm_as_status_ind`, `_emm_as_security_req`,
`_emm_as_security_rej` and `_emm_as_establish_rej` complete and return their
message identifier; `_emm_as_establish_cnf` reads `dl_count.seq_num` and
`selected_algorithms` through the `NULL` security context and does not
return. -/
theorem establish_cnf_reads_absent_context :
    (sampleEnvNoSecurity.emm_data_context_get 4).map (fun c => c.security.isSome) =
      some false ∧
    (_emm_as_data_req sampleCodes sampleEnvNoSecurity
      { sampleU.data with ueid := 4, NASinfo := emm_as_nas_data.EMM_AS_NAS_DATA_DETACH }
      as_message_t.zero.info_transfer_req []).1 = 1 ∧
    (_emm_as_status_ind sampleCodes sampleEnvNoSecurity { sampleU.status with ueid := 4 }
      as_message_t.zero.info_transfer_req []).1 = 1 ∧
    (_emm_as_security_req sampleCodes sampleEnvNoSecurity
      { sampleU.security with ueid := 4, msgType := emm_as_msg_type.EMM_AS_MSG_TYPE_SMC }
      as_message_t.zero.info_transfer_req []).1 = 1 ∧
    (_emm_as_security_rej sampleCodes sampleEnvNoSecurity
      { sampleU.security with ueid := 4, msgType := emm_as_msg_type.EMM_AS_MSG_TYPE_AUTH }
      as_message_t.zero.info_transfer_req []).1 = 1 ∧
    (_emm_as_establish_rej sampleCodes sampleEnvNoSecurity sampleEstablishCnfData
      as_message_t.zero.nas_establish_rsp []).2.2 =
        [Event.emm_send emm_send_builder.emm_send_attach_reject, Event.malloc 3,
          Event.nas_message_encode
            (establish_rej_payload sampleCodes sampleEnvNoSecurity sampleEstablishCnfData []).2.1
            3 none] ∧
    (∀ as_msg t, _emm_as_establish_cnf sampleCodes sampleEnvNoSecurity sampleEstablishCnfData
      as_msg t = none) := by
  refine ⟨by decide, by decide, by decide, by decide, by decide, by decide, ?_⟩
  intro as_msg t
  rw [establish_cnf_none_iff]
  refine ⟨?_, _, rfl, rfl⟩
  simp [establish_cnf_payload, sampleEstablishCnfData, _emm_as_set_header, sampleCodes,
    sampleSecurity, call_emm_send, sampleEnvNoSecurity, sampleEnvSending]

/-! ## The selector and the codec adapter -/

/-- C40: the selector and the codec adapter agree on where the payload lives.
The four protected header types being different from
`SECURITY_HEADER_TYPE_NOT_PROTECTED`, whenever `_emm_as_set_header` returns a
pointer, that pointer is `&msg->security_protected.plain.emm` if and only if the
`security_header_type` it wrote differs from
`SECURITY_HEADER_TYPE_NOT_PROTECTED`, which is the test of `_emm_as_encode`:
exactly then `_emm_as_encode` requests `length +
NAS_MESSAGE_SECURITY_HEADER_SIZE` bytes (an `int` addition, the sum itself
when that is an `int`) and sets the header of the nested plain message, and
otherwise it requests `length` bytes and leaves the message as it is.  In
every case, `NULL` included, the protocol discriminator of the header is
`EPS_MOBILITY_MANAGEMENT_MESSAGE`. -/
theorem selector_agrees_with_codec_adapter (K : Codes) (msg : nas_message_t)
    (security : Option emm_as_security_data_t)
    (h1 : K.SECURITY_HEADER_TYPE_INTEGRITY_PROTECTED ≠ K.SECURITY_HEADER_TYPE_NOT_PROTECTED)
    (h2 : K.SECURITY_HEADER_TYPE_INTEGRITY_PROTECTED_CYPHERED ≠
      K.SECURITY_HEADER_TYPE_NOT_PROTECTED)
    (h3 : K.SECURITY_HEADER_TYPE_INTEGRITY_PROTECTED_NEW ≠ K.SECURITY_HEADER_TYPE_NOT_PROTECTED)
    (h4 : K.SECURITY_HEADER_TYPE_INTEGRITY_PROTECTED_CYPHERED_NEW ≠
      K.SECURITY_HEADER_TYPE_NOT_PROTECTED) :
    (_emm_as_set_header K msg security).1.header.protocol_discriminator =
      K.EPS_MOBILITY_MANAGEMENT_MESSAGE ∧
    (∀ p, (_emm_as_set_header K msg security).2 = some p →
      (p = EMM_msg_ptr.security_protected_plain_emm ↔
        (_emm_as_set_header K msg security).1.header.security_header_type ≠
          K.SECURITY_HEADER_TYPE_NOT_PROTECTED) ∧
      (p = EMM_msg_ptr.plain_emm ↔
        (_emm_as_set_header K msg security).1.header.security_header_type =
          K.SECURITY_HEADER_TYPE_NOT_PROTECTED) ∧
      ∀ (E : Env) (info : as_nas_info_t) (length : Int) (ctx : Option emm_security_context_t)
        (t : List Event),
        (p = EMM_msg_ptr.security_protected_plain_emm →
          (∃ l, (_emm_as_encode K E info (_emm_as_set_header K msg security).1 length ctx t).2.2.2 =
            t ++ Event.malloc (int_add length K.NAS_MESSAGE_SECURITY_HEADER_SIZE) :: l) ∧
          (-2147483648 ≤ length + K.NAS_MESSAGE_SECURITY_HEADER_SIZE →
            length + K.NAS_MESSAGE_SECURITY_HEADER_SIZE ≤ 2147483647 →
            int_add length K.NAS_MESSAGE_SECURITY_HEADER_SIZE =
              length + K.NAS_MESSAGE_SECURITY_HEADER_SIZE) ∧
          ((_emm_as_encode K E info (_emm_as_set_header K msg security).1 length ctx
              t).2.2.1.security_protected.plain.emm.header.protocol_discriminator =
            K.EPS_MOBILITY_MANAGEMENT_MESSAGE ∧
           (_emm_as_encode K E info (_emm_as_set_header K msg security).1 length ctx
              t).2.2.1.security_protected.plain.emm.header.security_header_type =
            K.SECURITY_HEADER_TYPE_NOT_PROTECTED)) ∧
        (p = EMM_msg_ptr.plain_emm →
          (∃ l, (_emm_as_encode K E info (_emm_as_set_header K msg security).1 length ctx t).2.2.2 =
            t ++ Event.malloc length :: l) ∧
          (_emm_as_encode K E info (_emm_as_set_header K msg security).1 length ctx t).2.2.1 =
            (_emm_as_set_header K msg security).1)) := by
  have key : (_emm_as_set_header K msg security).1.header.protocol_discriminator =
        K.EPS_MOBILITY_MANAGEMENT_MESSAGE ∧
      ∀ p, (_emm_as_set_header K msg security).2 = some p →
        ((p = EMM_msg_ptr.security_protected_plain_emm ∧
          (_emm_as_set_header K msg security).1.header.security_header_type ≠
            K.SECURITY_HEADER_TYPE_NOT_PROTECTED) ∨
         (p = EMM_msg_ptr.plain_emm ∧
          (_emm_as_set_header K msg security).1.header.security_header_type =
            K.SECURITY_HEADER_TYPE_NOT_PROTECTED)) := by
    cases security with
    | none => simp [_emm_as_set_header, nas_message_t.set_security_header_type]
    | some s =>
      rcases s with ⟨is_new, ksi, sqn, count, k_enc, k_int⟩
      by_cases g1 : ksi = K.EMM_AS_NO_KEY_AVAILABLE <;> by_cases g2 : is_new = 0 <;>
        cases k_int <;> cases k_enc <;>
        simp [_emm_as_set_header, nas_message_t.set_security_header_type, g1, g2, h1, h2, h3,
          h4]
  refine ⟨key.1, ?_⟩
  intro p hp
  have hk := key.2 p hp
  refine ⟨?_, ?_, ?_⟩
  · rcases hk with ⟨hp1, hty⟩ | ⟨hp1, hty⟩
    · simp [hp1, hty]
    · simp [hp1, hty]
  · rcases hk with ⟨hp1, hty⟩ | ⟨hp1, hty⟩
    · simp [hp1, hty]
    · simp [hp1, hty]
  · intro E info length ctx t
    rw [encode_eq]
    unfold encode_length encode_message
    rcases hk with ⟨hp1, hty⟩ | ⟨hp1, hty⟩
    · refine ⟨fun _ => ⟨?_, int_add_eq _ _, ?_⟩, fun hq => ?_⟩
      · simp only [hty, ne_eq, not_false_eq_true, if_true]
        split_ifs <;> simp
      · simp only [hty, ne_eq, not_false_eq_true, if_true]
        split_ifs <;> simp
      · rw [hp1] at hq
        cases hq
    · refine ⟨fun hq => ?_, fun _ => ?_⟩
      · rw [hp1] at hq
        cases hq
      · simp only [hty, ne_eq, not_true_eq_false, if_false]
        split_ifs <;> simp

/-- Witness of C40: on the zero-initialised message, the sample snapshot that
is new with both keys gives the nested payload and the header type 4, and
`_emm_as_encode` then requests `3 + 6` bytes. -/
theorem selector_agrees_with_codec_adapter_witness :
    (_emm_as_set_header sampleCodes nas_message_t.zero (some sampleSecurityNew)).2 =
      some EMM_msg_ptr.security_protected_plain_emm ∧
    (_emm_as_set_header sampleCodes nas_message_t.zero
      (some sampleSecurityNew)).1.header.security_header_type ≠ 0 ∧
    ∃ l, (_emm_as_encode sampleCodes sampleEnvSending { length := 0, data := none }
        (_emm_as_set_header sampleCodes nas_message_t.zero (some sampleSecurityNew)).1 3 none
        []).2.2.2 = [] ++ Event.malloc (3 + 6) :: l := by
  have hp : (_emm_as_set_header sampleCodes nas_message_t.zero (some sampleSecurityNew)).2 =
      some EMM_msg_ptr.security_protected_plain_emm := by decide
  obtain ⟨_, h⟩ := selector_agrees_with_codec_adapter sampleCodes nas_message_t.zero
    (some sampleSecurityNew) (by decide) (by decide) (by decide) (by decide)
  obtain ⟨ha, _, hc⟩ := h _ hp
  exact ⟨hp, ha.mp rfl,
    ((hc sampleEnvSending { length := 0, data := none } 3 none []).1 rfl).1⟩

/-! ## The `DETACH_REQUEST` test and an absent security context -/

/-- The inputs on which the `DETACH_REQUEST` case of `_emm_as_recv` reads
`emm_security_context->activated` through `NULL`: the decoder reports a
context as available and the subscriber has none.  On every other
`DETACH_REQUEST` whose decoder result is not negative the call returns. -/
theorem recv_detach_request_none_iff (K : Codes) (E : Env) (ueid : Nat)
    (msg : Bytes) (len : Int) (decode_status : Option nas_message_decode_status_t) (s : St)
    (hrc : 0 ≤ (recv_decode E ueid msg len decode_status).rc)
    (hty : (recv_decode E ueid msg len decode_status).nas_msg.plain.emm.header.message_type =
      emm_message_type.DETACH_REQUEST) :
    _emm_as_recv K E ueid msg len decode_status s = none ↔
      ((recv_decode E ueid msg len decode_status).decode_status.security_context_available = 1 ∧
        lookup_security E ueid = none) := by
  unfold recv_decode at hrc hty ⊢
  unfold _emm_as_recv
  simp only [hty, not_lt.mpr hrc, if_false]
  generalize E.nas_message_decode msg len (lookup_security E ueid)
    (decode_status.getD nas_message_decode_status_t.zero) = d
  generalize lookup_security E ueid = ctx
  unfold detach_check_violated
  by_cases hsca : 1 = d.decode_status.security_context_available
  · rw [if_pos hsca]
    cases ctx with
    | none => simp [hsca.symm]
    | some c =>
      by_cases hcond : 0 < c.activated ∧
          (0 = d.decode_status.integrity_protected_message ∨ 0 = d.decode_status.mac_matched)
      · simp [hcond]
      · simp [hcond, call_emm_recv]
  · have hsca1 : ¬ d.decode_status.security_context_available = 1 := fun h => hsca h.symm
    rw [if_neg hsca]
    simp [call_emm_recv, hsca1]

/-- C28, evaluated on the establish confirm.  For a subscriber without EMM
context and for a subscriber whose context holds a security context, the
payload of 3 bytes is encoded and `_emm_as_establish_cnf` returns
`AS_NAS_ESTABLISH_CNF` (3) with `errCode = AS_SUCCESS` (1).  For a subscriber
whose EMM context holds no security context the codec adapter is not reached:
the function reads through `NULL` and returns neither its identifier nor 0,
while `_emm_as_establish_rej` returns `AS_NAS_ESTABLISH_RSP` (2) with
`errCode = AS_TERMINATED_NAS` (2) for the same subscriber. -/
theorem establish_cnf_returns_no_identifier :
    (_emm_as_establish_cnf sampleCodes sampleEnvSending sampleEstablishCnfData
      as_message_t.zero.nas_establish_rsp []).map (fun r => (r.1, r.2.1.errCode)) =
        some (3, 1) ∧
    (_emm_as_establish_cnf sampleCodes sampleEnvSendingContext sampleEstablishCnfData
      as_message_t.zero.nas_establish_rsp []).map (fun r => (r.1, r.2.1.errCode)) =
        some (3, 1) ∧
    (∀ r, _emm_as_establish_cnf sampleCodes sampleEnvNoSecurity sampleEstablishCnfData
      as_message_t.zero.nas_establish_rsp [] ≠ some r) ∧
    (sampleEnvNoSecurity.nas_message_encode
      (establish_cnf_payload sampleCodes sampleEnvNoSecurity sampleEstablishCnfData []).2.1
      3 none).1 = 3 ∧
    ((_emm_as_establish_rej sampleCodes sampleEnvNoSecurity sampleEstablishCnfData
      as_message_t.zero.nas_establish_rsp []).1,
     (_emm_as_establish_rej sampleCodes sampleEnvNoSecurity sampleEstablishCnfData
      as_message_t.zero.nas_establish_rsp []).2.1.errCode) = (2, 2) := by
  refine ⟨by decide, by decide, ?_, by decide, by decide⟩
  intro r hr
  have hnone : _emm_as_establish_cnf sampleCodes sampleEnvNoSecurity sampleEstablishCnfData
      as_message_t.zero.nas_establish_rsp [] = none := by decide
  rw [hnone] at hr
  cases hr

/-! ## The byte budget at the end of the `int` range -/

/-- C35, evaluated at the end of the `int` range, with 6 bytes of security
header.  For a protected header and `length = INT_MAX`, the mathematical
budget `length + 6` is 2147483653; the `int` addition of `_emm_as_encrypt` and
`_emm_as_encode` overflows and the buffer requested has the length
-2147483643.  The allocator refusing it, both functions return 0 without a
call of the codec, and so does `_emm_as_data_req` for a message of `INT_MAX`
bytes to forward: nothing is sent.  At `INT_MAX - 6` the budget is `INT_MAX`
and the codec is called with it. -/
theorem codec_adapter_budget_overflow :
    (2147483647 : Int) + sampleCodes.NAS_MESSAGE_SECURITY_HEADER_SIZE = 2147483653 ∧
    _emm_as_encrypt sampleCodes sampleEnvSendingBounded { length := 0, data := none }
        sampleHeaderProtected [7, 69] 2147483647 none [] =
      (0, { length := 0, data := none }, [Event.malloc (-2147483643)]) ∧
    (_emm_as_encode sampleCodes sampleEnvSendingBounded { length := 0, data := none }
        sampleMessageProtected 2147483647 none []).1 = 0 ∧
    (_emm_as_encode sampleCodes sampleEnvSendingBounded { length := 0, data := none }
        sampleMessageProtected 2147483647 none []).2.2.2 = [Event.malloc (-2147483643)] ∧
    (_emm_as_data_req sampleCodes sampleEnvSendingBounded (sampleDataReqOfLength 2147483647)
        as_message_t.zero.info_transfer_req []).1 = 0 ∧
    (_emm_as_data_req sampleCodes sampleEnvSendingBounded (sampleDataReqOfLength 2147483647)
        as_message_t.zero.info_transfer_req []).2.2 = [Event.malloc (-2147483643)] ∧
    _emm_as_encrypt sampleCodes sampleEnvSendingBounded { length := 0, data := none }
        sampleHeaderProtected [7, 69] 2147483641 none [] =
      (3, { length := 3, data := some [7, 96, 111] },
        [Event.malloc 2147483647,
          Event.nas_message_encrypt [7, 69] sampleHeaderProtected 2147483647 none]) := by
  decide

end EmmAs
